import Mathlib

/-!
# Virtual camera IPC bridge (`ipcbridge.cpp`, CoreMediaIO back end)

A shallow embedding of `AkVCam::IpcBridge` and `AkVCam::IpcBridgePrivate`.

* The per-instance record `IpcBridgePrivate` is an explicit state value.
* Everything the bridge does to the outside world (XPC connections, XPC
  messages, `system`, IOSurface calls) is appended, in program order, to a
  log of `Event`s.
* Everything the outside world answers is read from an `Env`.  Every answer
  may depend on the whole log so far and on the arguments of the call, so an
  `Env` is an arbitrary deterministic transport behaviour.
* Undefined behaviour of the C++ code (building a `std::string` from a null
  pointer, handing a null object to an XPC accessor, sending on a null
  connection) is the outcome `fault`.
-/

namespace AkVCam

/-! ## XPC objects -/

/-- A non-null `xpc_connection_t`. -/
abbrev Conn := Nat

/-- A non-null `IOSurfaceRef`. -/
abbrev SurfaceRef := Nat

/-- A C `double`, carried as its IEEE-754 bit pattern: the bridge only moves
    frame rates between messages and never computes with them. -/
abbrev Double64 := Nat

/-- The bit pattern of the quiet NaN that `xpc_dictionary_get_double` yields
    for a key that is missing or holds no double. -/
def Double64.nan : Double64 := 0x7FF8000000000000

/-- An `xpc_object_t`, by XPC type. -/
inductive XpcObject where
  | error (description : String)
  | bool (b : Bool)
  | int64 (v : Int)
  | uint64 (v : Nat)
  | double (v : Double64)
  | string (s : String)
  | connection (c : Conn)
  | surface (s : SurfaceRef)
  | array (items : List XpcObject)
  | dictionary (entries : List (String × XpcObject))

/-- The entries of an object for which `xpc_get_type` is
    `XPC_TYPE_DICTIONARY`. -/
def XpcObject.asDictionary : XpcObject → Option (List (String × XpcObject))
  | .dictionary entries => some entries
  | _ => none

/-- Test `xpc_get_type(o) == XPC_TYPE_ERROR`. -/
def XpcObject.isError : XpcObject → Bool
  | .error _ => true
  | _ => false

/-- Function `xpc_dictionary_get_value`: the stored object, null when the key
    is absent. -/
def xpc_dictionary_get_value (entries : List (String × XpcObject)) (key : String) :
    Option XpcObject :=
  entries.lookup key

/-- Function `xpc_dictionary_get_string`: null unless the key holds a
    string. -/
def xpc_dictionary_get_string (entries : List (String × XpcObject)) (key : String) :
    Option String :=
  match entries.lookup key with
  | some (.string s) => some s
  | _ => none

/-- Function `xpc_dictionary_get_bool`: `false` unless the key holds a
    boolean. -/
def xpc_dictionary_get_bool (entries : List (String × XpcObject)) (key : String) : Bool :=
  match entries.lookup key with
  | some (.bool b) => b
  | _ => false

/-- Function `xpc_dictionary_get_int64`: `0` unless the key holds a signed
    integer. -/
def xpc_dictionary_get_int64 (entries : List (String × XpcObject)) (key : String) : Int :=
  match entries.lookup key with
  | some (.int64 v) => v
  | _ => 0

/-- Function `xpc_dictionary_get_uint64`: `0` unless the key holds an unsigned
    integer. -/
def xpc_dictionary_get_uint64 (entries : List (String × XpcObject)) (key : String) : Nat :=
  match entries.lookup key with
  | some (.uint64 v) => v
  | _ => 0

/-- Function `xpc_dictionary_get_double`: NaN unless the key holds a
    double. -/
def xpc_dictionary_get_double (entries : List (String × XpcObject)) (key : String) :
    Double64 :=
  match entries.lookup key with
  | some (.double v) => v
  | _ => Double64.nan

/-- Function `xpc_dictionary_get_array`: null unless the key holds an
    array. -/
def xpc_dictionary_get_array (entries : List (String × XpcObject)) (key : String) :
    Option (List XpcObject) :=
  match entries.lookup key with
  | some (.array items) => some items
  | _ => none

/-- The string that `xpc_array_get_string` yields for an array element: null
    unless the element is a string. -/
def XpcObject.asString : XpcObject → Option String
  | .string s => some s
  | _ => none

/-- The C string `s.c_str()` as the functions that take a `const char *`
    read it: the characters of `s` before its first NUL character.
    `xpc_dictionary_set_string` stores that much of a `std::string`. -/
def c_str (s : String) : String :=
  ⟨s.data.takeWhile fun ch => ch != Char.ofNat 0⟩

/-! ## Fixed-width integer conversions -/

/-- Conversion to `uint32_t` (`FourCC(...)`). -/
def toUInt32 (v : Int) : Nat := (v % 2 ^ 32).toNat

/-- Conversion to a 32-bit `int` (`int(...)`). -/
def toInt32 (v : Int) : Int := (v + 2 ^ 31) % 2 ^ 32 - 2 ^ 31

/-- Conversion to `int64_t` (`int64_t(...)`). -/
def toInt64 (v : Int) : Int := (v + 2 ^ 63) % 2 ^ 64 - 2 ^ 63

/-! ## Values of `VCamUtils` -/

/-- The `FourCC` pixel format code, a `uint32_t`. -/
abbrev FourCC := Nat

/-- Class `VideoFormat` as the bridge uses it: `fourcc()`, `width()`,
    `height()` and the frame rate list. -/
structure VideoFormat where
  fourcc : FourCC
  width : Int
  height : Int
  frameRates : List Double64
deriving DecidableEq, Repr

/-- Class `VideoFrame` as the bridge uses it: `format()`, the pixel buffer
    `data()` and `dataSize()`. -/
structure VideoFrame where
  format : VideoFormat
  data : List Nat
  dataSize : Nat
deriving DecidableEq, Repr

/-- Modelled from the spec: `VideoFrame::Scaling` is declared in
    `videoframe.h`, which is not in this tree; the spec lists the modes as
    Fast, Linear.  A value is kept as its underlying integer because the
    bridge builds it by a cast from an `int64`. -/
abbrev Scaling := Int

/-- Enumerator `VideoFrame::ScalingFast`. -/
def ScalingFast : Scaling := 0

/-- Enumerator `VideoFrame::ScalingLinear`. -/
def ScalingLinear : Scaling := 1

/-- Modelled from the spec: `VideoFrame::AspectRatio` is declared in
    `videoframe.h`, which is not in this tree; the spec lists the modes as
    Ignore, Keep, Expand. -/
abbrev AspectRatio := Int

/-- Enumerator `VideoFrame::AspectRatioIgnore`. -/
def AspectRatioIgnore : AspectRatio := 0

/-- Enumerator `VideoFrame::AspectRatioKeep`. -/
def AspectRatioKeep : AspectRatio := 1

/-- Enumerator `VideoFrame::AspectRatioExpanding`. -/
def AspectRatioExpanding : AspectRatio := 2

/-- The pixel formats named by `supportedOutputPixelFormats`. -/
inductive PixelFormat where
  | PixelFormatRGB32
  | PixelFormatRGB24
  | PixelFormatUYVY
  | PixelFormatYUY2
deriving DecidableEq, Repr

/-! ## Protocol constants -/

/-- The `AKVCAM_ASSISTANT_MSG_*` message kinds used by the bridge. -/
inductive AssistantMsg where
  | REQUEST_PORT
  | ADD_PORT
  | REMOVE_PORT
  | DEVICE_CREATE
  | DEVICE_DESTROY
  | DEVICES
  | DESCRIPTION
  | FORMATS
  | DEVICE_BROADCASTING
  | DEVICE_MIRRORING
  | DEVICE_SCALING
  | DEVICE_ASPECTRATIO
  | DEVICE_SETBROADCASTING
  | DEVICE_SETMIRRORING
  | DEVICE_SETSCALING
  | DEVICE_SETASPECTRATIO
  | FRAME_READY
  | DEVICE_CREATED
  | DEVICE_DESTROYED
  | DEVICE_BROADCASTING_CHANGED
  | DEVICE_MIRRORING_CHANGED
  | DEVICE_SCALING_CHANGED
  | DEVICE_ASPECTRATIO_CHANGED
deriving DecidableEq, Repr

/-! ## Events and environment -/

/-- The two event handler blocks installed by `registerEndPoint`. -/
inductive EventHandler where
  /-- The empty block installed on the registry connection. -/
  | ignore
  /-- The block installed on the listener connection: it routes the events of
      every peer to `messageReceived`. -/
  | listener
deriving DecidableEq, Repr

/-- The properties dictionary handed to `IOSurfaceCreate`. -/
structure SurfaceProperties where
  pixelFormat : Nat
  width : Int
  height : Int
  allocSize : Int
deriving DecidableEq, Repr

/-- An `IpcBridge *`. -/
abbrev BridgePtr := Nat

/-- The option `kIOSurfaceLockReadOnly` of `IOSurfaceLock`. -/
def kIOSurfaceLockReadOnly : Nat := 1

/-- What the `IOSurfaceGet*` calls report about a surface: pixel format,
    width, height, allocation size, and the bytes found at its base
    address. -/
structure SurfaceView where
  pixelFormat : Nat
  width : Nat
  height : Nat
  allocSize : Nat
  contents : List Nat
deriving DecidableEq, Repr

/-- One invocation of a callback slot of a bridge, named after the slot, with
    the arguments handed to the callable. -/
inductive Notification where
  | deviceAdded (device : String)
  | deviceRemoved (device : String)
  | frameReady (deviceId : String) (videoFrame : VideoFrame)
  | broadcastingChanged (deviceId : String) (broadcasting : Bool)
  | mirrorChanged (deviceId : String) (horizontalMirror verticalMirror : Bool)
  | scalingChanged (deviceId : String) (scaling : Scaling)
  | aspectRatioChanged (deviceId : String) (aspectRatio : AspectRatio)
deriving DecidableEq, Repr

/-- One externally visible action of the bridge. -/
inductive Event where
  /-- Call `system(command)`. -/
  | system (command : String)
  /-- Call `xpc_connection_create_mach_service(name, NULL, 0)` with its
      result. -/
  | createMachService (name : String) (result : Option Conn)
  /-- Call `xpc_connection_create(NULL, NULL)` with its result. -/
  | connectionCreate (result : Option Conn)
  /-- Call `xpc_connection_set_event_handler`. -/
  | setEventHandler (c : Conn) (handler : EventHandler)
  /-- Call `xpc_connection_resume`. -/
  | resume (c : Conn)
  /-- Call `xpc_connection_send_message_with_reply_sync` on the given
      connection pointer (`none` is the null pointer). -/
  | sendSync (c : Option Conn) (message : XpcObject)
  /-- Call `xpc_connection_send_message` on the given connection pointer. -/
  | send (c : Option Conn) (message : XpcObject)
  /-- Call `xpc_release` on a connection. -/
  | release (c : Conn)
  /-- Call `IOSurfaceCreate` with its result. -/
  | surfaceCreate (properties : SurfaceProperties) (result : Option SurfaceRef)
  /-- Call `IOSurfaceLock(surface, options, &seed)`. -/
  | surfaceLock (s : SurfaceRef) (options : Nat)
  /-- Call `memcpy` of `n` bytes of `source` to the base address of the
      surface. -/
  | memcpy (s : SurfaceRef) (source : List Nat) (n : Nat)
  /-- Call `IOSurfaceUnlock(surface, options, &seed)`. -/
  | surfaceUnlock (s : SurfaceRef) (options : Nat)
  /-- Call `CFRelease` on a surface. -/
  | surfaceRelease (s : SurfaceRef)
  /-- Call `IOSurfaceLookupFromXPCObject` on the given object pointer with its
      result. -/
  | surfaceLookup (frame : Option XpcObject) (result : Option SurfaceRef)
  /-- Call of the callable `handler` held by a callback slot of `bridge`. -/
  | callback (bridge : BridgePtr) (handler : Nat) (call : Notification)

/-- The world around one bridge.  The first four fields are values that the
    source takes from headers outside this tree; the others answer the
    external calls, each from the log at the time of the call and the
    arguments of the call.  The two macros and `getenv("USER")` are C strings,
    which hold no NUL character, so the commands that `startAssistant` builds
    from them are passed to `system` whole. -/
structure Env where
  /-- Macro `AKVCAM_ASSISTANT_NAME` (`assistantglobals.h`). -/
  assistantName : String
  /-- Macro `CMIO_DAEMONS_PATH` (`assistantglobals.h`). -/
  daemonsPath : String
  /-- The numeric value of each `AKVCAM_ASSISTANT_MSG_*` macro. -/
  msg : AssistantMsg → Int
  /-- Method `VideoFormat::minimumFrameRate` (`videoformat.h`). -/
  minimumFrameRate : VideoFormat → Double64
  /-- The value of `getenv("USER")`, taken to be set. -/
  user : String
  /-- The exit status of `system(command)`. -/
  system : List Event → String → Int
  /-- The result of `xpc_connection_create_mach_service(name, NULL, 0)`. -/
  createMachService : List Event → String → Option Conn
  /-- The result of `xpc_connection_create(NULL, NULL)`. -/
  connectionCreate : List Event → Option Conn
  /-- The reply of `xpc_connection_send_message_with_reply_sync`. -/
  sendSync : List Event → Option Conn → XpcObject → XpcObject
  /-- The result of `IOSurfaceCreate`. -/
  surfaceCreate : List Event → SurfaceProperties → Option SurfaceRef
  /-- The result of `IOSurfaceLookupFromXPCObject`. -/
  surfaceLookup : List Event → Option XpcObject → Option SurfaceRef
  /-- What `IOSurfaceGetPixelFormat`, `IOSurfaceGetWidth`, `IOSurfaceGetHeight`,
      `IOSurfaceGetAllocSize` and `IOSurfaceGetBaseAddress` yield for a
      surface. -/
  surfaceRead : List Event → SurfaceRef → SurfaceView

/-! ## The private record -/

/-- A callback slot: `none` is an empty `std::function`, `some h` holds the
    callable `h`. -/
abbrev Callback := Option Nat

/-- The data members of `IpcBridgePrivate` that belong to one bridge.  The
    handler table `m_messageHandlers` is constant after construction and the
    list `m_bridges` is used only in the process-wide instance. -/
structure IpcBridgePrivate where
  portName : String
  messagePort : Option Conn
  serverMessagePort : Option Conn
  devices : List String
  frameReadyCallback : Callback
  deviceAddedCallback : Callback
  deviceRemovedCallback : Callback
  broadcastingChangedCallback : Callback
  mirrorChangedCallback : Callback
  scalingChangedCallback : Callback
  aspectRatioChangedCallback : Callback
  broadcasting : List String
deriving DecidableEq, Repr

/-- The result of running a member function: it returns `val` leaving the
    record `d` and the log `log`, or it runs into undefined behaviour. -/
inductive Outcome (α : Type) where
  | ret (val : α) (d : IpcBridgePrivate) (log : List Event)
  | fault (log : List Event)

/-- The log at the end of a run. -/
def Outcome.log {α : Type} : Outcome α → List Event
  | .ret _ _ log => log
  | .fault log => log

/-- Forget the returned value. -/
def Outcome.void {α : Type} : Outcome α → Outcome Unit
  | .ret _ d log => .ret () d log
  | .fault log => .fault log

/-! ## `IpcBridgePrivate` -/

/-- Member `IpcBridgePrivate::startAssistant`: probe the service with
    `launchctl list`; when the probe fails, load the daemon's property list
    and report whether that worked. -/
def startAssistant (env : Env) (log : List Event) : Bool × List Event :=
  let launchctl := "launchctl list " ++ env.assistantName
  let result := env.system log launchctl
  let log := log ++ [Event.system launchctl]
  if result ≠ 0 then
    let homePath := "/Users/" ++ env.user
    let daemon := env.daemonsPath ++ "/" ++ env.assistantName ++ ".plist"
    let daemon := if daemon.front = '~' then homePath ++ daemon.drop 1 else daemon
    let launchctl := "launchctl load -w " ++ daemon
    let result := env.system log launchctl
    let log := log ++ [Event.system launchctl]
    (decide (result = 0), log)
  else
    (true, log)

/-- The member initialisers of the constructor: null ports, empty strings,
    containers and callbacks. -/
def IpcBridgePrivate.fresh : IpcBridgePrivate :=
  { portName := "",
    messagePort := none,
    serverMessagePort := none,
    devices := [],
    frameReadyCallback := none,
    deviceAddedCallback := none,
    deviceRemovedCallback := none,
    broadcastingChangedCallback := none,
    mirrorChangedCallback := none,
    scalingChangedCallback := none,
    aspectRatioChangedCallback := none,
    broadcasting := [] }

/-- The constructor `IpcBridgePrivate(IpcBridge *parent)`: the member
    initialisers and one call of `startAssistant` whose result is dropped. -/
def IpcBridgePrivate.construct (env : Env) (log : List Event) : Outcome Unit :=
  .ret () IpcBridgePrivate.fresh (startAssistant env log).2

/-! ## `IpcBridge`: registration -/

/-- The label `registerEndPoint_failed`: release the connections made so far
    and return `false`. -/
def registerEndPoint_failed (d : IpcBridgePrivate) (log : List Event)
    (messagePort serverMessagePort : Option Conn) : Outcome Bool :=
  let log := match messagePort with
    | some m => log ++ [Event.release m]
    | none => log
  let log := match serverMessagePort with
    | some c => log ++ [Event.release c]
    | none => log
  .ret false d log

/-- Member `IpcBridge::registerEndPoint`. -/
def registerEndPoint (env : Env) (d : IpcBridgePrivate) (log : List Event)
    (asClient : Bool) : Outcome Bool :=
  if d.serverMessagePort.isSome then
    .ret true d log
  else
    match env.createMachService log env.assistantName with
    | none =>
      registerEndPoint_failed d
        (log ++ [Event.createMachService env.assistantName none]) none none
    | some c =>
      let log := log ++
        [Event.createMachService env.assistantName (some c),
         Event.setEventHandler c .ignore, Event.resume c]
      let dictionary := XpcObject.dictionary
        [("message", .int64 (env.msg .REQUEST_PORT)), ("client", .bool asClient)]
      let reply := env.sendSync log (some c) dictionary
      let log := log ++ [Event.sendSync (some c) dictionary]
      match reply.asDictionary with
      | none => registerEndPoint_failed d log none (some c)
      | some entries =>
        -- `portName = xpc_dictionary_get_string(reply, "port")`
        match xpc_dictionary_get_string entries "port" with
        | none => .fault log
        | some portName =>
          match env.connectionCreate log with
          | none =>
            registerEndPoint_failed d (log ++ [Event.connectionCreate none]) none (some c)
          | some m =>
            let log := log ++
              [Event.connectionCreate (some m),
               Event.setEventHandler m .listener, Event.resume m]
            let dictionary := XpcObject.dictionary
              [("message", .int64 (env.msg .ADD_PORT)), ("port", .string (c_str portName)),
               ("connection", .connection m)]
            let reply := env.sendSync log (some c) dictionary
            let log := log ++ [Event.sendSync (some c) dictionary]
            let status := match reply.asDictionary with
              | some entries => xpc_dictionary_get_bool entries "status"
              | none => false
            if reply.asDictionary.isNone ∨ status = false then
              registerEndPoint_failed d log (some m) (some c)
            else
              .ret true
                { d with portName := portName, messagePort := some m,
                         serverMessagePort := some c }
                log

/-- Member `IpcBridge::unregisterEndPoint`. -/
def unregisterEndPoint (env : Env) (d : IpcBridgePrivate) (log : List Event) :
    Outcome Unit :=
  let log := match d.messagePort with
    | some m => log ++ [Event.release m]
    | none => log
  let d := { d with messagePort := none }
  let log := match d.serverMessagePort with
    | some c =>
      let log :=
        if d.portName ≠ "" then
          log ++ [Event.send (some c) (XpcObject.dictionary
            [("message", .int64 (env.msg .REMOVE_PORT)), ("port", .string (c_str d.portName))])]
        else log
      log ++ [Event.release c]
    | none => log
  let d := { d with serverMessagePort := none }
  .ret () { d with portName := "" } log

/-! ## `IpcBridge`: read accessors -/

/-- The loop of `listDevices`:
    `devices.push_back(xpc_array_get_string(devicesList, i))` for every index,
    which builds a `std::string` from the element and so needs every element
    to be a string. -/
def listDevices_loop (devicesList : List XpcObject) : Option (List String) :=
  devicesList.mapM XpcObject.asString

/-- Member `IpcBridge::listDevices`. -/
def listDevices (env : Env) (d : IpcBridgePrivate) (log : List Event) (all : Bool) :
    Outcome (List String) :=
  match d.serverMessagePort with
  | none => .ret [] d log
  | some c =>
    if ¬ all then
      .ret d.devices d log
    else
      let dictionary := XpcObject.dictionary [("message", .int64 (env.msg .DEVICES))]
      let reply := env.sendSync log (some c) dictionary
      let log := log ++ [Event.sendSync (some c) dictionary]
      match reply.asDictionary with
      | none => .ret [] d log
      | some entries =>
        -- `xpc_array_get_count` on a null array is undefined
        match xpc_dictionary_get_array entries "devices" with
        | none => .fault log
        | some devicesList =>
          match listDevices_loop devicesList with
          | none => .fault log
          | some devices => .ret devices d log

/-- Member `IpcBridge::description`. -/
def description (env : Env) (d : IpcBridgePrivate) (log : List Event)
    (deviceId : String) : Outcome String :=
  match d.serverMessagePort with
  | none => .ret "" d log
  | some c =>
    let dictionary := XpcObject.dictionary
      [("message", .int64 (env.msg .DESCRIPTION)), ("device", .string (c_str deviceId))]
    let reply := env.sendSync log (some c) dictionary
    let log := log ++ [Event.sendSync (some c) dictionary]
    match reply.asDictionary with
    | none => .ret "" d log
    | some entries =>
      -- `std::string description(xpc_dictionary_get_string(reply, "description"))`
      match xpc_dictionary_get_string entries "description" with
      | none => .fault log
      | some description => .ret description d log

/-- Member `IpcBridge::supportedOutputPixelFormats`. -/
def supportedOutputPixelFormats : List PixelFormat :=
  [.PixelFormatRGB32, .PixelFormatRGB24, .PixelFormatUYVY, .PixelFormatYUY2]

/-- The body of the loop of `formats` for one element of the array:
    `xpc_array_get_dictionary`, which is null unless the element is a
    dictionary, and the four field reads.  A null element dictionary handed to
    the field reads is undefined. -/
def formats_decode (item : XpcObject) : Option VideoFormat :=
  match item.asDictionary with
  | some format =>
    let fourcc := toUInt32 (Int.ofNat (xpc_dictionary_get_uint64 format "fourcc"))
    let width := toInt32 (xpc_dictionary_get_int64 format "width")
    let height := toInt32 (xpc_dictionary_get_int64 format "height")
    let fps := xpc_dictionary_get_double format "fps"
    some { fourcc := fourcc, width := width, height := height, frameRates := [fps] }
  | none => none

/-- Member `IpcBridge::formats`. -/
def formats (env : Env) (d : IpcBridgePrivate) (log : List Event)
    (deviceId : String) : Outcome (List VideoFormat) :=
  match d.serverMessagePort with
  | none => .ret [] d log
  | some c =>
    let dictionary := XpcObject.dictionary
      [("message", .int64 (env.msg .FORMATS)), ("device", .string (c_str deviceId))]
    let reply := env.sendSync log (some c) dictionary
    let log := log ++ [Event.sendSync (some c) dictionary]
    match reply.asDictionary with
    | none => .ret [] d log
    | some entries =>
      match xpc_dictionary_get_array entries "formats" with
      | none => .fault log
      | some formatsList =>
        match formatsList.mapM formats_decode with
        | none => .fault log
        | some formats => .ret formats d log

/-- Member `IpcBridge::broadcasting`. -/
def broadcasting (env : Env) (d : IpcBridgePrivate) (log : List Event)
    (deviceId : String) : Outcome Bool :=
  match d.serverMessagePort with
  | none => .ret false d log
  | some c =>
    let dictionary := XpcObject.dictionary
      [("message", .int64 (env.msg .DEVICE_BROADCASTING)), ("device", .string (c_str deviceId))]
    let reply := env.sendSync log (some c) dictionary
    let log := log ++ [Event.sendSync (some c) dictionary]
    match reply.asDictionary with
    | none => .ret false d log
    | some entries => .ret (xpc_dictionary_get_bool entries "broadcasting") d log

/-- Member `IpcBridge::isHorizontalMirrored`. -/
def isHorizontalMirrored (env : Env) (d : IpcBridgePrivate) (log : List Event)
    (deviceId : String) : Outcome Bool :=
  match d.serverMessagePort with
  | none => .ret false d log
  | some c =>
    let dictionary := XpcObject.dictionary
      [("message", .int64 (env.msg .DEVICE_MIRRORING)), ("device", .string (c_str deviceId))]
    let reply := env.sendSync log (some c) dictionary
    let log := log ++ [Event.sendSync (some c) dictionary]
    match reply.asDictionary with
    | none => .ret false d log
    | some entries => .ret (xpc_dictionary_get_bool entries "hmirror") d log

/-- Member `IpcBridge::isVerticalMirrored`. -/
def isVerticalMirrored (env : Env) (d : IpcBridgePrivate) (log : List Event)
    (deviceId : String) : Outcome Bool :=
  match d.serverMessagePort with
  | none => .ret false d log
  | some c =>
    let dictionary := XpcObject.dictionary
      [("message", .int64 (env.msg .DEVICE_MIRRORING)), ("device", .string (c_str deviceId))]
    let reply := env.sendSync log (some c) dictionary
    let log := log ++ [Event.sendSync (some c) dictionary]
    match reply.asDictionary with
    | none => .ret false d log
    | some entries => .ret (xpc_dictionary_get_bool entries "vmirror") d log

/-- Member `IpcBridge::scalingMode`. -/
def scalingMode (env : Env) (d : IpcBridgePrivate) (log : List Event)
    (deviceId : String) : Outcome Scaling :=
  match d.serverMessagePort with
  | none => .ret ScalingFast d log
  | some c =>
    let dictionary := XpcObject.dictionary
      [("message", .int64 (env.msg .DEVICE_SCALING)), ("device", .string (c_str deviceId))]
    let reply := env.sendSync log (some c) dictionary
    let log := log ++ [Event.sendSync (some c) dictionary]
    match reply.asDictionary with
    | none => .ret ScalingFast d log
    | some entries => .ret (toInt32 (xpc_dictionary_get_int64 entries "scaling")) d log

/-- Member `IpcBridge::aspectRatioMode`. -/
def aspectRatioMode (env : Env) (d : IpcBridgePrivate) (log : List Event)
    (deviceId : String) : Outcome AspectRatio :=
  match d.serverMessagePort with
  | none => .ret AspectRatioIgnore d log
  | some c =>
    let dictionary := XpcObject.dictionary
      [("message", .int64 (env.msg AssistantMsg.DEVICE_ASPECTRATIO)),
       ("device", .string (c_str deviceId))]
    let reply := env.sendSync log (some c) dictionary
    let log := log ++ [Event.sendSync (some c) dictionary]
    match reply.asDictionary with
    | none => .ret AspectRatioIgnore d log
    | some entries => .ret (toInt32 (xpc_dictionary_get_int64 entries "aspect")) d log

/-! ## `IpcBridge`: devices -/

/-- The body of the loop of `deviceCreate` that encodes one format. -/
def deviceCreate_encode (env : Env) (format : VideoFormat) : XpcObject :=
  .dictionary
    [("fourcc", .uint64 format.fourcc), ("width", .int64 format.width),
     ("height", .int64 format.height), ("fps", .double (env.minimumFrameRate format))]

/-- Member `IpcBridge::deviceCreate`. -/
def deviceCreate (env : Env) (d : IpcBridgePrivate) (log : List Event)
    (description : String) (formats : List VideoFormat) : Outcome String :=
  let started := startAssistant env log
  if started.1 = false then
    .ret "" d started.2
  else
    match registerEndPoint env d started.2 false with
    | .fault log => .fault log
    | .ret _ d log =>
      match d.serverMessagePort, d.messagePort with
      | some c, some _ =>
        let formatsList := XpcObject.array (formats.map (deviceCreate_encode env))
        let dictionary := XpcObject.dictionary
          [("message", .int64 (env.msg .DEVICE_CREATE)), ("port", .string (c_str d.portName)),
           ("description", .string (c_str description)), ("formats", formatsList)]
        let reply := env.sendSync log (some c) dictionary
        let log := log ++ [Event.sendSync (some c) dictionary]
        match reply.asDictionary with
        | none => .ret "" d log
        | some entries =>
          -- `std::string deviceId(xpc_dictionary_get_string(reply, "device"))`
          match xpc_dictionary_get_string entries "device" with
          | none => .fault log
          | some deviceId =>
            if deviceId ≠ "" then
              .ret deviceId { d with devices := d.devices ++ [deviceId] } log
            else
              .ret deviceId d log
      | _, _ => .ret "" d log

/-- Member `IpcBridge::deviceDestroy`. -/
def deviceDestroy (env : Env) (d : IpcBridgePrivate) (log : List Event)
    (deviceId : String) : Outcome Unit :=
  match d.serverMessagePort with
  | none => .ret () d log
  | some c =>
    if deviceId ∉ d.devices then
      .ret () d log
    else
      let dictionary := XpcObject.dictionary
        [("message", .int64 (env.msg .DEVICE_DESTROY)), ("device", .string (c_str deviceId))]
      let log := log ++ [Event.send (some c) dictionary]
      .ret () { d with devices := d.devices.erase deviceId } log

/-- Member `IpcBridge::deviceStart`.  There is no check of
    `serverMessagePort`: a null connection handed to
    `xpc_connection_send_message_with_reply_sync` is undefined. -/
def deviceStart (env : Env) (d : IpcBridgePrivate) (log : List Event)
    (deviceId : String) : Outcome Bool :=
  if deviceId ∈ d.broadcasting then
    .ret false d log
  else
    let dictionary := XpcObject.dictionary
      [("message", .int64 (env.msg .DEVICE_SETBROADCASTING)),
       ("device", .string (c_str deviceId)), ("broadcasting", .bool true)]
    match d.serverMessagePort with
    | none => .fault (log ++ [Event.sendSync none dictionary])
    | some c =>
      let reply := env.sendSync log (some c) dictionary
      let log := log ++ [Event.sendSync (some c) dictionary]
      match reply.asDictionary with
      | none => .ret false d log
      | some entries =>
        let status := xpc_dictionary_get_bool entries "status"
        .ret status { d with broadcasting := d.broadcasting ++ [deviceId] } log

/-- Member `IpcBridge::deviceStop`.  The reply is released unread; a null
    connection handed to `xpc_connection_send_message_with_reply_sync` is
    undefined. -/
def deviceStop (env : Env) (d : IpcBridgePrivate) (log : List Event)
    (deviceId : String) : Outcome Unit :=
  if deviceId ∉ d.broadcasting then
    .ret () d log
  else
    let dictionary := XpcObject.dictionary
      [("message", .int64 (env.msg .DEVICE_SETBROADCASTING)),
       ("device", .string (c_str deviceId)), ("broadcasting", .bool false)]
    match d.serverMessagePort with
    | none => .fault (log ++ [Event.sendSync none dictionary])
    | some c =>
      let log := log ++ [Event.sendSync (some c) dictionary]
      .ret () { d with broadcasting := d.broadcasting.erase deviceId } log

/-- Member `IpcBridge::write`.  A null connection handed to
    `xpc_connection_send_message` is undefined. -/
def write (env : Env) (d : IpcBridgePrivate) (log : List Event)
    (deviceId : String) (frame : VideoFrame) : Outcome Unit :=
  if deviceId ∉ d.broadcasting then
    .ret () d log
  else
    let fourcc := frame.format.fourcc
    let width := frame.format.width
    let height := frame.format.height
    let dataSize := toInt64 (Int.ofNat frame.dataSize)
    let surfaceProperties : SurfaceProperties :=
      { pixelFormat := fourcc, width := width, height := height, allocSize := dataSize }
    match env.surfaceCreate log surfaceProperties with
    | none => .ret () d (log ++ [Event.surfaceCreate surfaceProperties none])
    | some surface =>
      let log := log ++
        [Event.surfaceCreate surfaceProperties (some surface),
         Event.surfaceLock surface 0,
         Event.memcpy surface frame.data frame.dataSize,
         Event.surfaceUnlock surface 0]
      let dictionary := XpcObject.dictionary
        [("message", .int64 (env.msg .FRAME_READY)), ("device", .string (c_str deviceId)),
         ("frame", .surface surface)]
      match d.serverMessagePort with
      | none => .fault (log ++ [Event.send none dictionary])
      | some c =>
        .ret () d (log ++ [Event.send (some c) dictionary, Event.surfaceRelease surface])

/-! ## `IpcBridge`: property setters -/

/-- Member `IpcBridge::setMirroring`.  The reply is released unread; a null
    connection handed to `xpc_connection_send_message_with_reply_sync` is
    undefined. -/
def setMirroring (env : Env) (d : IpcBridgePrivate) (log : List Event)
    (deviceId : String) (horizontalMirrored verticalMirrored : Bool) : Outcome Unit :=
  let dictionary := XpcObject.dictionary
    [("message", .int64 (env.msg .DEVICE_SETMIRRORING)), ("device", .string (c_str deviceId)),
     ("hmirror", .bool horizontalMirrored), ("vmirror", .bool verticalMirrored)]
  match d.serverMessagePort with
  | none => .fault (log ++ [Event.sendSync none dictionary])
  | some c => .ret () d (log ++ [Event.sendSync (some c) dictionary])

/-- Member `IpcBridge::setScaling`; as `setMirroring`. -/
def setScaling (env : Env) (d : IpcBridgePrivate) (log : List Event)
    (deviceId : String) (scaling : Scaling) : Outcome Unit :=
  let dictionary := XpcObject.dictionary
    [("message", .int64 (env.msg .DEVICE_SETSCALING)), ("device", .string (c_str deviceId)),
     ("scaling", .int64 scaling)]
  match d.serverMessagePort with
  | none => .fault (log ++ [Event.sendSync none dictionary])
  | some c => .ret () d (log ++ [Event.sendSync (some c) dictionary])

/-- Member `IpcBridge::setAspectRatio`; as `setMirroring`. -/
def setAspectRatio (env : Env) (d : IpcBridgePrivate) (log : List Event)
    (deviceId : String) (aspectRatio : AspectRatio) : Outcome Unit :=
  let dictionary := XpcObject.dictionary
    [("message", .int64 (env.msg AssistantMsg.DEVICE_SETASPECTRATIO)),
     ("device", .string (c_str deviceId)), ("aspect", .int64 aspectRatio)]
  match d.serverMessagePort with
  | none => .fault (log ++ [Event.sendSync none dictionary])
  | some c => .ret () d (log ++ [Event.sendSync (some c) dictionary])

/-! ## `IpcBridge`: callback registration -/

/-- Member `IpcBridge::setFrameReadyCallback`. -/
def setFrameReadyCallback (d : IpcBridgePrivate) (log : List Event)
    (callback : Callback) : Outcome Unit :=
  .ret () { d with frameReadyCallback := callback } log

/-- Member `IpcBridge::setDeviceAddedCallback`. -/
def setDeviceAddedCallback (d : IpcBridgePrivate) (log : List Event)
    (callback : Callback) : Outcome Unit :=
  .ret () { d with deviceAddedCallback := callback } log

/-- Member `IpcBridge::setDeviceRemovedCallback`. -/
def setDeviceRemovedCallback (d : IpcBridgePrivate) (log : List Event)
    (callback : Callback) : Outcome Unit :=
  .ret () { d with deviceRemovedCallback := callback } log

/-- Member `IpcBridge::setBroadcastingChangedCallback`. -/
def setBroadcastingChangedCallback (d : IpcBridgePrivate) (log : List Event)
    (callback : Callback) : Outcome Unit :=
  .ret () { d with broadcastingChangedCallback := callback } log

/-- Member `IpcBridge::setMirrorChangedCallback`. -/
def setMirrorChangedCallback (d : IpcBridgePrivate) (log : List Event)
    (callback : Callback) : Outcome Unit :=
  .ret () { d with mirrorChangedCallback := callback } log

/-- Member `IpcBridge::setScalingChangedCallback`. -/
def setScalingChangedCallback (d : IpcBridgePrivate) (log : List Event)
    (callback : Callback) : Outcome Unit :=
  .ret () { d with scalingChangedCallback := callback } log

/-- Member `IpcBridge::setAspectRatioChangedCallback`. -/
def setAspectRatioChangedCallback (d : IpcBridgePrivate) (log : List Event)
    (callback : Callback) : Outcome Unit :=
  .ret () { d with aspectRatioChangedCallback := callback } log

/-! ## Call sequences -/

/-- One call of a public member function of `IpcBridge`, with its
    arguments. -/
inductive Call where
  | registerEndPoint (asClient : Bool)
  | unregisterEndPoint
  | listDevices (all : Bool)
  | description (deviceId : String)
  | formats (deviceId : String)
  | broadcasting (deviceId : String)
  | isHorizontalMirrored (deviceId : String)
  | isVerticalMirrored (deviceId : String)
  | scalingMode (deviceId : String)
  | aspectRatioMode (deviceId : String)
  | deviceCreate (description : String) (formats : List VideoFormat)
  | deviceDestroy (deviceId : String)
  | deviceStart (deviceId : String)
  | deviceStop (deviceId : String)
  | write (deviceId : String) (frame : VideoFrame)
  | setMirroring (deviceId : String) (horizontalMirrored verticalMirrored : Bool)
  | setScaling (deviceId : String) (scaling : Scaling)
  | setAspectRatio (deviceId : String) (aspectRatio : AspectRatio)
  | setFrameReadyCallback (callback : Callback)
  | setDeviceAddedCallback (callback : Callback)
  | setDeviceRemovedCallback (callback : Callback)
  | setBroadcastingChangedCallback (callback : Callback)
  | setMirrorChangedCallback (callback : Callback)
  | setScalingChangedCallback (callback : Callback)
  | setAspectRatioChangedCallback (callback : Callback)

/-- Run one call, dropping the value it returns. -/
def Call.run (env : Env) (d : IpcBridgePrivate) (log : List Event) : Call → Outcome Unit
  | .registerEndPoint asClient => (AkVCam.registerEndPoint env d log asClient).void
  | .unregisterEndPoint => AkVCam.unregisterEndPoint env d log
  | .listDevices all => (AkVCam.listDevices env d log all).void
  | .description deviceId => (AkVCam.description env d log deviceId).void
  | .formats deviceId => (AkVCam.formats env d log deviceId).void
  | .broadcasting deviceId => (AkVCam.broadcasting env d log deviceId).void
  | .isHorizontalMirrored deviceId => (AkVCam.isHorizontalMirrored env d log deviceId).void
  | .isVerticalMirrored deviceId => (AkVCam.isVerticalMirrored env d log deviceId).void
  | .scalingMode deviceId => (AkVCam.scalingMode env d log deviceId).void
  | .aspectRatioMode deviceId => (AkVCam.aspectRatioMode env d log deviceId).void
  | .deviceCreate text formatList =>
    (AkVCam.deviceCreate env d log text formatList).void
  | .deviceDestroy deviceId => AkVCam.deviceDestroy env d log deviceId
  | .deviceStart deviceId => (AkVCam.deviceStart env d log deviceId).void
  | .deviceStop deviceId => AkVCam.deviceStop env d log deviceId
  | .write deviceId frame => AkVCam.write env d log deviceId frame
  | .setMirroring deviceId h v => AkVCam.setMirroring env d log deviceId h v
  | .setScaling deviceId scaling => AkVCam.setScaling env d log deviceId scaling
  | .setAspectRatio deviceId aspectRatio =>
    AkVCam.setAspectRatio env d log deviceId aspectRatio
  | .setFrameReadyCallback callback => AkVCam.setFrameReadyCallback d log callback
  | .setDeviceAddedCallback callback => AkVCam.setDeviceAddedCallback d log callback
  | .setDeviceRemovedCallback callback => AkVCam.setDeviceRemovedCallback d log callback
  | .setBroadcastingChangedCallback callback =>
    AkVCam.setBroadcastingChangedCallback d log callback
  | .setMirrorChangedCallback callback => AkVCam.setMirrorChangedCallback d log callback
  | .setScalingChangedCallback callback => AkVCam.setScalingChangedCallback d log callback
  | .setAspectRatioChangedCallback callback =>
    AkVCam.setAspectRatioChangedCallback d log callback

/-- The calls whose member function writes to the device cache `devices`. -/
def Call.writesDevices : Call → Bool
  | .deviceCreate _ _ => true
  | .deviceDestroy _ => true
  | _ => false

/-- The calls whose member function writes to the started list
    `broadcasting`. -/
def Call.writesBroadcasting : Call → Bool
  | .deviceStart _ => true
  | .deviceStop _ => true
  | _ => false

/-- The records a bridge can be in: the one its constructor builds, and every
    record left by a call that returns, under any environment and log. -/
inductive Reachable : IpcBridgePrivate → Prop where
  | construct (env : Env) (log log1 : List Event) (d : IpcBridgePrivate) :
      IpcBridgePrivate.construct env log = .ret () d log1 → Reachable d
  | call (env : Env) (log log1 : List Event) (d d1 : IpcBridgePrivate) (c : Call) :
      Reachable d → c.run env d log = .ret () d1 log1 → Reachable d1

/-! ## The process-wide instance and notification dispatch -/

/-- The state that notification dispatch reads: the list `m_bridges` of the
    function-local static instance of `ipcBridgePrivate()`, the private record
    `bridge->d` behind every bridge pointer (`none` once it is deleted), and
    whether the static instance has been constructed yet. -/
structure Process where
  m_bridges : List BridgePtr
  d : BridgePtr → Option IpcBridgePrivate
  ipcBridgePrivate_initialized : Bool

/-- Assignment of `bridge->d`. -/
def Process.setD (p : Process) (bridge : BridgePtr) (d : Option IpcBridgePrivate) :
    Process :=
  { p with d := fun b => if b = bridge then d else p.d b }

/-- The result of handling one event: it returns leaving the process `p` and
    the log `log`, or it runs into undefined behaviour. -/
inductive Dispatched where
  | done (p : Process) (log : List Event)
  | fault (log : List Event)

/-- The log at the end of a dispatch. -/
def Dispatched.log : Dispatched → List Event
  | .done _ log => log
  | .fault log => log

/-- Member `IpcBridgePrivate::add`. -/
def IpcBridgePrivate.add (m_bridges : List BridgePtr) (bridge : BridgePtr) :
    List BridgePtr :=
  m_bridges ++ [bridge]

/-- Member `IpcBridgePrivate::remove`: erase the first entry equal to
    `bridge` and stop. -/
def IpcBridgePrivate.remove : List BridgePtr → BridgePtr → List BridgePtr
  | [], _ => []
  | b :: rest, bridge =>
    if b = bridge then rest else b :: IpcBridgePrivate.remove rest bridge

/-- Member `IpcBridgePrivate::bridges`. -/
def IpcBridgePrivate.bridges (p : Process) : List BridgePtr :=
  p.m_bridges

/-- The loop shared by the seven notification members:
    `for (auto bridge: this->m_bridges) if (bridge->d->slot) bridge->d->slot(args)`.
    Reading `bridge->d` of a deleted bridge is undefined. -/
def IpcBridgePrivate.forBridges (p : Process) (slot : IpcBridgePrivate → Callback)
    (call : Notification) : List BridgePtr → List Event → Dispatched
  | [], log => .done p log
  | bridge :: rest, log =>
    match p.d bridge with
    | none => .fault log
    | some d =>
      match slot d with
      | some handler =>
        IpcBridgePrivate.forBridges p slot call rest
          (log ++ [Event.callback bridge handler call])
      | none => IpcBridgePrivate.forBridges p slot call rest log

/-- Member `IpcBridgePrivate::deviceCreated`. -/
def IpcBridgePrivate.deviceCreated (p : Process) (log : List Event) (_client : Conn)
    (event : List (String × XpcObject)) : Dispatched :=
  -- `std::string device = xpc_dictionary_get_string(event, "device")`
  match xpc_dictionary_get_string event "device" with
  | none => .fault log
  | some device =>
    IpcBridgePrivate.forBridges p (fun d => d.deviceAddedCallback) (.deviceAdded device)
      p.m_bridges log

/-- Member `IpcBridgePrivate::deviceDestroyed`. -/
def IpcBridgePrivate.deviceDestroyed (p : Process) (log : List Event) (_client : Conn)
    (event : List (String × XpcObject)) : Dispatched :=
  match xpc_dictionary_get_string event "device" with
  | none => .fault log
  | some device =>
    IpcBridgePrivate.forBridges p (fun d => d.deviceRemovedCallback) (.deviceRemoved device)
      p.m_bridges log

/-- Member `IpcBridgePrivate::frameReady`.  The frame is built by
    `VideoFrame({fourcc, width, height}, data, size)` from what the surface
    reports while it is locked; a null surface handed to the IOSurface calls
    and to `CFRelease` is undefined. -/
def IpcBridgePrivate.frameReady (env : Env) (p : Process) (log : List Event)
    (_client : Conn) (event : List (String × XpcObject)) : Dispatched :=
  match xpc_dictionary_get_string event "device" with
  | none => .fault log
  | some deviceId =>
    let frame := xpc_dictionary_get_value event "frame"
    match env.surfaceLookup log frame with
    | none => .fault (log ++ [Event.surfaceLookup frame none])
    | some surface =>
      let log := log ++
        [Event.surfaceLookup frame (some surface),
         Event.surfaceLock surface kIOSurfaceLockReadOnly]
      let view := env.surfaceRead log surface
      let fourcc : FourCC := view.pixelFormat
      let width := toInt32 (Int.ofNat view.width)
      let height := toInt32 (Int.ofNat view.height)
      let size := view.allocSize
      let data := view.contents
      let videoFrame : VideoFrame :=
        { format := { fourcc := fourcc, width := width, height := height, frameRates := [] },
          data := data,
          dataSize := size }
      let log := log ++
        [Event.surfaceUnlock surface kIOSurfaceLockReadOnly, Event.surfaceRelease surface]
      IpcBridgePrivate.forBridges p (fun d => d.frameReadyCallback)
        (.frameReady deviceId videoFrame) p.m_bridges log

/-- Member `IpcBridgePrivate::broadcastingChanged`. -/
def IpcBridgePrivate.broadcastingChanged (p : Process) (log : List Event)
    (_client : Conn) (event : List (String × XpcObject)) : Dispatched :=
  match xpc_dictionary_get_string event "device" with
  | none => .fault log
  | some deviceId =>
    let broadcasting := xpc_dictionary_get_bool event "broadcasting"
    IpcBridgePrivate.forBridges p (fun d => d.broadcastingChangedCallback)
      (.broadcastingChanged deviceId broadcasting) p.m_bridges log

/-- Member `IpcBridgePrivate::mirrorChanged`. -/
def IpcBridgePrivate.mirrorChanged (p : Process) (log : List Event) (_client : Conn)
    (event : List (String × XpcObject)) : Dispatched :=
  match xpc_dictionary_get_string event "device" with
  | none => .fault log
  | some deviceId =>
    let horizontalMirror := xpc_dictionary_get_bool event "hmirror"
    let verticalMirror := xpc_dictionary_get_bool event "vmirror"
    IpcBridgePrivate.forBridges p (fun d => d.mirrorChangedCallback)
      (.mirrorChanged deviceId horizontalMirror verticalMirror) p.m_bridges log

/-- Member `IpcBridgePrivate::scalingChanged`. -/
def IpcBridgePrivate.scalingChanged (p : Process) (log : List Event) (_client : Conn)
    (event : List (String × XpcObject)) : Dispatched :=
  match xpc_dictionary_get_string event "device" with
  | none => .fault log
  | some deviceId =>
    let scaling : Scaling := toInt32 (xpc_dictionary_get_int64 event "scaling")
    IpcBridgePrivate.forBridges p (fun d => d.scalingChangedCallback)
      (.scalingChanged deviceId scaling) p.m_bridges log

/-- Member `IpcBridgePrivate::aspectRatioChanged`. -/
def IpcBridgePrivate.aspectRatioChanged (p : Process) (log : List Event)
    (_client : Conn) (event : List (String × XpcObject)) : Dispatched :=
  match xpc_dictionary_get_string event "device" with
  | none => .fault log
  | some deviceId =>
    let aspectRatio : AspectRatio := toInt32 (xpc_dictionary_get_int64 event "aspect")
    IpcBridgePrivate.forBridges p (fun d => d.aspectRatioChangedCallback)
      (.aspectRatioChanged deviceId aspectRatio) p.m_bridges log

/-- The member functions bound into `m_messageHandlers`. -/
inductive MessageHandler where
  | deviceCreated
  | deviceDestroyed
  | frameReady
  | broadcastingChanged
  | mirrorChanged
  | scalingChanged
  | aspectRatioChanged
deriving DecidableEq, Repr

/-- Call of a bound member function. -/
def MessageHandler.call (env : Env) (p : Process) (log : List Event) (client : Conn)
    (event : List (String × XpcObject)) : MessageHandler → Dispatched
  | .deviceCreated => IpcBridgePrivate.deviceCreated p log client event
  | .deviceDestroyed => IpcBridgePrivate.deviceDestroyed p log client event
  | .frameReady => IpcBridgePrivate.frameReady env p log client event
  | .broadcastingChanged => IpcBridgePrivate.broadcastingChanged p log client event
  | .mirrorChanged => IpcBridgePrivate.mirrorChanged p log client event
  | .scalingChanged => IpcBridgePrivate.scalingChanged p log client event
  | .aspectRatioChanged => IpcBridgePrivate.aspectRatioChanged p log client event

/-- The table `m_messageHandlers` as the constructor fills it, in the order of
    the initialiser list.  A `std::map` built from a list keeps the first
    entry of a key, as `List.lookup` does. -/
def m_messageHandlers (env : Env) : List (Int × MessageHandler) :=
  [(env.msg .DEVICE_CREATED, .deviceCreated),
   (env.msg .DEVICE_DESTROYED, .deviceDestroyed),
   (env.msg .FRAME_READY, .frameReady),
   (env.msg .DEVICE_BROADCASTING_CHANGED, .broadcastingChanged),
   (env.msg .DEVICE_MIRRORING_CHANGED, .mirrorChanged),
   (env.msg .DEVICE_SCALING_CHANGED, .scalingChanged),
   (env.msg AssistantMsg.DEVICE_ASPECTRATIO_CHANGED, .aspectRatioChanged)]

/-- Member `IpcBridgePrivate::messageReceived`. -/
def IpcBridgePrivate.messageReceived (env : Env) (p : Process) (log : List Event)
    (client : Conn) (event : XpcObject) : Dispatched :=
  if event.isError then
    .done p log
  else
    match event.asDictionary with
    | some entries =>
      let message := xpc_dictionary_get_int64 entries "message"
      match (m_messageHandlers env).lookup message with
      | some handler => handler.call env p log client entries
      | none => .done p log
    | none => .done p log

/-- Function `ipcBridgePrivate()`: the first call constructs the
    function-local static `IpcBridgePrivate`, with an empty `m_bridges`, and
    that constructor calls `startAssistant`; every call returns the
    instance. -/
def ipcBridgePrivate (env : Env) (p : Process) (log : List Event) :
    Process × List Event :=
  if p.ipcBridgePrivate_initialized = true then
    (p, log)
  else
    ({ p with m_bridges := [], ipcBridgePrivate_initialized := true },
     (startAssistant env log).2)

/-- The constructor `IpcBridge::IpcBridge()`:
    `this->d = new IpcBridgePrivate(this)`, then
    `ipcBridgePrivate()->add(this)`. -/
def IpcBridge.construct (env : Env) (p : Process) (log : List Event) (this : BridgePtr) :
    Dispatched :=
  match IpcBridgePrivate.construct env log with
  | .fault log => .fault log
  | .ret _ d log =>
    let instance_ := ipcBridgePrivate env (p.setD this (some d)) log
    .done { instance_.1 with m_bridges := IpcBridgePrivate.add instance_.1.m_bridges this }
      instance_.2

/-- The destructor `IpcBridge::~IpcBridge()`: `this->unregisterEndPoint()`,
    then `ipcBridgePrivate()->remove(this)`, then `delete this->d`. -/
def IpcBridge.destruct (env : Env) (p : Process) (log : List Event) (this : BridgePtr) :
    Dispatched :=
  match p.d this with
  | none => .fault log
  | some d =>
    match unregisterEndPoint env d log with
    | .fault log => .fault log
    | .ret _ d log =>
      let instance_ := ipcBridgePrivate env (p.setD this (some d)) log
      .done
        ({ instance_.1 with
            m_bridges := IpcBridgePrivate.remove instance_.1.m_bridges this }.setD this none)
        instance_.2

/-! ## Reading a log -/

/-- The callback invocations that a stretch of log made on one bridge, in
    order. -/
def callbacksOf (bridge : BridgePtr) : List Event → List (Nat × Notification)
  | [] => []
  | .callback b handler call :: rest =>
    if b = bridge then (handler, call) :: callbacksOf bridge rest
    else callbacksOf bridge rest
  | _ :: rest => callbacksOf bridge rest

/-- The callback invocations expected of one pass over the bridges `bs`: for
    every bridge in turn whose slot holds a callable, one call of it. -/
def Process.invocations (p : Process) (slot : IpcBridgePrivate → Callback)
    (call : Notification) (bs : List BridgePtr) : List Event :=
  bs.filterMap fun b =>
    match p.d b with
    | some d => (slot d).map fun handler => Event.callback b handler call
    | none => none

/-- The lock, unlock and `memcpy` calls that a stretch of log made, in
    order. -/
def lockTrace : List Event → List Event
  | [] => []
  | .surfaceLock s options :: rest => .surfaceLock s options :: lockTrace rest
  | .surfaceUnlock s options :: rest => .surfaceUnlock s options :: lockTrace rest
  | .memcpy s source n :: rest => .memcpy s source n :: lockTrace rest
  | _ :: rest => lockTrace rest

/-- The lock discipline of a stretch of log, read from left to right with the
    lock currently held (surface and options), if any: a lock is taken only
    while none is held, an unlock names the surface and options of the lock
    held, a `memcpy` goes to the surface whose lock is held, and at the end no
    lock is held. -/
def bracketed : Option (SurfaceRef × Nat) → List Event → Bool
  | held, [] => held.isNone
  | none, .surfaceLock s options :: rest => bracketed (some (s, options)) rest
  | some _, .surfaceLock _ _ :: _ => false
  | some (s0, o0), .surfaceUnlock s options :: rest =>
    s0 = s && o0 = options && bracketed none rest
  | none, .surfaceUnlock _ _ :: _ => false
  | some (s0, o0), .memcpy s _ _ :: rest => s0 = s && bracketed (some (s0, o0)) rest
  | none, .memcpy _ _ _ :: _ => false
  | held, _ :: rest => bracketed held rest

/-- What a surface holds after a stretch of log, for a surface primitive that
    keeps the four properties it was created with and the bytes copied to its
    base address: the view after `IOSurfaceCreate` has the requested
    properties and zeroed contents, and a `memcpy` of `n` bytes overwrites the
    first `n` bytes. -/
def surfaceAfter (s : SurfaceRef) : Option SurfaceView → List Event → Option SurfaceView
  | view, [] => view
  | view, .surfaceCreate properties (some s1) :: rest =>
    if s1 = s then
      surfaceAfter s
        (some { pixelFormat := properties.pixelFormat,
                width := properties.width.toNat,
                height := properties.height.toNat,
                allocSize := properties.allocSize.toNat,
                contents := List.replicate properties.allocSize.toNat 0 })
        rest
    else surfaceAfter s view rest
  | some view, .memcpy s1 source n :: rest =>
    if s1 = s then
      surfaceAfter s (some { view with contents := source.take n ++ view.contents.drop n })
        rest
    else surfaceAfter s (some view) rest
  | view, _ :: rest => surfaceAfter s view rest



/-- The connections that a stretch of log created, in order. -/
def createdConnections : List Event → List Conn
  | [] => []
  | .createMachService _ (some c) :: rest => c :: createdConnections rest
  | .connectionCreate (some c) :: rest => c :: createdConnections rest
  | _ :: rest => createdConnections rest

/-- The connections that a stretch of log released, in order. -/
def releasedConnections : List Event → List Conn
  | [] => []
  | .release c :: rest => c :: releasedConnections rest
  | _ :: rest => releasedConnections rest

/-- The commands that a stretch of log handed to `system`, in order. -/
def systemCalls : List Event → List String
  | [] => []
  | .system command :: rest => command :: systemCalls rest
  | _ :: rest => systemCalls rest

/-- The messages that a stretch of log sent, with or without waiting for a
    reply, in order. -/
def sentMessages : List Event → List XpcObject
  | [] => []
  | .sendSync _ message :: rest => message :: sentMessages rest
  | .send _ message :: rest => message :: sentMessages rest
  | _ :: rest => sentMessages rest

/-! ## A sample environment -/

namespace Sample

/-- A numbering of the message kinds. -/
def msg (m : AssistantMsg) : Int := Int.ofNat m.toCtorIdx

/-- A registry that is running and answers every request with a dictionary
    holding every field a reply can carry. -/
def env : Env :=
  { assistantName := "org.webcamoid.cmio.AkVCam.Assistant",
    daemonsPath := "~/Library/LaunchAgents",
    msg := msg,
    minimumFrameRate := fun format => format.frameRates.headD 0,
    user := "user",
    system := fun _ _ => 0,
    createMachService := fun _ _ => some 1,
    connectionCreate := fun _ => some 2,
    sendSync := fun _ _ _ =>
      .dictionary
        [("status", .bool true), ("port", .string "port0"), ("device", .string "cam0"),
         ("description", .string "Cam A"), ("devices", .array [.string "cam0"]),
         ("formats", .array []), ("broadcasting", .bool true)],
    surfaceCreate := fun _ _ => some 7,
    surfaceLookup := fun _ frame =>
      match frame with
      | some (.surface s) => some s
      | _ => none,
    surfaceRead := fun _ _ =>
      { pixelFormat := 0x59555932, width := 2, height := 1, allocSize := 4,
        contents := [16, 128, 16, 128] } }

/-- No registry: the service cannot be started, no connection can be made and
    every request ends in an error object. -/
def offline : Env :=
  { env with
    system := fun _ _ => 1,
    createMachService := fun _ _ => none,
    connectionCreate := fun _ => none,
    sendSync := fun _ _ _ => .error "Connection invalid",
    surfaceCreate := fun _ _ => none }

/-- A registry that accepts the connection and then answers every request
    with an error object. -/
def failing : Env :=
  { env with sendSync := fun _ _ _ => .error "Connection interrupted" }

/-- A registry that hands out a port and then turns down every request with
    a false status. -/
def refusing : Env :=
  { env with
    sendSync := fun _ _ _ =>
      .dictionary [("status", .bool false), ("port", .string "port0")] }

/-- A registry that knows the devices `cam0` and `cam7`. -/
def listing : Env :=
  { env with
    sendSync := fun _ _ _ =>
      XpcObject.dictionary [("devices", .array [.string "cam0", .string "cam7"])] }

/-- A registry that answers every request with an empty dictionary. -/
def malformed : Env :=
  { env with sendSync := fun _ _ _ => XpcObject.dictionary [] }

/-- A client after a completed registration. -/
def registered : IpcBridgePrivate :=
  { IpcBridgePrivate.fresh with
    portName := "port0", messagePort := some 2, serverMessagePort := some 1 }

/-- A client that has started `cam0` and then unregistered. -/
def started : IpcBridgePrivate :=
  { IpcBridgePrivate.fresh with broadcasting := ["cam0"] }

/-- A registered client that has started `cam0`. -/
def streaming : IpcBridgePrivate :=
  { registered with broadcasting := ["cam0"] }

/-- A process in which no bridge has been constructed yet. -/
def boot : Process :=
  { m_bridges := [], d := fun _ => none, ipcBridgePrivate_initialized := false }

/-- A machine on which `IOSurfaceCreate` fails. -/
def exhausted : Env :=
  { env with surfaceCreate := fun _ _ => none }

/-- A registered client that has created `cam0`. -/
def creator : IpcBridgePrivate :=
  { registered with devices := ["cam0"] }

/-- A client that created `cam0` and then unregistered. -/
def cached : IpcBridgePrivate :=
  { IpcBridgePrivate.fresh with devices := ["cam0"] }

/-- Three live bridges, entered in the dispatch list in the order 20, 10, 30;
    each holds a handler for added devices, and bridge 10 one for frames. -/
def process : Process :=
  { ipcBridgePrivate_initialized := true,
    m_bridges := [20, 10, 30],
    d := fun b =>
      if b = 10 then
        some { IpcBridgePrivate.fresh with
               deviceAddedCallback := some 1, frameReadyCallback := some 4 }
      else if b = 20 then
        some { IpcBridgePrivate.fresh with deviceAddedCallback := some 2 }
      else if b = 30 then
        some { IpcBridgePrivate.fresh with
               deviceAddedCallback := some 3, broadcasting := ["cam0"] }
      else none }

/-- A 2x1 frame of two bytes per pixel. -/
def frame : VideoFrame :=
  { format := { fourcc := 0x59555932, width := 2, height := 1, frameRates := [30] },
    data := [16, 128, 16, 128],
    dataSize := 4 }

end Sample

end AkVCam

/-! # The application shell (`mediatools.cpp`): state of the virtual camera -/

namespace MediaTools

/-- The states of `AkElement::ElementState` that the shell uses. -/
inductive ElementState where
  | ElementStateNull
  | ElementStatePaused
  | ElementStatePlaying
deriving DecidableEq, Repr

/-- The virtual camera element `m_virtualCamera` as the two functions see
    it: its `media` property and the state last handed to `setState`. -/
structure VirtualCamera where
  media : String
  state : ElementState
deriving DecidableEq, Repr

/-- The media source `m_mediaSource` as the two functions see it: `state()`
    and `stream()`. -/
structure MediaSource where
  state : ElementState
  stream : String
deriving DecidableEq, Repr

/-- The members of `MediaToolsPrivate` that the two functions read;
    `m_virtualCamera` is `none` when the element could not be created. -/
structure MediaToolsPrivate where
  m_mediaSource : MediaSource
  m_enableVirtualCamera : Bool
  m_virtualCamera : Option VirtualCamera
deriving DecidableEq, Repr

/-- Call `m_virtualCamera->setState(state)` on an existing element. -/
def setState (d : MediaToolsPrivate) (vcam : VirtualCamera) (state : ElementState) :
    MediaToolsPrivate :=
  { d with m_virtualCamera := some { vcam with state := state } }

/-- Member `MediaTools::setVirtualCameraState`: the record afterwards and the
    argument of the `setState` call, if one was made. -/
def setVirtualCameraState (d : MediaToolsPrivate) (virtualCameraState : ElementState) :
    MediaToolsPrivate × Option ElementState :=
  match d.m_virtualCamera with
  | some vcam =>
    let vcamStream := vcam.media
    let state :=
      if d.m_enableVirtualCamera = true
          ∧ virtualCameraState = .ElementStatePlaying
          ∧ d.m_mediaSource.state = .ElementStatePlaying
          ∧ d.m_mediaSource.stream = vcamStream then
        -- Prevents self blocking by pausing the virtual camera.
        ElementState.ElementStatePaused
      else virtualCameraState
    (setState d vcam state, some state)
  | none => (d, none)

/-- Member `MediaTools::updateVCamState`: the record afterwards and the
    argument of the `setState` call, if one was made. -/
def updateVCamState (d : MediaToolsPrivate) : MediaToolsPrivate × Option ElementState :=
  match d.m_virtualCamera with
  | none => (d, none)
  | some vcam =>
    if d.m_enableVirtualCamera = true then
      if d.m_mediaSource.state = .ElementStatePlaying then
        let vcamStream := vcam.media
        -- Prevents self blocking by pausing the virtual camera.
        let state :=
          if d.m_mediaSource.stream = vcamStream then ElementState.ElementStatePaused
          else ElementState.ElementStatePlaying
        (setState d vcam state, some state)
      else (d, none)
    else (setState d vcam .ElementStateNull, some .ElementStateNull)

/-- The situation of self blocking: the element exists and the media source
    is playing the stream that is the virtual camera's own media. -/
def selfBlocking (d : MediaToolsPrivate) : Prop :=
  ∃ vcam, d.m_virtualCamera = some vcam ∧
    d.m_mediaSource.state = .ElementStatePlaying ∧ d.m_mediaSource.stream = vcam.media

/-- A shell whose source plays the virtual camera's own stream, with the
    virtual camera switched off. -/
def sampleDisabled : MediaToolsPrivate :=
  { m_mediaSource := { state := .ElementStatePlaying, stream := "/dev/video9" },
    m_enableVirtualCamera := false,
    m_virtualCamera := some { media := "/dev/video9", state := .ElementStateNull } }

/-- The same shell with the virtual camera switched on. -/
def sampleEnabled : MediaToolsPrivate :=
  { sampleDisabled with m_enableVirtualCamera := true }

end MediaTools

namespace AkVCam

/-! ## C strings -/

/-- A string without a NUL character is its own C string. -/
theorem c_str_of_no_nul (s : String) (h : ∀ ch ∈ s.data, ch ≠ Char.ofNat 0) :
    c_str s = s := by
  have htake : s.data.takeWhile (fun ch => ch != Char.ofNat 0) = s.data := by
    rw [List.takeWhile_eq_self_iff]
    intro ch hch
    simpa using h ch hch
  unfold c_str
  rw [htake]

/-! ## Frame lemmas: what a returning call leaves of the record -/

theorem Outcome.void_eq_ret {α : Type} (o : Outcome α) (d1 : IpcBridgePrivate)
    (log1 : List Event) (h : o.void = .ret () d1 log1) : ∃ v, o = .ret v d1 log1 := by
  cases o with
  | ret v d log =>
    simp only [Outcome.void, Outcome.ret.injEq, true_and] at h
    obtain ⟨rfl, rfl⟩ := h
    exact ⟨v, rfl⟩
  | fault log => simp [Outcome.void] at h

theorem registerEndPoint_frame (env : Env) (d d1 : IpcBridgePrivate)
    (log log1 : List Event) (asClient v : Bool)
    (h : registerEndPoint env d log asClient = .ret v d1 log1) :
    d1.broadcasting = d.broadcasting ∧ d1.devices = d.devices := by
  unfold registerEndPoint at h
  simp only [registerEndPoint_failed] at h
  repeat' split at h
  all_goals simp only [Outcome.ret.injEq, reduceCtorEq] at h
  all_goals (obtain ⟨-, rfl, -⟩ := h; exact ⟨rfl, rfl⟩)

theorem unregisterEndPoint_frame (env : Env) (d d1 : IpcBridgePrivate)
    (log log1 : List Event) (h : unregisterEndPoint env d log = .ret () d1 log1) :
    d1.broadcasting = d.broadcasting ∧ d1.devices = d.devices := by
  unfold unregisterEndPoint at h
  simp only [Outcome.ret.injEq, true_and] at h
  obtain ⟨rfl, -⟩ := h
  exact ⟨rfl, rfl⟩

theorem listDevices_frame (env : Env) (d d1 : IpcBridgePrivate) (log log1 : List Event)
    (all : Bool) (v : List String) (h : listDevices env d log all = .ret v d1 log1) :
    d1 = d := by
  simp only [listDevices] at h
  repeat' split at h
  all_goals simp only [Outcome.ret.injEq, reduceCtorEq] at h
  all_goals exact h.2.1.symm

theorem description_frame (env : Env) (d d1 : IpcBridgePrivate) (log log1 : List Event)
    (deviceId : String) (v : String) (h : description env d log deviceId = .ret v d1 log1) :
    d1 = d := by
  simp only [description] at h
  repeat' split at h
  all_goals simp only [Outcome.ret.injEq, reduceCtorEq] at h
  all_goals exact h.2.1.symm

theorem formats_frame (env : Env) (d d1 : IpcBridgePrivate) (log log1 : List Event)
    (deviceId : String) (v : List VideoFormat)
    (h : formats env d log deviceId = .ret v d1 log1) : d1 = d := by
  simp only [formats] at h
  repeat' split at h
  all_goals simp only [Outcome.ret.injEq, reduceCtorEq] at h
  all_goals exact h.2.1.symm

theorem broadcasting_frame (env : Env) (d d1 : IpcBridgePrivate) (log log1 : List Event)
    (deviceId : String) (v : Bool) (h : broadcasting env d log deviceId = .ret v d1 log1) :
    d1 = d := by
  simp only [broadcasting] at h
  repeat' split at h
  all_goals simp only [Outcome.ret.injEq, reduceCtorEq] at h
  all_goals exact h.2.1.symm

theorem isHorizontalMirrored_frame (env : Env) (d d1 : IpcBridgePrivate)
    (log log1 : List Event) (deviceId : String) (v : Bool)
    (h : isHorizontalMirrored env d log deviceId = .ret v d1 log1) : d1 = d := by
  simp only [isHorizontalMirrored] at h
  repeat' split at h
  all_goals simp only [Outcome.ret.injEq, reduceCtorEq] at h
  all_goals exact h.2.1.symm

theorem isVerticalMirrored_frame (env : Env) (d d1 : IpcBridgePrivate)
    (log log1 : List Event) (deviceId : String) (v : Bool)
    (h : isVerticalMirrored env d log deviceId = .ret v d1 log1) : d1 = d := by
  simp only [isVerticalMirrored] at h
  repeat' split at h
  all_goals simp only [Outcome.ret.injEq, reduceCtorEq] at h
  all_goals exact h.2.1.symm

theorem scalingMode_frame (env : Env) (d d1 : IpcBridgePrivate) (log log1 : List Event)
    (deviceId : String) (v : Scaling) (h : scalingMode env d log deviceId = .ret v d1 log1) :
    d1 = d := by
  simp only [scalingMode] at h
  repeat' split at h
  all_goals simp only [Outcome.ret.injEq, reduceCtorEq] at h
  all_goals exact h.2.1.symm

theorem aspectRatioMode_frame (env : Env) (d d1 : IpcBridgePrivate)
    (log log1 : List Event) (deviceId : String) (v : AspectRatio)
    (h : aspectRatioMode env d log deviceId = .ret v d1 log1) : d1 = d := by
  simp only [aspectRatioMode] at h
  repeat' split at h
  all_goals simp only [Outcome.ret.injEq, reduceCtorEq] at h
  all_goals exact h.2.1.symm

theorem deviceCreate_frame (env : Env) (d d1 : IpcBridgePrivate) (log log1 : List Event)
    (text : String) (formatList : List VideoFormat) (v : String)
    (h : deviceCreate env d log text formatList = .ret v d1 log1) :
    d1.broadcasting = d.broadcasting := by
  simp only [deviceCreate] at h
  split at h
  · simp only [Outcome.ret.injEq] at h
    rw [← h.2.1]
  · split at h
    · simp at h
    · rename_i v0 d0 log0 hreg
      have hb := (registerEndPoint_frame env d d0 _ log0 false v0 hreg).1
      repeat' split at h
      all_goals simp only [Outcome.ret.injEq, reduceCtorEq] at h
      all_goals (obtain ⟨-, rfl, -⟩ := h; exact hb)

theorem deviceDestroy_frame (env : Env) (d d1 : IpcBridgePrivate) (log log1 : List Event)
    (deviceId : String) (h : deviceDestroy env d log deviceId = .ret () d1 log1) :
    d1.broadcasting = d.broadcasting := by
  simp only [deviceDestroy] at h
  repeat' split at h
  all_goals simp only [Outcome.ret.injEq, reduceCtorEq] at h
  all_goals (obtain ⟨-, rfl, -⟩ := h; rfl)

theorem write_frame (env : Env) (d d1 : IpcBridgePrivate) (log log1 : List Event)
    (deviceId : String) (frame : VideoFrame)
    (h : write env d log deviceId frame = .ret () d1 log1) : d1 = d := by
  simp only [write] at h
  repeat' split at h
  all_goals simp only [Outcome.ret.injEq, reduceCtorEq] at h
  all_goals exact h.2.1.symm

theorem setMirroring_frame (env : Env) (d d1 : IpcBridgePrivate) (log log1 : List Event)
    (deviceId : String) (hm vm : Bool)
    (h : setMirroring env d log deviceId hm vm = .ret () d1 log1) : d1 = d := by
  simp only [setMirroring] at h
  split at h
  all_goals simp only [Outcome.ret.injEq, reduceCtorEq] at h
  exact h.2.1.symm

theorem setScaling_frame (env : Env) (d d1 : IpcBridgePrivate) (log log1 : List Event)
    (deviceId : String) (scaling : Scaling)
    (h : setScaling env d log deviceId scaling = .ret () d1 log1) : d1 = d := by
  simp only [setScaling] at h
  split at h
  all_goals simp only [Outcome.ret.injEq, reduceCtorEq] at h
  exact h.2.1.symm

theorem setAspectRatio_frame (env : Env) (d d1 : IpcBridgePrivate) (log log1 : List Event)
    (deviceId : String) (aspectRatio : AspectRatio)
    (h : setAspectRatio env d log deviceId aspectRatio = .ret () d1 log1) : d1 = d := by
  simp only [setAspectRatio] at h
  split at h
  all_goals simp only [Outcome.ret.injEq, reduceCtorEq] at h
  exact h.2.1.symm

theorem deviceStart_nodup (env : Env) (d d1 : IpcBridgePrivate) (log log1 : List Event)
    (deviceId : String) (v : Bool) (h : deviceStart env d log deviceId = .ret v d1 log1)
    (hd : d.broadcasting.Nodup) : d1.broadcasting.Nodup := by
  simp only [deviceStart] at h
  split at h
  · simp only [Outcome.ret.injEq] at h
    rw [← h.2.1]; exact hd
  · rename_i hmem
    split at h
    · simp only [reduceCtorEq] at h
    · split at h
      · simp only [Outcome.ret.injEq] at h
        rw [← h.2.1]; exact hd
      · simp only [Outcome.ret.injEq] at h
        rw [← h.2.1]
        simp only
        rw [List.nodup_append]
        refine ⟨hd, List.nodup_singleton _, ?_⟩
        intro a ha hb
        rw [List.mem_singleton] at hb
        exact hmem (hb ▸ ha)

theorem deviceStop_nodup (env : Env) (d d1 : IpcBridgePrivate) (log log1 : List Event)
    (deviceId : String) (h : deviceStop env d log deviceId = .ret () d1 log1)
    (hd : d.broadcasting.Nodup) : d1.broadcasting.Nodup := by
  simp only [deviceStop] at h
  split at h
  · simp only [Outcome.ret.injEq, true_and] at h
    rw [← h.1]; exact hd
  · split at h
    · simp only [reduceCtorEq] at h
    · simp only [Outcome.ret.injEq, true_and] at h
      rw [← h.1]
      exact hd.erase _

/-- A returning call keeps the started list free of repetitions. -/
theorem call_run_nodup (env : Env) (d d1 : IpcBridgePrivate) (log log1 : List Event)
    (c : Call) (h : c.run env d log = .ret () d1 log1) (hd : d.broadcasting.Nodup) :
    d1.broadcasting.Nodup := by
  cases c with
  | registerEndPoint asClient =>
    obtain ⟨v, hv⟩ := Outcome.void_eq_ret _ _ _ h
    rw [(registerEndPoint_frame _ _ _ _ _ _ _ hv).1]; exact hd
  | unregisterEndPoint =>
    rw [(unregisterEndPoint_frame _ _ _ _ _ h).1]; exact hd
  | listDevices all =>
    obtain ⟨v, hv⟩ := Outcome.void_eq_ret _ _ _ h
    rw [listDevices_frame _ _ _ _ _ _ _ hv]; exact hd
  | description deviceId =>
    obtain ⟨v, hv⟩ := Outcome.void_eq_ret _ _ _ h
    rw [description_frame _ _ _ _ _ _ _ hv]; exact hd
  | formats deviceId =>
    obtain ⟨v, hv⟩ := Outcome.void_eq_ret _ _ _ h
    rw [formats_frame _ _ _ _ _ _ _ hv]; exact hd
  | broadcasting deviceId =>
    obtain ⟨v, hv⟩ := Outcome.void_eq_ret _ _ _ h
    rw [broadcasting_frame _ _ _ _ _ _ _ hv]; exact hd
  | isHorizontalMirrored deviceId =>
    obtain ⟨v, hv⟩ := Outcome.void_eq_ret _ _ _ h
    rw [isHorizontalMirrored_frame _ _ _ _ _ _ _ hv]; exact hd
  | isVerticalMirrored deviceId =>
    obtain ⟨v, hv⟩ := Outcome.void_eq_ret _ _ _ h
    rw [isVerticalMirrored_frame _ _ _ _ _ _ _ hv]; exact hd
  | scalingMode deviceId =>
    obtain ⟨v, hv⟩ := Outcome.void_eq_ret _ _ _ h
    rw [scalingMode_frame _ _ _ _ _ _ _ hv]; exact hd
  | aspectRatioMode deviceId =>
    obtain ⟨v, hv⟩ := Outcome.void_eq_ret _ _ _ h
    rw [aspectRatioMode_frame _ _ _ _ _ _ _ hv]; exact hd
  | deviceCreate text formatList =>
    obtain ⟨v, hv⟩ := Outcome.void_eq_ret _ _ _ h
    rw [deviceCreate_frame _ _ _ _ _ _ _ _ hv]; exact hd
  | deviceDestroy deviceId =>
    rw [deviceDestroy_frame _ _ _ _ _ _ h]; exact hd
  | deviceStart deviceId =>
    obtain ⟨v, hv⟩ := Outcome.void_eq_ret _ _ _ h
    exact deviceStart_nodup _ _ _ _ _ _ _ hv hd
  | deviceStop deviceId => exact deviceStop_nodup _ _ _ _ _ _ h hd
  | write deviceId frame =>
    rw [write_frame _ _ _ _ _ _ _ h]; exact hd
  | setMirroring deviceId hm vm =>
    rw [setMirroring_frame _ _ _ _ _ _ _ _ h]; exact hd
  | setScaling deviceId scaling =>
    rw [setScaling_frame _ _ _ _ _ _ _ h]; exact hd
  | setAspectRatio deviceId aspectRatio =>
    rw [setAspectRatio_frame _ _ _ _ _ _ _ h]; exact hd
  | setFrameReadyCallback callback =>
    simp only [Call.run, setFrameReadyCallback, Outcome.ret.injEq, true_and] at h
    rw [← h.1]; exact hd
  | setDeviceAddedCallback callback =>
    simp only [Call.run, setDeviceAddedCallback, Outcome.ret.injEq, true_and] at h
    rw [← h.1]; exact hd
  | setDeviceRemovedCallback callback =>
    simp only [Call.run, setDeviceRemovedCallback, Outcome.ret.injEq, true_and] at h
    rw [← h.1]; exact hd
  | setBroadcastingChangedCallback callback =>
    simp only [Call.run, setBroadcastingChangedCallback, Outcome.ret.injEq, true_and] at h
    rw [← h.1]; exact hd
  | setMirrorChangedCallback callback =>
    simp only [Call.run, setMirrorChangedCallback, Outcome.ret.injEq, true_and] at h
    rw [← h.1]; exact hd
  | setScalingChangedCallback callback =>
    simp only [Call.run, setScalingChangedCallback, Outcome.ret.injEq, true_and] at h
    rw [← h.1]; exact hd
  | setAspectRatioChangedCallback callback =>
    simp only [Call.run, setAspectRatioChangedCallback, Outcome.ret.injEq, true_and] at h
    rw [← h.1]; exact hd

/-- The started list of a reachable record holds no id twice. -/
theorem Reachable.nodup_broadcasting {d : IpcBridgePrivate} (h : Reachable d) :
    d.broadcasting.Nodup := by
  induction h with
  | construct env log log1 d hc =>
    simp only [IpcBridgePrivate.construct, Outcome.ret.injEq, true_and] at hc
    rw [← hc.1]
    exact List.nodup_nil
  | call env log log1 d d1 c _ hrun ih => exact call_run_nodup env d d1 log log1 c hrun ih

end AkVCam

namespace AkVCam

/-! ## Local guards of `write` and `deviceStart` -/

/-- C1: for every record, device id and frame, when the id is not in the
    started list `write` creates no surface, sends nothing and leaves the record
    as it is (it returns with the record and the log untouched); for a
    reachable record that holds a registry connection and has the id started,
    `deviceStop` returns a record without the id, on which a following `write`
    again adds nothing to the log; and after every `deviceStop` that returns,
    on any reachable record, the id is not in the started list and a following
    `write` adds nothing to the log. -/
theorem write_without_start_is_noop (env : Env) (d : IpcBridgePrivate) (log : List Event)
    (deviceId : String) (frame : VideoFrame) :
    (deviceId ∉ d.broadcasting → write env d log deviceId frame = .ret () d log) ∧
    (Reachable d → deviceId ∈ d.broadcasting →
      ∀ c, d.serverMessagePort = some c →
      ∃ d1 log1, deviceStop env d log deviceId = .ret () d1 log1 ∧
        deviceId ∉ d1.broadcasting ∧
        write env d1 log1 deviceId frame = .ret () d1 log1) ∧
    (Reachable d →
      ∀ d1 log1, deviceStop env d log deviceId = .ret () d1 log1 →
        deviceId ∉ d1.broadcasting ∧
        write env d1 log1 deviceId frame = .ret () d1 log1) := by
  have hw : ∀ (d0 : IpcBridgePrivate) (log0 : List Event), deviceId ∉ d0.broadcasting →
      write env d0 log0 deviceId frame = .ret () d0 log0 := by
    intro d0 log0 h0
    simp only [write, h0, not_false_eq_true, if_true]
  have hgone : Reachable d → deviceId ∉ d.broadcasting.erase deviceId := by
    intro hr hin
    exact ((List.Nodup.mem_erase_iff hr.nodup_broadcasting).1 hin).1 rfl
  refine ⟨hw d log, ?_, ?_⟩
  · intro hr hmem c hc
    have hstop : deviceStop env d log deviceId
        = .ret () { d with broadcasting := d.broadcasting.erase deviceId }
            (log ++ [Event.sendSync (some c) (XpcObject.dictionary
              [("message", .int64 (env.msg .DEVICE_SETBROADCASTING)),
               ("device", .string (c_str deviceId)), ("broadcasting", .bool false)])]) := by
      simp only [deviceStop, hmem, not_true_eq_false, if_false, hc]
    exact ⟨_, _, hstop, hgone hr, hw _ _ (hgone hr)⟩
  · intro hr d1 log1 hstop
    have hnot : deviceId ∉ d1.broadcasting := by
      simp only [deviceStop] at hstop
      repeat' split at hstop
      all_goals simp only [Outcome.ret.injEq, reduceCtorEq, true_and] at hstop
      · rename_i hmem
        rw [← hstop.1]
        exact hmem
      · rw [← hstop.1]
        exact hgone hr
    exact ⟨hnot, hw _ _ hnot⟩

/-- The record `Sample.streaming` is what the constructor followed by a
    successful `registerEndPoint` and a successful `deviceStart("cam0")`
    leaves. -/
theorem Sample.streaming_reachable : Reachable Sample.streaming :=
  Reachable.call Sample.env [] _ Sample.registered _ (.deviceStart "cam0")
    (Reachable.call Sample.env [] _ IpcBridgePrivate.fresh _ (.registerEndPoint true)
      (Reachable.construct Sample.env [] _ _ rfl) rfl) rfl

/-- The record `Sample.started` is what `unregisterEndPoint` leaves of
    `Sample.streaming`. -/
theorem Sample.started_reachable : Reachable Sample.started :=
  Reachable.call Sample.env [] _ Sample.streaming _ .unregisterEndPoint
    Sample.streaming_reachable rfl

/-- C1 at a sample input: `cam1` was never started, `cam0` is started and then
    stopped. -/
theorem write_without_start_is_noop_witness :
    ("cam1" ∉ Sample.streaming.broadcasting ∧
      write Sample.env Sample.streaming [] "cam1" Sample.frame
        = .ret () Sample.streaming []) ∧
    (Reachable Sample.streaming ∧ "cam0" ∈ Sample.streaming.broadcasting ∧
      Sample.streaming.serverMessagePort = some 1 ∧
      ∃ d1 log1, deviceStop Sample.env Sample.streaming [] "cam0" = .ret () d1 log1 ∧
        "cam0" ∉ d1.broadcasting ∧
        write Sample.env d1 log1 "cam0" Sample.frame = .ret () d1 log1) :=
  ⟨⟨by decide,
    (write_without_start_is_noop Sample.env Sample.streaming [] "cam1" Sample.frame).1
      (by decide)⟩,
   Sample.streaming_reachable, by decide, rfl,
   (write_without_start_is_noop Sample.env Sample.streaming [] "cam0" Sample.frame).2.1
      Sample.streaming_reachable (by decide) 1 rfl⟩

/-- C2: for every record and every device id already in the started list,
    `deviceStart` returns `false`, sends nothing and changes no field. -/
theorem deviceStart_started_is_noop (env : Env) (d : IpcBridgePrivate) (log : List Event)
    (deviceId : String) (h : deviceId ∈ d.broadcasting) :
    deviceStart env d log deviceId = .ret false d log := by
  simp only [deviceStart, h, if_true]

/-- C2 at a sample input: a second `deviceStart("cam0")`. -/
theorem deviceStart_started_is_noop_witness :
    "cam0" ∈ Sample.started.broadcasting ∧
    deviceStart Sample.env Sample.started [] "cam0" = .ret false Sample.started [] :=
  ⟨by decide, deviceStart_started_is_noop Sample.env Sample.started [] "cam0" (by decide)⟩

/-! ## Defaults without a registry connection -/

/-- C3: for every record without a registry connection and every device id,
    `broadcasting`, `isHorizontalMirrored` and `isVerticalMirrored` return
    `false`, `scalingMode` returns Fast, `aspectRatioMode` returns Ignore,
    `description` returns the empty string, `formats` and `listDevices(true)`
    return the empty list, and each of them returns with the record and the log
    untouched. -/
theorem accessors_default_without_connection (env : Env) (d : IpcBridgePrivate)
    (log : List Event) (deviceId : String) (h : d.serverMessagePort = none) :
    broadcasting env d log deviceId = .ret false d log ∧
    isHorizontalMirrored env d log deviceId = .ret false d log ∧
    isVerticalMirrored env d log deviceId = .ret false d log ∧
    scalingMode env d log deviceId = .ret ScalingFast d log ∧
    aspectRatioMode env d log deviceId = .ret AspectRatioIgnore d log ∧
    description env d log deviceId = .ret "" d log ∧
    formats env d log deviceId = .ret [] d log ∧
    listDevices env d log true = .ret [] d log := by
  refine ⟨?_, ?_, ?_, ?_, ?_, ?_, ?_, ?_⟩
  · simp only [broadcasting, h]
  · simp only [isHorizontalMirrored, h]
  · simp only [isVerticalMirrored, h]
  · simp only [scalingMode, h]
  · simp only [aspectRatioMode, h]
  · simp only [description, h]
  · simp only [formats, h]
  · simp only [listDevices, h]

/-- C3 at a sample input: a freshly constructed client asks about `x`, under an
    environment that would answer every request. -/
theorem accessors_default_without_connection_witness :
    IpcBridgePrivate.fresh.serverMessagePort = none ∧
    broadcasting Sample.env IpcBridgePrivate.fresh [] "x" = .ret false IpcBridgePrivate.fresh [] ∧
    scalingMode Sample.env IpcBridgePrivate.fresh [] "x"
      = .ret ScalingFast IpcBridgePrivate.fresh [] ∧
    aspectRatioMode Sample.env IpcBridgePrivate.fresh [] "x"
      = .ret AspectRatioIgnore IpcBridgePrivate.fresh [] ∧
    listDevices Sample.env IpcBridgePrivate.fresh [] true = .ret [] IpcBridgePrivate.fresh [] :=
  have h := accessors_default_without_connection Sample.env IpcBridgePrivate.fresh [] "x" rfl
  ⟨rfl, h.1, h.2.2.2.1, h.2.2.2.2.1, h.2.2.2.2.2.2.2⟩

end AkVCam

namespace AkVCam

/-! ## Calls that lack the connection guard -/

/-- C4 at its failing input: on a freshly constructed client, which has no
    registry connection, `deviceStart("cam0")` hands a
    `DEVICE_SETBROADCASTING` request to
    `xpc_connection_send_message_with_reply_sync` with the null connection,
    whatever the environment.  In general, on every record without a registry
    connection, `deviceStart` of an id that is not started, `setMirroring`,
    `setScaling` and `setAspectRatio` build their request and make that call
    with the null connection, which is undefined; `deviceStop` of a started id
    does the same, and `write` of a started id creates and fills the surface
    and then hands `FRAME_READY` to `xpc_connection_send_message` with the
    null connection.  A record without a connection and with a started id is
    reached by register, start, unregister.  The read accessors return their
    default without any call on the same record. -/
theorem deviceStart_sends_without_connection :
    (∀ env : Env, (deviceStart env IpcBridgePrivate.fresh [] "cam0").log =
      [Event.sendSync none (XpcObject.dictionary
        [("message", .int64 (env.msg .DEVICE_SETBROADCASTING)),
         ("device", .string "cam0"), ("broadcasting", .bool true)])]) ∧
    (∀ (env : Env) (d : IpcBridgePrivate) (log : List Event) (deviceId : String),
      d.serverMessagePort = none → deviceId ∉ d.broadcasting →
      deviceStart env d log deviceId =
        .fault (log ++ [Event.sendSync none (XpcObject.dictionary
          [("message", .int64 (env.msg .DEVICE_SETBROADCASTING)),
           ("device", .string (c_str deviceId)), ("broadcasting", .bool true)])])) ∧
    (∀ (env : Env) (d : IpcBridgePrivate) (log : List Event) (deviceId : String)
        (hm vm : Bool),
      d.serverMessagePort = none →
      setMirroring env d log deviceId hm vm =
        .fault (log ++ [Event.sendSync none (XpcObject.dictionary
          [("message", .int64 (env.msg .DEVICE_SETMIRRORING)),
           ("device", .string (c_str deviceId)),
           ("hmirror", .bool hm), ("vmirror", .bool vm)])])) ∧
    (∀ (env : Env) (d : IpcBridgePrivate) (log : List Event) (deviceId : String)
        (scaling : Scaling),
      d.serverMessagePort = none →
      setScaling env d log deviceId scaling =
        .fault (log ++ [Event.sendSync none (XpcObject.dictionary
          [("message", .int64 (env.msg .DEVICE_SETSCALING)),
           ("device", .string (c_str deviceId)), ("scaling", .int64 scaling)])])) ∧
    (∀ (env : Env) (d : IpcBridgePrivate) (log : List Event) (deviceId : String)
        (aspectRatio : AspectRatio),
      d.serverMessagePort = none →
      setAspectRatio env d log deviceId aspectRatio =
        .fault (log ++ [Event.sendSync none (XpcObject.dictionary
          [("message", .int64 (env.msg AssistantMsg.DEVICE_SETASPECTRATIO)),
           ("device", .string (c_str deviceId)), ("aspect", .int64 aspectRatio)])])) ∧
    (∀ (env : Env) (d : IpcBridgePrivate) (log : List Event) (deviceId : String),
      d.serverMessagePort = none → deviceId ∈ d.broadcasting →
      deviceStop env d log deviceId =
        .fault (log ++ [Event.sendSync none (XpcObject.dictionary
          [("message", .int64 (env.msg .DEVICE_SETBROADCASTING)),
           ("device", .string (c_str deviceId)), ("broadcasting", .bool false)])])) ∧
    (∀ (env : Env) (d : IpcBridgePrivate) (log : List Event) (deviceId : String)
        (frame : VideoFrame) (surface : SurfaceRef),
      d.serverMessagePort = none → deviceId ∈ d.broadcasting →
      env.surfaceCreate log
        { pixelFormat := frame.format.fourcc, width := frame.format.width,
          height := frame.format.height,
          allocSize := toInt64 (Int.ofNat frame.dataSize) } = some surface →
      write env d log deviceId frame =
        .fault (log ++
          [Event.surfaceCreate
            { pixelFormat := frame.format.fourcc, width := frame.format.width,
              height := frame.format.height,
              allocSize := toInt64 (Int.ofNat frame.dataSize) } (some surface),
           Event.surfaceLock surface 0,
           Event.memcpy surface frame.data frame.dataSize,
           Event.surfaceUnlock surface 0,
           Event.send none (XpcObject.dictionary
            [("message", .int64 (env.msg .FRAME_READY)),
             ("device", .string (c_str deviceId)), ("frame", .surface surface)])])) ∧
    (Reachable Sample.started ∧ Sample.started.serverMessagePort = none ∧
      "cam0" ∈ Sample.started.broadcasting) ∧
    deviceStop Sample.env Sample.started [] "cam0" =
      .fault [Event.sendSync none (XpcObject.dictionary
        [("message", .int64 12), ("device", .string "cam0"),
         ("broadcasting", .bool false)])] ∧
    sentMessages (write Sample.env Sample.started [] "cam0" Sample.frame).log =
      [XpcObject.dictionary
        [("message", .int64 16), ("device", .string "cam0"), ("frame", .surface 7)]] ∧
    broadcasting Sample.env Sample.started [] "cam0" = .ret false Sample.started [] := by
  refine ⟨?_, ?_, ?_, ?_, ?_, ?_, ?_, ⟨Sample.started_reachable, rfl, by decide⟩,
    rfl, rfl, rfl⟩
  · intro env
    rfl
  · intro env d log deviceId hnone hmem
    simp only [deviceStart, hmem, if_false, hnone]
  · intro env d log deviceId hm vm hnone
    simp only [setMirroring, hnone]
  · intro env d log deviceId scaling hnone
    simp only [setScaling, hnone]
  · intro env d log deviceId aspectRatio hnone
    simp only [setAspectRatio, hnone]
  · intro env d log deviceId hnone hmem
    simp only [deviceStop, hmem, not_true_eq_false, if_false, hnone]
  · intro env d log deviceId frame surface hnone hmem hcreate
    simp only [write, hmem, not_true_eq_false, if_false, hcreate, hnone,
      List.append_assoc, List.cons_append, List.nil_append]

end AkVCam

namespace AkVCam

/-! ## Replies that are not dictionaries -/

/-- With a registry connection in place `registerEndPoint` returns at once. -/
theorem registerEndPoint_of_registered (env : Env) (d : IpcBridgePrivate)
    (log : List Event) (asClient : Bool) (c : Conn) (h : d.serverMessagePort = some c) :
    registerEndPoint env d log asClient = .ret true d log := by
  simp only [registerEndPoint, h, Option.isSome_some, if_true]

/-- C5: for every registered record (registry connection `c`) and every device
    id, when no reply on that connection is a dictionary, each operation sends
    its request and returns its unreachable default with the record unchanged:
    `listDevices(true)` and `formats` the empty list, `description` the empty
    string, `broadcasting`, `isHorizontalMirrored` and `isVerticalMirrored`
    `false`, `scalingMode` Fast, `aspectRatioMode` Ignore; `deviceStart`
    returns `false` and `deviceCreate` the empty string, both leaving the
    record, so the device cache and the started list, unchanged. -/
theorem defaults_on_non_dictionary_reply (env : Env) (d : IpcBridgePrivate)
    (log : List Event) (deviceId text : String) (formatList : List VideoFormat) (c : Conn)
    (h : d.serverMessagePort = some c)
    (hr : ∀ log1 message, (env.sendSync log1 (some c) message).asDictionary = none) :
    listDevices env d log true = .ret [] d (log ++ [Event.sendSync (some c)
      (XpcObject.dictionary [("message", .int64 (env.msg .DEVICES))])]) ∧
    formats env d log deviceId = .ret [] d (log ++ [Event.sendSync (some c)
      (XpcObject.dictionary
        [("message", .int64 (env.msg .FORMATS)), ("device", .string (c_str deviceId))])]) ∧
    description env d log deviceId = .ret "" d (log ++ [Event.sendSync (some c)
      (XpcObject.dictionary
        [("message", .int64 (env.msg .DESCRIPTION)), ("device", .string (c_str deviceId))])]) ∧
    broadcasting env d log deviceId = .ret false d (log ++ [Event.sendSync (some c)
      (XpcObject.dictionary
        [("message", .int64 (env.msg .DEVICE_BROADCASTING)),
         ("device", .string (c_str deviceId))])]) ∧
    isHorizontalMirrored env d log deviceId = .ret false d (log ++ [Event.sendSync (some c)
      (XpcObject.dictionary
        [("message", .int64 (env.msg .DEVICE_MIRRORING)), ("device", .string (c_str deviceId))])]) ∧
    isVerticalMirrored env d log deviceId = .ret false d (log ++ [Event.sendSync (some c)
      (XpcObject.dictionary
        [("message", .int64 (env.msg .DEVICE_MIRRORING)), ("device", .string (c_str deviceId))])]) ∧
    scalingMode env d log deviceId = .ret ScalingFast d (log ++ [Event.sendSync (some c)
      (XpcObject.dictionary
        [("message", .int64 (env.msg .DEVICE_SCALING)), ("device", .string (c_str deviceId))])]) ∧
    aspectRatioMode env d log deviceId = .ret AspectRatioIgnore d
      (log ++ [Event.sendSync (some c) (XpcObject.dictionary
        [("message", .int64 (env.msg AssistantMsg.DEVICE_ASPECTRATIO)),
         ("device", .string (c_str deviceId))])]) ∧
    (∃ log1, deviceStart env d log deviceId = .ret false d log1) ∧
    (∃ log1, deviceCreate env d log text formatList = .ret "" d log1) := by
  refine ⟨?_, ?_, ?_, ?_, ?_, ?_, ?_, ?_, ?_, ?_⟩
  · simp only [listDevices, h, hr, not_true_eq_false, if_false]
  · simp only [formats, h, hr]
  · simp only [description, h, hr]
  · simp only [broadcasting, h, hr]
  · simp only [isHorizontalMirrored, h, hr]
  · simp only [isVerticalMirrored, h, hr]
  · simp only [scalingMode, h, hr]
  · simp only [aspectRatioMode, h, hr]
  · by_cases hmem : deviceId ∈ d.broadcasting
    · exact ⟨log, by simp only [deviceStart, hmem, if_true]⟩
    · simp only [deviceStart, hmem, if_false, h, hr]
      exact ⟨_, rfl⟩
  · simp only [deviceCreate, registerEndPoint_of_registered env d _ false c h, h]
    split
    · exact ⟨_, rfl⟩
    · cases hm : d.messagePort with
      | none => exact ⟨_, rfl⟩
      | some m => simp only [hr]; exact ⟨_, rfl⟩

/-- C5 at a sample input: a registered client whose registry answers every
    request with an error object. -/
theorem defaults_on_non_dictionary_reply_witness :
    Sample.registered.serverMessagePort = some 1 ∧
    (∀ log1 message, (Sample.failing.sendSync log1 (some 1) message).asDictionary = none) ∧
    listDevices Sample.failing Sample.registered [] true = .ret [] Sample.registered
      [Event.sendSync (some 1) (XpcObject.dictionary [("message", .int64 5)])] ∧
    (∃ log1, deviceStart Sample.failing Sample.registered [] "cam0"
      = .ret false Sample.registered log1) ∧
    (∃ log1, deviceCreate Sample.failing Sample.registered [] "Cam A" []
      = .ret "" Sample.registered log1) :=
  have h := defaults_on_non_dictionary_reply Sample.failing Sample.registered [] "cam0"
    "Cam A" [] 1 rfl (fun _ _ => rfl)
  ⟨rfl, fun _ _ => rfl, h.1, h.2.2.2.2.2.2.2.2.1, h.2.2.2.2.2.2.2.2.2⟩

/-! ## Registration -/

/-- C6: for every record that is already registered and every `asClient`,
    `registerEndPoint` returns `true` with the record and the log untouched (no
    message, no connection, no field changed); and whenever a call of
    `registerEndPoint` returns `true`, a second call right after it, with any
    flag and under any environment, returns `true` with the same record and the
    same log. -/
theorem registerEndPoint_idempotent (env : Env) (d : IpcBridgePrivate) (log : List Event)
    (asClient : Bool) :
    (d.serverMessagePort.isSome = true →
      registerEndPoint env d log asClient = .ret true d log) ∧
    (∀ d1 log1, registerEndPoint env d log asClient = .ret true d1 log1 →
      ∀ (env2 : Env) (asClient2 : Bool),
        registerEndPoint env2 d1 log1 asClient2 = .ret true d1 log1) := by
  have hreg : ∀ (e : Env) (d0 : IpcBridgePrivate) (log0 : List Event) (a : Bool),
      d0.serverMessagePort.isSome = true → registerEndPoint e d0 log0 a = .ret true d0 log0 := by
    intro e d0 log0 a h0
    simp only [registerEndPoint, h0, if_true]
  refine ⟨hreg env d log asClient, ?_⟩
  intro d1 log1 h1 env2 asClient2
  apply hreg
  unfold registerEndPoint at h1
  simp only [registerEndPoint_failed] at h1
  repeat' split at h1
  all_goals simp only [Outcome.ret.injEq, reduceCtorEq, Bool.false_eq_true, false_and,
    true_and] at h1
  · obtain ⟨rfl, -⟩ := h1
    assumption
  · obtain ⟨rfl, -⟩ := h1
    rfl

/-- C6 at a sample input: a registered client, and a fresh client that
    registers twice in a row. -/
theorem registerEndPoint_idempotent_witness :
    (Sample.registered.serverMessagePort.isSome = true ∧
      registerEndPoint Sample.env Sample.registered [] true = .ret true Sample.registered []) ∧
    (∃ d1 log1, registerEndPoint Sample.env IpcBridgePrivate.fresh [] true
        = .ret true d1 log1 ∧ d1 = Sample.registered ∧
      registerEndPoint Sample.env d1 log1 false = .ret true d1 log1) :=
  ⟨⟨rfl, (registerEndPoint_idempotent Sample.env Sample.registered [] true).1 rfl⟩,
   _, _, rfl, rfl,
   (registerEndPoint_idempotent Sample.env IpcBridgePrivate.fresh [] true).2 _ _ rfl
     Sample.env false⟩

end AkVCam

namespace AkVCam

/-- C7: for every unregistered record, `registerEndPoint(asClient)` returns
    `true` exactly when the registry connection `c` was created, the reply to
    `REQUEST_PORT` (sent on `c` with `client = asClient`) is a dictionary, whose
    port string `p` is read, the listener connection `m` was created, and the
    reply to `ADD_PORT` (sent on `c` with `port = p.c_str()` and
    `connection = m`) is a dictionary with a true status.  Then the record differs from the old one in
    `portName = p`, `messagePort = m`, `serverMessagePort = c`, and the log has
    grown by exactly: create `c`, set handler, resume, `REQUEST_PORT`, create
    `m`, set handler, resume, `ADD_PORT`, in this order.  When the reply to
    `REQUEST_PORT` is not a dictionary the call returns `false` having sent
    `REQUEST_PORT` only.  The C string of a port name without a NUL character,
    as every string read from an XPC object is, is the port name itself. -/
theorem registerEndPoint_handshake (env : Env) (d : IpcBridgePrivate) (log : List Event)
    (asClient : Bool) (h : d.serverMessagePort = none) :
    (∀ d1 log1, registerEndPoint env d log asClient = .ret true d1 log1 ↔
      ∃ c e1 p m e2,
        env.createMachService log env.assistantName = some c ∧
        env.sendSync
          (log ++ [Event.createMachService env.assistantName (some c),
                   Event.setEventHandler c .ignore, Event.resume c])
          (some c)
          (XpcObject.dictionary
            [("message", .int64 (env.msg .REQUEST_PORT)), ("client", .bool asClient)])
          = .dictionary e1 ∧
        xpc_dictionary_get_string e1 "port" = some p ∧
        env.connectionCreate
          (log ++ [Event.createMachService env.assistantName (some c),
                   Event.setEventHandler c .ignore, Event.resume c,
                   Event.sendSync (some c) (XpcObject.dictionary
                     [("message", .int64 (env.msg .REQUEST_PORT)),
                      ("client", .bool asClient)])])
          = some m ∧
        env.sendSync
          (log ++ [Event.createMachService env.assistantName (some c),
                   Event.setEventHandler c .ignore, Event.resume c,
                   Event.sendSync (some c) (XpcObject.dictionary
                     [("message", .int64 (env.msg .REQUEST_PORT)),
                      ("client", .bool asClient)]),
                   Event.connectionCreate (some m),
                   Event.setEventHandler m .listener, Event.resume m])
          (some c)
          (XpcObject.dictionary
            [("message", .int64 (env.msg .ADD_PORT)), ("port", .string (c_str p)),
             ("connection", .connection m)])
          = .dictionary e2 ∧
        xpc_dictionary_get_bool e2 "status" = true ∧
        d1 = { d with portName := p, messagePort := some m, serverMessagePort := some c } ∧
        log1 = log ++
          [Event.createMachService env.assistantName (some c),
           Event.setEventHandler c .ignore, Event.resume c,
           Event.sendSync (some c) (XpcObject.dictionary
             [("message", .int64 (env.msg .REQUEST_PORT)), ("client", .bool asClient)]),
           Event.connectionCreate (some m),
           Event.setEventHandler m .listener, Event.resume m,
           Event.sendSync (some c) (XpcObject.dictionary
             [("message", .int64 (env.msg .ADD_PORT)), ("port", .string (c_str p)),
              ("connection", .connection m)])]) ∧
    (∀ c, env.createMachService log env.assistantName = some c →
      (env.sendSync
          (log ++ [Event.createMachService env.assistantName (some c),
                   Event.setEventHandler c .ignore, Event.resume c])
          (some c)
          (XpcObject.dictionary
            [("message", .int64 (env.msg .REQUEST_PORT)), ("client", .bool asClient)])
        ).asDictionary = none →
      registerEndPoint env d log asClient = .ret false d
        (log ++ [Event.createMachService env.assistantName (some c),
                 Event.setEventHandler c .ignore, Event.resume c,
                 Event.sendSync (some c) (XpcObject.dictionary
                   [("message", .int64 (env.msg .REQUEST_PORT)),
                    ("client", .bool asClient)]),
                 Event.release c])) ∧
    (∀ p : String, (∀ ch ∈ p.data, ch ≠ Char.ofNat 0) → c_str p = p) := by
  refine ⟨?_, ?_, c_str_of_no_nul⟩
  · intro d1 log1
    constructor
    · intro h1
      simp only [registerEndPoint, h, Option.isSome_none, Bool.false_eq_true, if_false,
        registerEndPoint_failed] at h1
      split at h1
      · simp at h1
      · rename_i c hc
        split at h1
        · simp at h1
        · rename_i e1 he1
          split at h1
          · simp at h1
          · rename_i p hp
            split at h1
            · simp at h1
            · rename_i m hm
              split at h1
              · simp at h1
              · rename_i hst
                simp only [not_or, Bool.not_eq_false, Bool.not_eq_true] at hst
                obtain ⟨hsome, hstatus⟩ := hst
                simp only [List.append_assoc, List.cons_append, List.nil_append] at hsome hstatus he1 hm h1
                cases hrep1 : env.sendSync
                    (log ++ [Event.createMachService env.assistantName (some c),
                      Event.setEventHandler c .ignore, Event.resume c])
                    (some c)
                    (XpcObject.dictionary
                      [("message", .int64 (env.msg .REQUEST_PORT)),
                       ("client", .bool asClient)]) with
                | dictionary e1x =>
                  rw [hrep1] at he1
                  simp only [XpcObject.asDictionary, Option.some.injEq] at he1
                  subst he1
                  cases hrep2 : env.sendSync
                      (log ++ [Event.createMachService env.assistantName (some c),
                        Event.setEventHandler c .ignore, Event.resume c,
                        Event.sendSync (some c) (XpcObject.dictionary
                          [("message", .int64 (env.msg .REQUEST_PORT)),
                           ("client", .bool asClient)]),
                        Event.connectionCreate (some m),
                        Event.setEventHandler m .listener, Event.resume m])
                      (some c)
                      (XpcObject.dictionary
                        [("message", .int64 (env.msg .ADD_PORT)), ("port", .string (c_str p)),
                         ("connection", .connection m)]) with
                  | dictionary e2 =>
                    rw [hrep2] at hstatus
                    simp only [XpcObject.asDictionary] at hstatus
                    simp only [Outcome.ret.injEq, true_and] at h1
                    exact ⟨c, e1x, p, m, e2, hc, hrep1, hp, hm, hrep2, hstatus, h1.1.symm,
                      h1.2.symm⟩
                  | _ => rw [hrep2] at hsome; simp [XpcObject.asDictionary] at hsome
                | _ => rw [hrep1] at he1; simp [XpcObject.asDictionary] at he1
    · rintro ⟨c, e1, p, m, e2, hc, hrep1, hp, hm, hrep2, hstatus, rfl, rfl⟩
      simp only [registerEndPoint, h, Option.isSome_none, Bool.false_eq_true, if_false, hc,
        hrep1, XpcObject.asDictionary, hp, hm, List.append_assoc, List.cons_append,
        List.nil_append, hrep2, hstatus, Option.isNone_some, Bool.false_eq_true,
        Bool.true_eq_false, or_self, if_false]
  · intro c hc hrep
    simp only [registerEndPoint, h, Option.isSome_none, Bool.false_eq_true, if_false, hc,
      hrep, registerEndPoint_failed, List.append_assoc, List.cons_append, List.nil_append]

end AkVCam

namespace AkVCam

/-- C7 at sample inputs: a full handshake with the sample registry, and a
    registry whose reply to `REQUEST_PORT` is an error object. -/
theorem registerEndPoint_handshake_witness :
    IpcBridgePrivate.fresh.serverMessagePort = none ∧
    registerEndPoint Sample.env IpcBridgePrivate.fresh [] true = .ret true Sample.registered
      [Event.createMachService "org.webcamoid.cmio.AkVCam.Assistant" (some 1),
       Event.setEventHandler 1 .ignore, Event.resume 1,
       Event.sendSync (some 1) (XpcObject.dictionary
         [("message", .int64 0), ("client", .bool true)]),
       Event.connectionCreate (some 2),
       Event.setEventHandler 2 .listener, Event.resume 2,
       Event.sendSync (some 1) (XpcObject.dictionary
         [("message", .int64 1), ("port", .string "port0"), ("connection", .connection 2)])] ∧
    registerEndPoint Sample.failing IpcBridgePrivate.fresh [] true
      = .ret false IpcBridgePrivate.fresh
      [Event.createMachService "org.webcamoid.cmio.AkVCam.Assistant" (some 1),
       Event.setEventHandler 1 .ignore, Event.resume 1,
       Event.sendSync (some 1) (XpcObject.dictionary
         [("message", .int64 0), ("client", .bool true)]),
       Event.release 1] :=
  ⟨rfl,
   ((registerEndPoint_handshake Sample.env IpcBridgePrivate.fresh [] true rfl).1 _ _).2
     ⟨1, _, "port0", 2, _, rfl, rfl, rfl, rfl, rfl, rfl, rfl, rfl⟩,
   (registerEndPoint_handshake Sample.failing IpcBridgePrivate.fresh [] true rfl).2.1 1 rfl
     rfl⟩

/-- C8: for every unregistered record and every environment, when
    `registerEndPoint` returns `false` the record is the one before the call
    (so `portName`, `messagePort` and `serverMessagePort` are as unset as they
    were), and in the events the call added to the log the released connections
    are exactly the created ones, each once (in reverse order of creation). -/
theorem registerEndPoint_failure_atomic (env : Env) (d d1 : IpcBridgePrivate)
    (log log1 : List Event) (asClient : Bool) (h : d.serverMessagePort = none)
    (hf : registerEndPoint env d log asClient = .ret false d1 log1) :
    d1 = d ∧ d1.serverMessagePort = none ∧
    ∃ events, log1 = log ++ events ∧
      releasedConnections events = (createdConnections events).reverse := by
  simp only [registerEndPoint, h, Option.isSome_none, Bool.false_eq_true, if_false,
    registerEndPoint_failed, List.append_assoc, List.cons_append, List.nil_append] at hf
  repeat' split at hf
  all_goals simp only [Outcome.ret.injEq, reduceCtorEq, Bool.true_eq_false, false_and,
    true_and] at hf
  all_goals obtain ⟨rfl, rfl⟩ := hf
  all_goals exact ⟨rfl, h, _, rfl, by simp [releasedConnections, createdConnections]⟩

/-- C8 at a sample input: a registry that turns down `ADD_PORT` after both
    connections were made; the listener `2` and the registry connection `1`
    are released once each. -/
theorem registerEndPoint_failure_atomic_witness :
    IpcBridgePrivate.fresh.serverMessagePort = none ∧
    registerEndPoint Sample.refusing IpcBridgePrivate.fresh [] false
      = .ret false IpcBridgePrivate.fresh
        [Event.createMachService "org.webcamoid.cmio.AkVCam.Assistant" (some 1),
         Event.setEventHandler 1 .ignore, Event.resume 1,
         Event.sendSync (some 1) (XpcObject.dictionary
           [("message", .int64 0), ("client", .bool false)]),
         Event.connectionCreate (some 2),
         Event.setEventHandler 2 .listener, Event.resume 2,
         Event.sendSync (some 1) (XpcObject.dictionary
           [("message", .int64 1), ("port", .string "port0"),
            ("connection", .connection 2)]),
         Event.release 2, Event.release 1] ∧
    (IpcBridgePrivate.fresh = IpcBridgePrivate.fresh ∧
      IpcBridgePrivate.fresh.serverMessagePort = none ∧
      ∃ events,
        [Event.createMachService "org.webcamoid.cmio.AkVCam.Assistant" (some 1),
         Event.setEventHandler 1 .ignore, Event.resume 1,
         Event.sendSync (some 1) (XpcObject.dictionary
           [("message", .int64 0), ("client", .bool false)]),
         Event.connectionCreate (some 2),
         Event.setEventHandler 2 .listener, Event.resume 2,
         Event.sendSync (some 1) (XpcObject.dictionary
           [("message", .int64 1), ("port", .string "port0"),
            ("connection", .connection 2)]),
         Event.release 2, Event.release 1] = [] ++ events ∧
        releasedConnections events = (createdConnections events).reverse) :=
  ⟨rfl, rfl,
   registerEndPoint_failure_atomic Sample.refusing IpcBridgePrivate.fresh
     IpcBridgePrivate.fresh [] _ false rfl rfl⟩

end AkVCam

namespace AkVCam

/-! ## Where the service is started -/

theorem systemCalls_append (l1 l2 : List Event) :
    systemCalls (l1 ++ l2) = systemCalls l1 ++ systemCalls l2 := by
  induction l1 with
  | nil => rfl
  | cons e rest ih => cases e <;> simp [systemCalls, ih]

theorem sentMessages_append (l1 l2 : List Event) :
    sentMessages (l1 ++ l2) = sentMessages l1 ++ sentMessages l2 := by
  induction l1 with
  | nil => rfl
  | cons e rest ih => cases e <;> simp [sentMessages, ih]

/-- The log that `startAssistant` leaves extends the log it was given by
    `system` calls only. -/
theorem startAssistant_log (env : Env) (log : List Event) :
    ∃ events, (startAssistant env log).2 = log ++ events ∧ sentMessages events = [] ∧
      createdConnections events = [] := by
  simp only [startAssistant]
  split
  · simp only [List.append_assoc, List.cons_append, List.nil_append]
    exact ⟨_, rfl, rfl, rfl⟩
  · exact ⟨_, rfl, rfl, rfl⟩

/-- The log that `registerEndPoint` leaves extends the log it was given. -/
theorem registerEndPoint_log_extends (env : Env) (d : IpcBridgePrivate) (log : List Event)
    (asClient : Bool) : ∃ rest, (registerEndPoint env d log asClient).log = log ++ rest := by
  simp only [registerEndPoint, registerEndPoint_failed, List.append_assoc]
  repeat' split
  all_goals simp only [Outcome.log]
  all_goals first
    | exact ⟨_, rfl⟩
    | exact ⟨[], (List.append_nil _).symm⟩

/-- C9 as stated fails: with the sample registry a freshly constructed client
    registers, sending `REQUEST_PORT` and `ADD_PORT`, without a single call of
    `system`, so without the `launchctl` probe of `startAssistant`. -/
theorem registerEndPoint_skips_startAssistant :
    ∃ d1 log1, registerEndPoint Sample.env IpcBridgePrivate.fresh [] true = .ret true d1 log1 ∧
      systemCalls log1 = [] ∧
      sentMessages log1 =
        [XpcObject.dictionary [("message", .int64 0), ("client", .bool true)],
         XpcObject.dictionary
           [("message", .int64 1), ("port", .string "port0"),
            ("connection", .connection 2)]] :=
  ⟨_, _, rfl, rfl, rfl⟩

/-- C9 as amended: `startAssistant` probes with `launchctl list` and, when the
    probe fails, runs `launchctl load -w`, succeeding when either exits with
    status 0.  The constructor of the client's private record runs it once.
    `registerEndPoint` never calls `system`: on an unregistered record the
    first thing it does is create the registry connection.  `deviceCreate` runs
    `startAssistant` before anything else, and when that fails it returns the
    empty id with the record unchanged and nothing but the two `system` calls
    added to the log.  The constructor of a client runs it for the private
    record and, when the client is the first of its process, a second time in
    the constructor of the process-wide instance. -/
theorem startAssistant_placement (env : Env) (d : IpcBridgePrivate) (log : List Event)
    (asClient : Bool) (text : String) (formatList : List VideoFormat) :
    (∃ events, (startAssistant env log).2 = log ++ events ∧
      (env.system log ("launchctl list " ++ env.assistantName) = 0 →
        (startAssistant env log).1 = true ∧
        events = [Event.system ("launchctl list " ++ env.assistantName)]) ∧
      (env.system log ("launchctl list " ++ env.assistantName) ≠ 0 →
        ∃ load, events = [Event.system ("launchctl list " ++ env.assistantName),
                          Event.system ("launchctl load -w " ++ load)] ∧
          ((startAssistant env log).1 = true ↔
            env.system (log ++ [Event.system ("launchctl list " ++ env.assistantName)])
              ("launchctl load -w " ++ load) = 0))) ∧
    IpcBridgePrivate.construct env log
      = .ret () IpcBridgePrivate.fresh (startAssistant env log).2 ∧
    systemCalls (registerEndPoint env d log asClient).log = systemCalls log ∧
    (d.serverMessagePort = none →
      ∃ rest, (registerEndPoint env d log asClient).log =
        log ++ Event.createMachService env.assistantName
          (env.createMachService log env.assistantName) :: rest) ∧
    (∃ rest, (deviceCreate env d log text formatList).log
      = (startAssistant env log).2 ++ rest) ∧
    ((startAssistant env log).1 = false →
      deviceCreate env d log text formatList = .ret "" d (startAssistant env log).2 ∧
      sentMessages (startAssistant env log).2 = sentMessages log) ∧
    (∀ (p : Process) (this : BridgePtr), ∃ p1,
      IpcBridge.construct env p log this
        = .done p1
            (if p.ipcBridgePrivate_initialized = true then (startAssistant env log).2
             else (startAssistant env (startAssistant env log).2).2)) := by
  refine ⟨?_, rfl, ?_, ?_, ?_, ?_, ?_⟩
  · simp only [startAssistant]
    split
    · rename_i hne
      simp only [List.append_assoc, List.cons_append, List.nil_append]
      refine ⟨_, rfl, fun h0 => absurd h0 hne, fun _ => ⟨_, rfl, ?_⟩⟩
      simp only [decide_eq_true_eq]
    · rename_i hzero
      simp only [ne_eq, not_not] at hzero
      exact ⟨_, rfl, fun _ => ⟨rfl, rfl⟩, fun h0 => absurd hzero h0⟩
  · simp only [registerEndPoint, registerEndPoint_failed]
    repeat' split
    all_goals simp [Outcome.log, systemCalls_append, systemCalls]
  · intro h
    simp only [registerEndPoint, h, Option.isSome_none, Bool.false_eq_true, if_false,
      registerEndPoint_failed]
    repeat' split
    all_goals simp [Outcome.log, *]
  · obtain ⟨sa, hsa, -, -⟩ := startAssistant_log env log
    simp only [deviceCreate]
    split
    · exact ⟨[], by simp [Outcome.log]⟩
    · obtain ⟨rest, hrest⟩ :=
        registerEndPoint_log_extends env d (startAssistant env log).2 false
      cases hreg : registerEndPoint env d (startAssistant env log).2 false with
      | fault log0 =>
        rw [hreg] at hrest
        simp only [Outcome.log] at hrest ⊢
        exact ⟨rest, hrest⟩
      | ret v d0 log0 =>
        rw [hreg] at hrest
        simp only [Outcome.log] at hrest
        subst hrest
        simp only
        repeat' split
        all_goals simp only [Outcome.log, List.append_assoc]
        all_goals exact ⟨_, rfl⟩
  · intro hfalse
    obtain ⟨sa, hsa, hsent, -⟩ := startAssistant_log env log
    refine ⟨by simp only [deviceCreate, hfalse, if_true], ?_⟩
    rw [hsa, sentMessages_append, hsent, List.append_nil]
  · intro p this
    obtain ⟨bridges, records, initialized⟩ := p
    cases initialized
    · exact ⟨_, rfl⟩
    · exact ⟨_, rfl⟩

end AkVCam

namespace AkVCam

/-- C9 as amended, at a sample input: with no registry and no way to start it,
    `deviceCreate` gives up after the two `launchctl` calls, and
    `registerEndPoint` starts with the connection attempt. -/
theorem startAssistant_placement_witness :
    IpcBridgePrivate.fresh.serverMessagePort = none ∧
    (startAssistant Sample.offline []).1 = false ∧
    (deviceCreate Sample.offline IpcBridgePrivate.fresh [] "Cam A" []
        = .ret "" IpcBridgePrivate.fresh (startAssistant Sample.offline []).2 ∧
      sentMessages (startAssistant Sample.offline []).2 = sentMessages []) ∧
    (∃ rest, (registerEndPoint Sample.offline IpcBridgePrivate.fresh [] true).log =
      [] ++ Event.createMachService Sample.offline.assistantName
        (Sample.offline.createMachService [] Sample.offline.assistantName) :: rest) :=
  have h := startAssistant_placement Sample.offline IpcBridgePrivate.fresh [] true "Cam A" []
  ⟨rfl, rfl, h.2.2.2.2.2.1 rfl, h.2.2.2.1 rfl⟩

/-! ## Unregistration -/

/-- C10: for every record and every environment `unregisterEndPoint` returns
    with `messagePort` and `serverMessagePort` null and `portName` empty, the
    other fields as they were; and a following `registerEndPoint`, under any
    environment and with any flag, starts over by creating a registry
    connection and, when it returns `true`, has gone through the whole
    handshake: both connections are new and `REQUEST_PORT` and `ADD_PORT` were
    sent again. -/
theorem unregisterEndPoint_teardown (env : Env) (d : IpcBridgePrivate) (log : List Event) :
    ∃ d1 log1, unregisterEndPoint env d log = .ret () d1 log1 ∧
      d1 = { d with messagePort := none, serverMessagePort := none, portName := "" } ∧
      d1.messagePort = none ∧ d1.serverMessagePort = none ∧ d1.portName = "" ∧
      ∀ (env2 : Env) (asClient : Bool),
        (∃ rest, (registerEndPoint env2 d1 log1 asClient).log =
          log1 ++ Event.createMachService env2.assistantName
            (env2.createMachService log1 env2.assistantName) :: rest) ∧
        (∀ d2 log2, registerEndPoint env2 d1 log1 asClient = .ret true d2 log2 →
          ∃ c p m, d2.serverMessagePort = some c ∧ d2.messagePort = some m ∧
            d2.portName = p ∧
            log2 = log1 ++
              [Event.createMachService env2.assistantName (some c),
               Event.setEventHandler c .ignore, Event.resume c,
               Event.sendSync (some c) (XpcObject.dictionary
                 [("message", .int64 (env2.msg .REQUEST_PORT)),
                  ("client", .bool asClient)]),
               Event.connectionCreate (some m),
               Event.setEventHandler m .listener, Event.resume m,
               Event.sendSync (some c) (XpcObject.dictionary
                 [("message", .int64 (env2.msg .ADD_PORT)), ("port", .string (c_str p)),
                  ("connection", .connection m)])]) := by
  obtain ⟨d1, log1, h1, hd1⟩ : ∃ d1 log1, unregisterEndPoint env d log = .ret () d1 log1 ∧
      d1 = { d with messagePort := none, serverMessagePort := none, portName := "" } :=
    ⟨_, _, rfl, rfl⟩
  have hnone : d1.serverMessagePort = none := by rw [hd1]
  refine ⟨d1, log1, h1, hd1, by rw [hd1], hnone, by rw [hd1], ?_⟩
  intro env2 asClient
  constructor
  · simp only [registerEndPoint, hnone, Option.isSome_none, Bool.false_eq_true, if_false,
      registerEndPoint_failed]
    repeat' split
    all_goals simp [Outcome.log, *]
  · intro d2 log2 h2
    simp only [registerEndPoint, hnone, Option.isSome_none, Bool.false_eq_true, if_false,
      registerEndPoint_failed, List.append_assoc, List.cons_append, List.nil_append] at h2
    repeat' split at h2
    all_goals simp only [Outcome.ret.injEq, reduceCtorEq, Bool.false_eq_true, false_and,
      true_and] at h2
    obtain ⟨rfl, rfl⟩ := h2
    exact ⟨_, _, _, rfl, rfl, rfl, rfl⟩

end AkVCam

namespace AkVCam

/-- C10 at a sample input: a registered client unregisters (listener released,
    `REMOVE_PORT` sent, registry connection released) and is back to the
    freshly constructed record. -/
theorem unregisterEndPoint_teardown_witness :
    unregisterEndPoint Sample.env Sample.registered [] = .ret () IpcBridgePrivate.fresh
      [Event.release 2,
       Event.send (some 1) (XpcObject.dictionary
         [("message", .int64 2), ("port", .string "port0")]),
       Event.release 1] ∧
    ∃ d1 log1, unregisterEndPoint Sample.env Sample.registered [] = .ret () d1 log1 ∧
      d1 = { Sample.registered with
             messagePort := none, serverMessagePort := none, portName := "" } ∧
      d1.messagePort = none ∧ d1.serverMessagePort = none ∧ d1.portName = "" ∧
      ∀ (env2 : Env) (asClient : Bool),
        (∃ rest, (registerEndPoint env2 d1 log1 asClient).log =
          log1 ++ Event.createMachService env2.assistantName
            (env2.createMachService log1 env2.assistantName) :: rest) ∧
        (∀ d2 log2, registerEndPoint env2 d1 log1 asClient = .ret true d2 log2 →
          ∃ c p m, d2.serverMessagePort = some c ∧ d2.messagePort = some m ∧
            d2.portName = p ∧
            log2 = log1 ++
              [Event.createMachService env2.assistantName (some c),
               Event.setEventHandler c .ignore, Event.resume c,
               Event.sendSync (some c) (XpcObject.dictionary
                 [("message", .int64 (env2.msg .REQUEST_PORT)),
                  ("client", .bool asClient)]),
               Event.connectionCreate (some m),
               Event.setEventHandler m .listener, Event.resume m,
               Event.sendSync (some c) (XpcObject.dictionary
                 [("message", .int64 (env2.msg .ADD_PORT)), ("port", .string (c_str p)),
                  ("connection", .connection m)])]) :=
  ⟨rfl, unregisterEndPoint_teardown Sample.env Sample.registered []⟩

end AkVCam

namespace AkVCam

/-! ## The device cache -/

theorem deviceCreate_devices (env : Env) (d d1 : IpcBridgePrivate) (log log1 : List Event)
    (text : String) (formatList : List VideoFormat) (v : String)
    (h : deviceCreate env d log text formatList = .ret v d1 log1) :
    d1.devices = if v = "" then d.devices else d.devices ++ [v] := by
  simp only [deviceCreate] at h
  split at h
  · simp only [Outcome.ret.injEq] at h
    obtain ⟨rfl, rfl, -⟩ := h
    simp
  · split at h
    · simp at h
    · rename_i v0 d0 log0 hreg
      have hb := (registerEndPoint_frame env d d0 _ log0 false v0 hreg).2
      repeat' split at h
      all_goals simp only [Outcome.ret.injEq, reduceCtorEq] at h
      all_goals obtain ⟨rfl, rfl, -⟩ := h
      all_goals simp_all

theorem deviceDestroy_devices (env : Env) (d d1 : IpcBridgePrivate) (log log1 : List Event)
    (deviceId : String) (h : deviceDestroy env d log deviceId = .ret () d1 log1) :
    d1.devices = if d.serverMessagePort.isSome then d.devices.erase deviceId else d.devices := by
  simp only [deviceDestroy] at h
  repeat' split at h
  all_goals simp only [Outcome.ret.injEq, reduceCtorEq, true_and] at h
  all_goals obtain ⟨rfl, -⟩ := h
  all_goals simp_all [List.erase_of_not_mem]

/-- A returning call other than `deviceCreate` and `deviceDestroy` leaves the
    device cache as it was. -/
theorem call_run_devices (env : Env) (d d1 : IpcBridgePrivate) (log log1 : List Event)
    (c : Call) (hc : c.writesDevices = false) (h : c.run env d log = .ret () d1 log1) :
    d1.devices = d.devices := by
  cases c with
  | registerEndPoint asClient =>
    obtain ⟨v, hv⟩ := Outcome.void_eq_ret _ _ _ h
    exact (registerEndPoint_frame _ _ _ _ _ _ _ hv).2
  | unregisterEndPoint => exact (unregisterEndPoint_frame _ _ _ _ _ h).2
  | listDevices all =>
    obtain ⟨v, hv⟩ := Outcome.void_eq_ret _ _ _ h
    rw [listDevices_frame _ _ _ _ _ _ _ hv]
  | description deviceId =>
    obtain ⟨v, hv⟩ := Outcome.void_eq_ret _ _ _ h
    rw [description_frame _ _ _ _ _ _ _ hv]
  | formats deviceId =>
    obtain ⟨v, hv⟩ := Outcome.void_eq_ret _ _ _ h
    rw [formats_frame _ _ _ _ _ _ _ hv]
  | broadcasting deviceId =>
    obtain ⟨v, hv⟩ := Outcome.void_eq_ret _ _ _ h
    rw [broadcasting_frame _ _ _ _ _ _ _ hv]
  | isHorizontalMirrored deviceId =>
    obtain ⟨v, hv⟩ := Outcome.void_eq_ret _ _ _ h
    rw [isHorizontalMirrored_frame _ _ _ _ _ _ _ hv]
  | isVerticalMirrored deviceId =>
    obtain ⟨v, hv⟩ := Outcome.void_eq_ret _ _ _ h
    rw [isVerticalMirrored_frame _ _ _ _ _ _ _ hv]
  | scalingMode deviceId =>
    obtain ⟨v, hv⟩ := Outcome.void_eq_ret _ _ _ h
    rw [scalingMode_frame _ _ _ _ _ _ _ hv]
  | aspectRatioMode deviceId =>
    obtain ⟨v, hv⟩ := Outcome.void_eq_ret _ _ _ h
    rw [aspectRatioMode_frame _ _ _ _ _ _ _ hv]
  | deviceCreate text formatList => simp [Call.writesDevices] at hc
  | deviceDestroy deviceId => simp [Call.writesDevices] at hc
  | deviceStart deviceId =>
    obtain ⟨v, hv⟩ := Outcome.void_eq_ret _ _ _ h
    simp only [deviceStart] at hv
    repeat' split at hv
    all_goals simp only [Outcome.ret.injEq, reduceCtorEq] at hv
    all_goals (obtain ⟨-, rfl, -⟩ := hv; rfl)
  | deviceStop deviceId =>
    simp only [Call.run, deviceStop] at h
    repeat' split at h
    all_goals simp only [Outcome.ret.injEq, reduceCtorEq, true_and] at h
    all_goals (obtain ⟨rfl, -⟩ := h; rfl)
  | write deviceId frame => rw [write_frame _ _ _ _ _ _ _ h]
  | setMirroring deviceId hm vm => rw [setMirroring_frame _ _ _ _ _ _ _ _ h]
  | setScaling deviceId scaling => rw [setScaling_frame _ _ _ _ _ _ _ h]
  | setAspectRatio deviceId aspectRatio => rw [setAspectRatio_frame _ _ _ _ _ _ _ h]
  | setFrameReadyCallback callback =>
    simp only [Call.run, AkVCam.setFrameReadyCallback, Outcome.ret.injEq, true_and] at h
    rw [← h.1]
  | setDeviceAddedCallback callback =>
    simp only [Call.run, AkVCam.setDeviceAddedCallback, Outcome.ret.injEq, true_and] at h
    rw [← h.1]
  | setDeviceRemovedCallback callback =>
    simp only [Call.run, AkVCam.setDeviceRemovedCallback, Outcome.ret.injEq, true_and] at h
    rw [← h.1]
  | setBroadcastingChangedCallback callback =>
    simp only [Call.run, AkVCam.setBroadcastingChangedCallback, Outcome.ret.injEq,
      true_and] at h
    rw [← h.1]
  | setMirrorChangedCallback callback =>
    simp only [Call.run, AkVCam.setMirrorChangedCallback, Outcome.ret.injEq, true_and] at h
    rw [← h.1]
  | setScalingChangedCallback callback =>
    simp only [Call.run, AkVCam.setScalingChangedCallback, Outcome.ret.injEq, true_and] at h
    rw [← h.1]
  | setAspectRatioChangedCallback callback =>
    simp only [Call.run, AkVCam.setAspectRatioChangedCallback, Outcome.ret.injEq,
      true_and] at h
    rw [← h.1]

/-- The record `Sample.creator` is what the constructor followed by a
    successful `deviceCreate` leaves. -/
theorem Sample.creator_reachable : Reachable Sample.creator :=
  Reachable.call Sample.env [] _ IpcBridgePrivate.fresh _ (.deviceCreate "Cam A" [])
    (Reachable.construct Sample.env [] _ _ rfl) rfl

/-- The record `Sample.cached` is what `unregisterEndPoint` leaves of
    `Sample.creator`. -/
theorem Sample.cached_reachable : Reachable Sample.cached :=
  Reachable.call Sample.env [] _ Sample.creator _ .unregisterEndPoint
    Sample.creator_reachable rfl

/-- C11 as stated fails: a client that created `cam0` and then unregistered
    still has `cam0` in its cache, yet `listDevices(false)` returns the empty
    list. -/
theorem listDevices_local_needs_connection :
    Reachable Sample.cached ∧ Sample.cached.devices = ["cam0"] ∧
    listDevices Sample.env Sample.cached [] false = .ret [] Sample.cached [] :=
  ⟨Sample.cached_reachable, rfl, rfl⟩

/-- C11 as amended: for every record `listDevices(false)` returns with the
    record and the log untouched (no request); with a registry connection it
    returns exactly the device cache, without one the empty list.  The cache is
    written by `deviceCreate`, which appends the id it returns when that id is
    not empty, and by `deviceDestroy`, which with a registry connection erases
    the first occurrence of its argument; every other returning call leaves it
    as it was. -/
theorem listDevices_local (env : Env) (d : IpcBridgePrivate) (log : List Event) :
    (d.serverMessagePort.isSome = true →
      listDevices env d log false = .ret d.devices d log) ∧
    (d.serverMessagePort = none → listDevices env d log false = .ret [] d log) ∧
    (∀ text formatList v d1 log1,
      deviceCreate env d log text formatList = .ret v d1 log1 →
      d1.devices = if v = "" then d.devices else d.devices ++ [v]) ∧
    (∀ deviceId d1 log1, deviceDestroy env d log deviceId = .ret () d1 log1 →
      d1.devices = if d.serverMessagePort.isSome then d.devices.erase deviceId
        else d.devices) ∧
    (∀ (c : Call) d1 log1, c.writesDevices = false → c.run env d log = .ret () d1 log1 →
      d1.devices = d.devices) := by
  refine ⟨?_, ?_, ?_, ?_, ?_⟩
  · intro h
    obtain ⟨c, hc⟩ := Option.isSome_iff_exists.1 h
    simp only [listDevices, hc, Bool.false_eq_true, not_false_eq_true, if_true]
  · intro h
    simp only [listDevices, h]
  · intro text formatList v d1 log1 h
    exact deviceCreate_devices env d d1 log log1 text formatList v h
  · intro deviceId d1 log1 h
    exact deviceDestroy_devices env d d1 log log1 deviceId h
  · intro c d1 log1 hc h
    exact call_run_devices env d d1 log log1 c hc h

/-- C11 as amended, at sample inputs: the registered creator of `cam0` lists
    it, the unregistered one lists nothing, and a created id enters the
    cache. -/
theorem listDevices_local_witness :
    (Sample.creator.serverMessagePort.isSome = true ∧
      listDevices Sample.env Sample.creator [] false
        = .ret ["cam0"] Sample.creator []) ∧
    (Sample.cached.serverMessagePort = none ∧
      listDevices Sample.env Sample.cached [] false = .ret [] Sample.cached []) ∧
    (∃ log1, deviceCreate Sample.env Sample.registered [] "Cam A" []
        = .ret "cam0" Sample.creator log1 ∧
      Sample.creator.devices = if "cam0" = "" then Sample.registered.devices
        else Sample.registered.devices ++ ["cam0"]) :=
  ⟨⟨rfl, (listDevices_local Sample.env Sample.creator []).1 rfl⟩,
   ⟨rfl, (listDevices_local Sample.env Sample.cached []).2.1 rfl⟩,
   _, rfl, (listDevices_local Sample.env Sample.registered []).2.2.1 "Cam A" [] _ _ _ rfl⟩

end AkVCam

namespace AkVCam

theorem listDevices_loop_strings (names : List String) :
    listDevices_loop (names.map XpcObject.string) = some names := by
  induction names with
  | nil => rfl
  | cons name rest ih =>
    simp only [listDevices_loop] at ih
    simp only [listDevices_loop, List.map_cons, List.mapM_cons, XpcObject.asString, ih]
    rfl

/-- C12: for every registered record (registry connection `c`),
    `listDevices(true)` sends exactly one request, `DEVICES`, on `c`, whatever
    the reply; and when the reply is a dictionary whose `devices` array holds
    the strings `names`, it returns exactly `names`, in that order, whatever
    the device cache holds, with the record, so the cache, unchanged. -/
theorem listDevices_all (env : Env) (d : IpcBridgePrivate) (log : List Event) (c : Conn)
    (h : d.serverMessagePort = some c) :
    (listDevices env d log true).log = log ++ [Event.sendSync (some c)
      (XpcObject.dictionary [("message", .int64 (env.msg .DEVICES))])] ∧
    (∀ entries names,
      env.sendSync log (some c)
        (XpcObject.dictionary [("message", .int64 (env.msg .DEVICES))])
        = .dictionary entries →
      xpc_dictionary_get_array entries "devices" = some (names.map XpcObject.string) →
      listDevices env d log true = .ret names d (log ++ [Event.sendSync (some c)
        (XpcObject.dictionary [("message", .int64 (env.msg .DEVICES))])])) := by
  constructor
  · simp only [listDevices, h, not_true_eq_false, if_false]
    repeat' split
    all_goals rfl
  · intro entries names hreply harray
    simp only [listDevices, h, not_true_eq_false, if_false, hreply, XpcObject.asDictionary,
      harray, listDevices_loop_strings]

/-- C12 at a sample input: the registry lists `cam0` and `cam7` to a registered
    client whose own cache is empty. -/
theorem listDevices_all_witness :
    Sample.registered.serverMessagePort = some 1 ∧ Sample.registered.devices = [] ∧
    listDevices Sample.listing Sample.registered [] true
      = .ret ["cam0", "cam7"] Sample.registered
          [Event.sendSync (some 1) (XpcObject.dictionary [("message", .int64 5)])] :=
  ⟨rfl, rfl,
   (listDevices_all Sample.listing Sample.registered [] 1 rfl).2 _ ["cam0", "cam7"] rfl rfl⟩

/-- The runs of `deviceCreate` that return.  It runs `startAssistant` and
    `registerEndPoint(false)` and then, with both ports in place, sends
    `DEVICE_CREATE`.  It returns the empty id when the service cannot be
    started, when a port is missing after the registration, and when the reply
    is not a dictionary; it returns the device string of the reply when the
    reply is a dictionary carrying one.  In every case in which it returns, the
    device cache is the old cache with the returned id appended when that id is
    not empty, and the old cache when it is empty. -/
theorem deviceCreate_returns (env : Env) (d : IpcBridgePrivate) (log : List Event)
    (text : String) (formatList : List VideoFormat) :
    ((startAssistant env log).1 = false →
      deviceCreate env d log text formatList = .ret "" d (startAssistant env log).2) ∧
    (∀ r d0 log0, (startAssistant env log).1 = true →
      registerEndPoint env d (startAssistant env log).2 false = .ret r d0 log0 →
      d0.devices = d.devices ∧
      ((d0.serverMessagePort = none ∨ d0.messagePort = none) →
        deviceCreate env d log text formatList = .ret "" d0 log0) ∧
      (∀ c m, d0.serverMessagePort = some c → d0.messagePort = some m →
        ((env.sendSync log0 (some c) (XpcObject.dictionary
            [("message", .int64 (env.msg .DEVICE_CREATE)), ("port", .string (c_str d0.portName)),
             ("description", .string (c_str text)),
             ("formats", .array (formatList.map (deviceCreate_encode env)))])
          ).asDictionary = none →
          deviceCreate env d log text formatList = .ret "" d0
            (log0 ++ [Event.sendSync (some c) (XpcObject.dictionary
              [("message", .int64 (env.msg .DEVICE_CREATE)), ("port", .string (c_str d0.portName)),
               ("description", .string (c_str text)),
               ("formats", .array (formatList.map (deviceCreate_encode env)))])])) ∧
        (∀ entries deviceId,
          env.sendSync log0 (some c) (XpcObject.dictionary
            [("message", .int64 (env.msg .DEVICE_CREATE)), ("port", .string (c_str d0.portName)),
             ("description", .string (c_str text)),
             ("formats", .array (formatList.map (deviceCreate_encode env)))])
            = .dictionary entries →
          xpc_dictionary_get_string entries "device" = some deviceId →
          deviceCreate env d log text formatList = .ret deviceId
            (if deviceId = "" then d0 else { d0 with devices := d0.devices ++ [deviceId] })
            (log0 ++ [Event.sendSync (some c) (XpcObject.dictionary
              [("message", .int64 (env.msg .DEVICE_CREATE)), ("port", .string (c_str d0.portName)),
               ("description", .string (c_str text)),
               ("formats", .array (formatList.map (deviceCreate_encode env)))])])))) ∧
    (∀ v d1 log1, deviceCreate env d log text formatList = .ret v d1 log1 →
      d1.devices = if v = "" then d.devices else d.devices ++ [v]) := by
  refine ⟨?_, ?_, ?_⟩
  · intro hfalse
    simp only [deviceCreate, hfalse, if_true]
  · intro r d0 log0 hstart hreg
    refine ⟨(registerEndPoint_frame env d d0 _ log0 false r hreg).2, ?_, ?_⟩
    · rintro (hnone | hnone)
      · simp only [deviceCreate, hstart, Bool.true_eq_false, if_false, hreg, hnone]
      · simp only [deviceCreate, hstart, Bool.true_eq_false, if_false, hreg, hnone]
        cases d0.serverMessagePort <;> rfl
    · intro c m hc hm
      constructor
      · intro hreply
        simp only [deviceCreate, hstart, Bool.true_eq_false, if_false, hreg, hc, hm, hreply]
      · intro entries deviceId hreply hdevice
        simp only [deviceCreate, hstart, Bool.true_eq_false, if_false, hreg, hc, hm, hreply,
          XpcObject.asDictionary, hdevice]
        by_cases hempty : deviceId = ""
        · simp [hempty]
        · simp [hempty]
  · intro v d1 log1 h
    exact deviceCreate_devices env d d1 log log1 text formatList v h

/-- C13 at its failing input: a fresh client whose registry answers every
    request with an empty dictionary.  `deviceCreate` starts the registration,
    whose `REQUEST_PORT` reply is a dictionary without a port string, and the
    null result of `xpc_dictionary_get_string` is assigned to a `std::string`:
    undefined behaviour, where the claim wants the empty id.  In general
    `deviceCreate` runs into undefined behaviour exactly in two cases, both
    after a successful service start: when the registration does, and when the
    `DEVICE_CREATE` reply is a dictionary without a device string, whose null
    `xpc_dictionary_get_string` result is handed to the `std::string`
    constructor.
    The rest of the claim holds: with a registry that answers in full a fresh
    client gets `cam0` and caches it, with no registry the result is the empty
    id, and every run that returns is described by `deviceCreate_returns`:
    the empty id without a service, without both ports and for a reply that is
    no dictionary, the reply's device string otherwise, and the cache extended
    by the returned id exactly when that id is not empty. -/
theorem deviceCreate_outcome :
    deviceCreate Sample.malformed IpcBridgePrivate.fresh [] "Cam A" []
      = .fault
          [Event.system "launchctl list org.webcamoid.cmio.AkVCam.Assistant",
           Event.createMachService "org.webcamoid.cmio.AkVCam.Assistant" (some 1),
           Event.setEventHandler 1 .ignore, Event.resume 1,
           Event.sendSync (some 1) (XpcObject.dictionary
             [("message", .int64 0), ("client", .bool false)])] ∧
    (∀ (env : Env) (d : IpcBridgePrivate) (log : List Event) (text : String)
        (formatList : List VideoFormat) (c m : Conn) (entries : List (String × XpcObject)),
      (startAssistant env log).1 = true →
      d.serverMessagePort = some c → d.messagePort = some m →
      env.sendSync (startAssistant env log).2 (some c) (XpcObject.dictionary
        [("message", .int64 (env.msg .DEVICE_CREATE)), ("port", .string (c_str d.portName)),
         ("description", .string (c_str text)),
         ("formats", .array (formatList.map (deviceCreate_encode env)))])
        = .dictionary entries →
      xpc_dictionary_get_string entries "device" = none →
      deviceCreate env d log text formatList
        = .fault ((startAssistant env log).2 ++ [Event.sendSync (some c) (XpcObject.dictionary
            [("message", .int64 (env.msg .DEVICE_CREATE)),
             ("port", .string (c_str d.portName)), ("description", .string (c_str text)),
             ("formats", .array (formatList.map (deviceCreate_encode env)))])])) ∧
    (∀ (env : Env) (d : IpcBridgePrivate) (log log1 : List Event) (text : String)
        (formatList : List VideoFormat),
      deviceCreate env d log text formatList = .fault log1 ↔
        (startAssistant env log).1 = true ∧
        (registerEndPoint env d (startAssistant env log).2 false = .fault log1 ∨
         ∃ r d0 log0 c m entries,
           registerEndPoint env d (startAssistant env log).2 false = .ret r d0 log0 ∧
           d0.serverMessagePort = some c ∧ d0.messagePort = some m ∧
           env.sendSync log0 (some c) (XpcObject.dictionary
             [("message", .int64 (env.msg .DEVICE_CREATE)),
              ("port", .string (c_str d0.portName)), ("description", .string (c_str text)),
              ("formats", .array (formatList.map (deviceCreate_encode env)))])
             = .dictionary entries ∧
           xpc_dictionary_get_string entries "device" = none ∧
           log1 = log0 ++ [Event.sendSync (some c) (XpcObject.dictionary
             [("message", .int64 (env.msg .DEVICE_CREATE)),
              ("port", .string (c_str d0.portName)), ("description", .string (c_str text)),
              ("formats", .array (formatList.map (deviceCreate_encode env)))])])) ∧
    (∃ log1, deviceCreate Sample.env IpcBridgePrivate.fresh [] "Cam A" []
        = .ret "cam0" Sample.creator log1 ∧
      Sample.creator.devices = IpcBridgePrivate.fresh.devices ++ ["cam0"]) ∧
    deviceCreate Sample.offline IpcBridgePrivate.fresh [] "Cam A" []
      = .ret "" IpcBridgePrivate.fresh (startAssistant Sample.offline []).2 ∧
    (∀ (env : Env) (d : IpcBridgePrivate) (log : List Event) (text : String)
        (formatList : List VideoFormat) (v : String) (d1 : IpcBridgePrivate)
        (log1 : List Event),
      deviceCreate env d log text formatList = .ret v d1 log1 →
      d1.devices = if v = "" then d.devices else d.devices ++ [v]) := by
  refine ⟨rfl, ?_, ?_, ⟨_, rfl, rfl⟩, rfl, ?_⟩
  · intro env d log text formatList c m entries hstart hc hm hreply hdevice
    simp only [deviceCreate, hstart, Bool.true_eq_false, if_false,
      registerEndPoint_of_registered env d _ false c hc, hc, hm, hreply,
      XpcObject.asDictionary, hdevice]
  · intro env d log log1 text formatList
    constructor
    · intro h
      cases hstart : (startAssistant env log).1 with
      | false => simp only [deviceCreate, hstart, if_true, reduceCtorEq] at h
      | true =>
        refine ⟨rfl, ?_⟩
        cases hreg : registerEndPoint env d (startAssistant env log).2 false with
        | fault log0 =>
          simp only [deviceCreate, hstart, Bool.true_eq_false, if_false, hreg,
            Outcome.fault.injEq] at h
          exact Or.inl (by rw [h])
        | ret r d0 log0 =>
          right
          simp only [deviceCreate, hstart, Bool.true_eq_false, if_false, hreg] at h
          cases hc : d0.serverMessagePort with
          | none => simp only [hc, reduceCtorEq] at h
          | some c =>
            cases hm : d0.messagePort with
            | none => simp only [hc, hm, reduceCtorEq] at h
            | some m =>
              simp only [hc, hm] at h
              cases hreply : env.sendSync log0 (some c) (XpcObject.dictionary
                  [("message", .int64 (env.msg .DEVICE_CREATE)),
                   ("port", .string (c_str d0.portName)),
                   ("description", .string (c_str text)),
                   ("formats", .array (formatList.map (deviceCreate_encode env)))]) with
              | dictionary entries =>
                simp only [hreply, XpcObject.asDictionary] at h
                cases hdevice : xpc_dictionary_get_string entries "device" with
                | none =>
                  simp only [hdevice, Outcome.fault.injEq] at h
                  exact ⟨r, d0, log0, c, m, entries, rfl, hc, hm, hreply, hdevice, h.symm⟩
                | some deviceId =>
                  simp only [hdevice] at h
                  split at h <;> simp only [reduceCtorEq] at h
              | _ => simp only [hreply, XpcObject.asDictionary, reduceCtorEq] at h
    · rintro ⟨hstart, hfault | ⟨r, d0, log0, c, m, entries, hreg, hc, hm, hreply, hdevice,
        hlog⟩⟩
      · simp only [deviceCreate, hstart, Bool.true_eq_false, if_false, hfault]
      · simp only [deviceCreate, hstart, Bool.true_eq_false, if_false, hreg, hc, hm, hreply,
          XpcObject.asDictionary, hdevice, hlog]
  · intro env d log text formatList v d1 log1 h
    exact (deviceCreate_returns env d log text formatList).2.2 v d1 log1 h

/-- C14: for every record and every device id that is not in the device
    cache, `deviceDestroy` returns with the record and the log untouched: no
    `DEVICE_DESTROY` message, no change of the cache or of any other field. -/
theorem deviceDestroy_not_cached (env : Env) (d : IpcBridgePrivate) (log : List Event)
    (deviceId : String) (h : deviceId ∉ d.devices) :
    deviceDestroy env d log deviceId = .ret () d log := by
  simp only [deviceDestroy, h, not_false_eq_true, if_true]
  split <;> rfl

/-- C14 at a sample input: the creator of `cam0` destroys `cam1`. -/
theorem deviceDestroy_not_cached_witness :
    "cam1" ∉ Sample.creator.devices ∧
    deviceDestroy Sample.env Sample.creator [] "cam1" = .ret () Sample.creator [] :=
  ⟨by decide, deviceDestroy_not_cached Sample.env Sample.creator [] "cam1" (by decide)⟩

/-- C15 as stated fails: a client that created `cam0` and then unregistered
    has `cam0` in its cache, and `deviceDestroy("cam0")` leaves it there. -/
theorem deviceDestroy_needs_connection :
    Reachable Sample.cached ∧ "cam0" ∈ Sample.cached.devices ∧
    deviceDestroy Sample.env Sample.cached [] "cam0" = .ret () Sample.cached [] :=
  ⟨Sample.cached_reachable, by decide, rfl⟩

/-- C15 as amended: for every record that holds a registry connection `c` and
    every id in the device cache, `deviceDestroy` sends `DEVICE_DESTROY` on `c`
    without waiting for a reply and erases the first occurrence of the id from
    the cache, whatever the environment does with the message; the remaining
    entries keep their order and the id occurs once less.  Without a registry
    connection `deviceDestroy` returns with the record and the log untouched. -/
theorem deviceDestroy_cached (env : Env) (d : IpcBridgePrivate) (log : List Event)
    (deviceId : String) :
    (∀ c, d.serverMessagePort = some c → deviceId ∈ d.devices →
      deviceDestroy env d log deviceId
        = .ret () { d with devices := d.devices.erase deviceId }
            (log ++ [Event.send (some c) (XpcObject.dictionary
              [("message", .int64 (env.msg .DEVICE_DESTROY)),
               ("device", .string (c_str deviceId))])]) ∧
      (d.devices.erase deviceId).Sublist d.devices ∧
      (d.devices.erase deviceId).count deviceId + 1 = d.devices.count deviceId) ∧
    (d.serverMessagePort = none → deviceDestroy env d log deviceId = .ret () d log) := by
  constructor
  · intro c hc hmem
    refine ⟨?_, List.erase_sublist _ _, ?_⟩
    · simp only [deviceDestroy, hc, hmem, not_true_eq_false, if_false]
    · rw [List.count_erase_self]
      have hpos : 0 < d.devices.count deviceId := List.count_pos_iff.2 hmem
      omega
  · intro hnone
    simp only [deviceDestroy, hnone]

/-- C15 as amended, at sample inputs: the registered creator of `cam0` destroys
    it; the unregistered one cannot. -/
theorem deviceDestroy_cached_witness :
    (Sample.creator.serverMessagePort = some 1 ∧ "cam0" ∈ Sample.creator.devices ∧
      deviceDestroy Sample.offline Sample.creator [] "cam0"
        = .ret () Sample.registered
            [Event.send (some 1) (XpcObject.dictionary
              [("message", .int64 4), ("device", .string "cam0")])]) ∧
    (Sample.cached.serverMessagePort = none ∧
      deviceDestroy Sample.env Sample.cached [] "cam0" = .ret () Sample.cached []) :=
  ⟨⟨rfl, by decide,
    ((deviceDestroy_cached Sample.offline Sample.creator [] "cam0").1 1 rfl (by decide)).1⟩,
   rfl, (deviceDestroy_cached Sample.env Sample.cached [] "cam0").2 rfl⟩

end AkVCam

namespace AkVCam

/-! ## Notification dispatch -/

theorem callbacksOf_append (b : BridgePtr) (l1 l2 : List Event) :
    callbacksOf b (l1 ++ l2) = callbacksOf b l1 ++ callbacksOf b l2 := by
  induction l1 with
  | nil => rfl
  | cons e rest ih =>
    cases e <;> simp [callbacksOf, ih]
    split <;> simp

/-- Over live bridges the loop of a notification member runs to its end,
    leaves the process as it is and adds the expected invocations. -/
theorem forBridges_live (p : Process) (slot : IpcBridgePrivate → Callback)
    (call : Notification) (bs : List BridgePtr) (log : List Event)
    (hlive : ∀ b ∈ bs, (p.d b).isSome = true) :
    IpcBridgePrivate.forBridges p slot call bs log
      = .done p (log ++ p.invocations slot call bs) := by
  induction bs generalizing log with
  | nil => simp [IpcBridgePrivate.forBridges, Process.invocations]
  | cons b rest ih =>
    have hb := hlive b (List.mem_cons_self _ _)
    have hrest : ∀ b1 ∈ rest, (p.d b1).isSome = true :=
      fun b1 h1 => hlive b1 (List.mem_cons_of_mem _ h1)
    obtain ⟨d, hd⟩ := Option.isSome_iff_exists.1 hb
    simp only [IpcBridgePrivate.forBridges, hd]
    cases hs : slot d with
    | none =>
      simp only [ih _ hrest, Process.invocations, List.filterMap_cons, hd, hs, Option.map_none']
    | some handler =>
      simp only [ih _ hrest, Process.invocations, List.filterMap_cons, hd, hs, Option.map_some',
        List.append_assoc, List.singleton_append]

/-- A loop of a notification member that runs to its end leaves the process
    as it is. -/
theorem forBridges_process (p p1 : Process) (slot : IpcBridgePrivate → Callback)
    (call : Notification) (bs : List BridgePtr) (log log1 : List Event)
    (h : IpcBridgePrivate.forBridges p slot call bs log = .done p1 log1) : p1 = p := by
  induction bs generalizing log with
  | nil =>
    simp only [IpcBridgePrivate.forBridges, Dispatched.done.injEq] at h
    exact h.1.symm
  | cons b rest ih =>
    simp only [IpcBridgePrivate.forBridges] at h
    repeat' split at h
    · simp at h
    · exact ih _ h
    · exact ih _ h

/-- In the expected invocations over distinct bridges, a bridge of the list
    whose slot holds a callable is called exactly once, and no other bridge is
    called. -/
theorem callbacksOf_invocations (p : Process) (slot : IpcBridgePrivate → Callback)
    (call : Notification) (bs : List BridgePtr) (hnodup : bs.Nodup) (b : BridgePtr) :
    callbacksOf b (p.invocations slot call bs) =
      if b ∈ bs then
        match p.d b with
        | some d =>
          match slot d with
          | some handler => [(handler, call)]
          | none => []
        | none => []
      else [] := by
  induction bs with
  | nil => simp [Process.invocations, callbacksOf]
  | cons b0 rest ih =>
    have hnot : b0 ∉ rest := (List.nodup_cons.1 hnodup).1
    have ih1 := ih (List.nodup_cons.1 hnodup).2
    simp only [Process.invocations] at ih1 ⊢
    by_cases hb : b0 = b
    · subst hb
      have hrest : callbacksOf b0
          (List.filterMap (fun b =>
            match p.d b with
            | some d => Option.map (fun handler => Event.callback b handler call) (slot d)
            | none => none) rest) = [] := by
        rw [ih1]; simp [hnot]
      cases hd : p.d b0 with
      | none => simp [List.filterMap_cons, hd, hrest]
      | some d =>
        cases hs : slot d with
        | none => simp [List.filterMap_cons, hd, hs, hrest]
        | some handler => simp [List.filterMap_cons, hd, hs, callbacksOf, hrest]
    · have hne : ¬ b = b0 := fun h => hb h.symm
      cases hd : p.d b0 with
      | none => simp [List.filterMap_cons, hd, ih1, hne]
      | some d =>
        cases hs : slot d with
        | none => simp [List.filterMap_cons, hd, hs, ih1, hne]
        | some handler => simp [List.filterMap_cons, hd, hs, callbacksOf, hb, ih1, hne]

end AkVCam

namespace AkVCam

/-- The dispatch list after any sequence of `add` calls lists the added
    bridges in the order of the calls. -/
theorem add_foldl (bs start : List BridgePtr) :
    bs.foldl IpcBridgePrivate.add start = start ++ bs := by
  induction bs generalizing start with
  | nil => simp
  | cons b rest ih => simp [List.foldl_cons, ih, IpcBridgePrivate.add]

/-- C16: for every process whose dispatch list holds distinct live bridges, in
    whatever order they were added, one `DEVICE_CREATED` event carrying device
    `device`, arriving on any connection, makes `messageReceived` return with
    the process unchanged after calling the `deviceAdded` callable of every
    listed bridge that holds one exactly once with argument `device`; a bridge
    without a callable, and a bridge that is not in the list, is not called. -/
theorem deviceCreated_fan_out (env : Env) (p : Process) (log : List Event) (client : Conn)
    (entries : List (String × XpcObject)) (device : String)
    (hlive : ∀ b ∈ p.m_bridges, (p.d b).isSome = true)
    (hnodup : p.m_bridges.Nodup)
    (hmessage : xpc_dictionary_get_int64 entries "message" = env.msg .DEVICE_CREATED)
    (hdevice : xpc_dictionary_get_string entries "device" = some device) :
    ∃ events,
      IpcBridgePrivate.messageReceived env p log client (.dictionary entries)
        = .done p (log ++ events) ∧
      (∀ b d handler, b ∈ p.m_bridges → p.d b = some d →
        d.deviceAddedCallback = some handler →
        callbacksOf b events = [(handler, .deviceAdded device)]) ∧
      (∀ b d, p.d b = some d → d.deviceAddedCallback = none → callbacksOf b events = []) ∧
      (∀ b, b ∉ p.m_bridges → callbacksOf b events = []) := by
  refine ⟨p.invocations (fun d => d.deviceAddedCallback) (.deviceAdded device) p.m_bridges,
    ?_, ?_, ?_, ?_⟩
  · simp only [IpcBridgePrivate.messageReceived, XpcObject.isError, Bool.false_eq_true,
      if_false, XpcObject.asDictionary, hmessage, m_messageHandlers, List.lookup, beq_self_eq_true,
      MessageHandler.call, IpcBridgePrivate.deviceCreated, hdevice]
    exact forBridges_live p _ _ _ _ hlive
  · intro b d handler hb hd hh
    rw [callbacksOf_invocations p _ _ _ hnodup b]
    simp only [hb, if_true, hd, hh]
  · intro b d hd hh
    rw [callbacksOf_invocations p _ _ _ hnodup b]
    simp only [hd, hh, ite_self]
  · intro b hb
    rw [callbacksOf_invocations p _ _ _ hnodup b]
    simp only [hb, if_false]

/-- C16 at a sample input: three bridges added in the order 20, 10, 30; one
    `DEVICE_CREATED` event for `cam0` makes three calls, one per bridge. -/
theorem deviceCreated_fan_out_witness :
    [20, 10, 30].foldl IpcBridgePrivate.add [] = Sample.process.m_bridges ∧
    (IpcBridgePrivate.messageReceived Sample.env Sample.process [] 9
        (.dictionary [("message", .int64 17), ("device", .string "cam0")])).log
      = [Event.callback 20 2 (.deviceAdded "cam0"),
         Event.callback 10 1 (.deviceAdded "cam0"),
         Event.callback 30 3 (.deviceAdded "cam0")] ∧
    ∃ events,
      IpcBridgePrivate.messageReceived Sample.env Sample.process [] 9
          (.dictionary [("message", .int64 17), ("device", .string "cam0")])
        = .done Sample.process ([] ++ events) ∧
      (∀ b d handler, b ∈ Sample.process.m_bridges → Sample.process.d b = some d →
        d.deviceAddedCallback = some handler →
        callbacksOf b events = [(handler, .deviceAdded "cam0")]) ∧
      (∀ b d, Sample.process.d b = some d → d.deviceAddedCallback = none →
        callbacksOf b events = []) ∧
      (∀ b, b ∉ Sample.process.m_bridges → callbacksOf b events = []) :=
  ⟨rfl, rfl,
   deviceCreated_fan_out Sample.env Sample.process [] 9
     [("message", .int64 17), ("device", .string "cam0")] "cam0"
     (by decide) (by decide) rfl rfl⟩

end AkVCam

namespace AkVCam

end AkVCam

namespace AkVCam

end AkVCam

namespace AkVCam

/-! ## Frames -/

theorem toInt64_of_fits (n : Nat) (h : n < 2 ^ 63) : toInt64 (Int.ofNat n) = Int.ofNat n := by
  unfold toInt64
  simp only [Int.ofNat_eq_coe]
  omega

theorem toInt32_of_fits (w : Int) (h0 : 0 ≤ w) (h1 : w < 2 ^ 31) :
    toInt32 (Int.ofNat w.toNat) = w := by
  unfold toInt32
  have hw : (Int.ofNat w.toNat : Int) = w := Int.toNat_of_nonneg h0
  rw [hw]
  omega

/-- C18, as stated: `cam0` is in the started list of a registered producer
    and `IOSurfaceCreate` fails; `write` returns after that one call and sends
    no `FRAME_READY` message.  On the producer that unregistered after the
    start, `write` fills the surface and hands the message to the null
    connection, which is undefined.  With an id that holds a NUL character the
    message carries the id only up to that character. -/
theorem write_sends_nothing_without_surface :
    "cam0" ∈ Sample.streaming.broadcasting ∧
    write Sample.exhausted Sample.streaming [] "cam0" Sample.frame =
      .ret () Sample.streaming
        [Event.surfaceCreate
          { pixelFormat := 0x59555932, width := 2, height := 1, allocSize := 4 } none] ∧
    sentMessages (write Sample.exhausted Sample.streaming [] "cam0" Sample.frame).log = [] ∧
    ("cam0" ∈ Sample.started.broadcasting ∧ Reachable Sample.started ∧
      write Sample.env Sample.started [] "cam0" Sample.frame =
        .fault
          [Event.surfaceCreate
            { pixelFormat := 0x59555932, width := 2, height := 1, allocSize := 4 } (some 7),
           Event.surfaceLock 7 0,
           Event.memcpy 7 [16, 128, 16, 128] 4,
           Event.surfaceUnlock 7 0,
           Event.send none (XpcObject.dictionary
             [("message", .int64 16), ("device", .string "cam0"),
              ("frame", .surface 7)])]) ∧
    sentMessages
        (write Sample.env
          { Sample.registered with broadcasting := [String.mk ['c', Char.ofNat 0, 'a']] } []
          (String.mk ['c', Char.ofNat 0, 'a']) Sample.frame).log =
      [XpcObject.dictionary
        [("message", .int64 16), ("device", .string "c"), ("frame", .surface 7)]] :=
  ⟨by decide, rfl, rfl, ⟨by decide, Sample.started_reachable, rfl⟩, rfl⟩

/-- C18, amended: for every frame whose buffer holds `dataSize` bytes and
    whose width, height and size fit their C types, and every id in the started
    list of a producer that holds a registry connection, when the surface can
    be created `write` sends exactly one message on that connection,
    `FRAME_READY` with the C string of the id (the id itself when it holds no
    NUL character) and the surface, after creating the surface with the
    frame's fourcc, width, height and byte size and copying the frame's bytes
    into it under the lock, so that a surface primitive that keeps properties
    and bytes then holds exactly those.  A consumer whose lookup of the `frame`
    field resolves to a surface reporting that state hands to the frame
    callable of each of its bridges the id that the message carries and a
    frame with the same fourcc, width, height, byte size and bytes. -/
theorem frame_round_trip (env : Env) (d : IpcBridgePrivate) (log : List Event)
    (deviceId : String) (frame : VideoFrame) (surface : SurfaceRef) (c : Conn)
    (env2 : Env) (p : Process) (log2 : List Event) (client : Conn) (surface2 : SurfaceRef)
    (hstarted : deviceId ∈ d.broadcasting)
    (hconnection : d.serverMessagePort = some c)
    (hdata : frame.data.length = frame.dataSize)
    (hsize : frame.dataSize < 2 ^ 63)
    (hwidth : 0 ≤ frame.format.width ∧ frame.format.width < 2 ^ 31)
    (hheight : 0 ≤ frame.format.height ∧ frame.format.height < 2 ^ 31)
    (hcreate : env.surfaceCreate log
      { pixelFormat := frame.format.fourcc, width := frame.format.width,
        height := frame.format.height,
        allocSize := toInt64 (Int.ofNat frame.dataSize) } = some surface)
    (hlive : ∀ b ∈ p.m_bridges, (p.d b).isSome = true)
    (hlookup : env2.surfaceLookup log2 (some (.surface surface)) = some surface2)
    (hshared : some (env2.surfaceRead
        (log2 ++ [Event.surfaceLookup (some (.surface surface)) (some surface2),
                  Event.surfaceLock surface2 kIOSurfaceLockReadOnly]) surface2)
      = surfaceAfter surface none
          [Event.surfaceCreate
             { pixelFormat := frame.format.fourcc, width := frame.format.width,
               height := frame.format.height,
               allocSize := toInt64 (Int.ofNat frame.dataSize) } (some surface),
           Event.surfaceLock surface 0,
           Event.memcpy surface frame.data frame.dataSize,
           Event.surfaceUnlock surface 0]) :
    write env d log deviceId frame = .ret () d
      (log ++
        [Event.surfaceCreate
           { pixelFormat := frame.format.fourcc, width := frame.format.width,
             height := frame.format.height,
             allocSize := toInt64 (Int.ofNat frame.dataSize) } (some surface),
         Event.surfaceLock surface 0,
         Event.memcpy surface frame.data frame.dataSize,
         Event.surfaceUnlock surface 0,
         Event.send (some c) (XpcObject.dictionary
           [("message", .int64 (env.msg .FRAME_READY)), ("device", .string (c_str deviceId)),
            ("frame", .surface surface)]),
         Event.surfaceRelease surface]) ∧
    ((∀ ch ∈ deviceId.data, ch ≠ Char.ofNat 0) → c_str deviceId = deviceId) ∧
    surfaceAfter surface none
        [Event.surfaceCreate
           { pixelFormat := frame.format.fourcc, width := frame.format.width,
             height := frame.format.height,
             allocSize := toInt64 (Int.ofNat frame.dataSize) } (some surface),
         Event.surfaceLock surface 0,
         Event.memcpy surface frame.data frame.dataSize,
         Event.surfaceUnlock surface 0]
      = some { pixelFormat := frame.format.fourcc, width := frame.format.width.toNat,
               height := frame.format.height.toNat, allocSize := frame.dataSize,
               contents := frame.data } ∧
    ∃ received : VideoFrame,
      IpcBridgePrivate.frameReady env2 p log2 client
          [("message", .int64 (env.msg .FRAME_READY)), ("device", .string (c_str deviceId)),
           ("frame", .surface surface)]
        = .done p (log2 ++
            [Event.surfaceLookup (some (.surface surface)) (some surface2),
             Event.surfaceLock surface2 kIOSurfaceLockReadOnly,
             Event.surfaceUnlock surface2 kIOSurfaceLockReadOnly,
             Event.surfaceRelease surface2] ++
            p.invocations (fun d => d.frameReadyCallback)
              (.frameReady (c_str deviceId) received) p.m_bridges) ∧
      received.format.fourcc = frame.format.fourcc ∧
      received.format.width = frame.format.width ∧
      received.format.height = frame.format.height ∧
      received.dataSize = frame.dataSize ∧
      received.data = frame.data := by
  have hafter : surfaceAfter surface none
        [Event.surfaceCreate
           { pixelFormat := frame.format.fourcc, width := frame.format.width,
             height := frame.format.height,
             allocSize := toInt64 (Int.ofNat frame.dataSize) } (some surface),
         Event.surfaceLock surface 0,
         Event.memcpy surface frame.data frame.dataSize,
         Event.surfaceUnlock surface 0]
      = some { pixelFormat := frame.format.fourcc, width := frame.format.width.toNat,
               height := frame.format.height.toNat, allocSize := frame.dataSize,
               contents := frame.data } := by
    have htake : List.take frame.dataSize frame.data = frame.data := by
      rw [← hdata]; exact List.take_length _
    have hnat : (Int.ofNat frame.dataSize).toNat = frame.dataSize := Int.toNat_ofNat _
    rw [toInt64_of_fits _ hsize]
    simp only [surfaceAfter, if_true, hnat,
      List.drop_replicate, Nat.sub_self, List.replicate_zero, List.append_nil, htake]
  rw [hafter] at hshared
  refine ⟨?_, c_str_of_no_nul deviceId, hafter, ?_⟩
  · simp only [write, hstarted, not_true_eq_false, if_false, hcreate, hconnection,
      List.append_assoc, List.cons_append, List.nil_append]
  · have hframe : xpc_dictionary_get_value
        [("message", XpcObject.int64 (env.msg .FRAME_READY)),
         ("device", XpcObject.string (c_str deviceId)), ("frame", XpcObject.surface surface)] "frame"
        = some (.surface surface) := by
      simp [xpc_dictionary_get_value, List.lookup]
    have hdevice : xpc_dictionary_get_string
        [("message", XpcObject.int64 (env.msg .FRAME_READY)),
         ("device", XpcObject.string (c_str deviceId)), ("frame", XpcObject.surface surface)] "device"
        = some (c_str deviceId) := by
      simp [xpc_dictionary_get_string, List.lookup]
    have hview := Option.some.inj hshared
    have hwidth32 : toInt32 (Int.ofNat frame.format.width.toNat) = frame.format.width :=
      toInt32_of_fits frame.format.width hwidth.1 hwidth.2
    have hheight32 : toInt32 (Int.ofNat frame.format.height.toNat) = frame.format.height :=
      toInt32_of_fits frame.format.height hheight.1 hheight.2
    refine ⟨{ format :=
                { fourcc := frame.format.fourcc,
                  width := frame.format.width,
                  height := frame.format.height,
                  frameRates := [] },
              data := frame.data,
              dataSize := frame.dataSize }, ?_, rfl, rfl, rfl, rfl, rfl⟩
    simp only [IpcBridgePrivate.frameReady, hdevice, hframe, hlookup, hview, hwidth32,
      hheight32]
    rw [forBridges_live p _ _ _ _ hlive]
    simp only [List.append_assoc, List.cons_append, List.nil_append]

end AkVCam
namespace AkVCam

/-- C18 amended, at a sample input: the registered producer that started
    `cam0` writes the sample frame into surface 7; the consumer process
    resolves it and calls the frame callable of bridge 10 with an equal
    frame. -/
theorem frame_round_trip_witness :
    "cam0" ∈ Sample.streaming.broadcasting ∧
    Sample.streaming.serverMessagePort = some 1 ∧
    Sample.frame.data.length = Sample.frame.dataSize ∧
    write Sample.env Sample.streaming [] "cam0" Sample.frame = .ret () Sample.streaming
      [Event.surfaceCreate
         { pixelFormat := 0x59555932, width := 2, height := 1, allocSize := 4 } (some 7),
       Event.surfaceLock 7 0,
       Event.memcpy 7 [16, 128, 16, 128] 4,
       Event.surfaceUnlock 7 0,
       Event.send (some 1) (XpcObject.dictionary
         [("message", .int64 16), ("device", .string "cam0"), ("frame", .surface 7)]),
       Event.surfaceRelease 7] ∧
    c_str "cam0" = "cam0" ∧
    ∃ received : VideoFrame,
      IpcBridgePrivate.frameReady Sample.env Sample.process [] 9
          [("message", .int64 (Sample.env.msg .FRAME_READY)), ("device", .string "cam0"),
           ("frame", .surface 7)]
        = .done Sample.process ([] ++
            [Event.surfaceLookup (some (.surface 7)) (some 7),
             Event.surfaceLock 7 kIOSurfaceLockReadOnly,
             Event.surfaceUnlock 7 kIOSurfaceLockReadOnly,
             Event.surfaceRelease 7] ++
            Sample.process.invocations (fun d => d.frameReadyCallback)
              (.frameReady "cam0" received) Sample.process.m_bridges) ∧
      received.format.fourcc = Sample.frame.format.fourcc ∧
      received.format.width = Sample.frame.format.width ∧
      received.format.height = Sample.frame.format.height ∧
      received.dataSize = Sample.frame.dataSize ∧
      received.data = Sample.frame.data :=
  have h := frame_round_trip Sample.env Sample.streaming [] "cam0" Sample.frame 7 1
    Sample.env Sample.process [] 9 7 (by decide) rfl rfl (by decide) (by decide) (by decide)
    rfl (by decide) rfl rfl
  ⟨by decide, rfl, rfl, h.1, h.2.1 (by decide), h.2.2.2⟩

theorem lockTrace_append (l1 l2 : List Event) :
    lockTrace (l1 ++ l2) = lockTrace l1 ++ lockTrace l2 := by
  induction l1 with
  | nil => rfl
  | cons e rest ih => cases e <;> simp [lockTrace, ih]

/-- The log that a loop of a notification member leaves extends the log it was
    given by callback invocations only. -/
theorem forBridges_log (p : Process) (slot : IpcBridgePrivate → Callback)
    (call : Notification) (bs : List BridgePtr) (log : List Event) :
    ∃ events, (IpcBridgePrivate.forBridges p slot call bs log).log = log ++ events ∧
      lockTrace events = [] := by
  induction bs generalizing log with
  | nil => exact ⟨[], by simp [IpcBridgePrivate.forBridges, Dispatched.log], rfl⟩
  | cons b rest ih =>
    cases hd : p.d b with
    | none =>
      refine ⟨[], ?_, rfl⟩
      simp only [IpcBridgePrivate.forBridges, hd, Dispatched.log, List.append_nil]
    | some d =>
      cases hs : slot d with
      | none =>
        obtain ⟨events, hlog, htrace⟩ := ih log
        refine ⟨events, ?_, htrace⟩
        simp only [IpcBridgePrivate.forBridges, hd, hs, hlog]
      | some handler =>
        obtain ⟨events, hlog, htrace⟩ := ih (log ++ [Event.callback b handler call])
        refine ⟨Event.callback b handler call :: events, ?_, ?_⟩
        · simp only [IpcBridgePrivate.forBridges, hd, hs, hlog, List.append_assoc,
            List.singleton_append]
        · simp only [lockTrace, htrace]

/-- C19: on every path of `write` and of `frameReady`, under every
    environment, the lock, unlock and `memcpy` calls among the events the
    function adds to the log are either none at all or one lock, followed in
    `write` by the `memcpy` to the locked surface, followed by one unlock of the
    same surface with the same options, so the sequence satisfies the lock
    discipline `bracketed`.  In `write` the paths with an id that is not
    started or with a failed surface creation make none of these calls, and
    every other path makes all three. -/
theorem lock_brackets (env : Env) (d : IpcBridgePrivate) (log : List Event)
    (deviceId : String) (frame : VideoFrame)
    (env2 : Env) (p : Process) (log2 : List Event) (client : Conn)
    (entries : List (String × XpcObject)) :
    (∃ events, (write env d log deviceId frame).log = log ++ events ∧
      bracketed none (lockTrace events) = true ∧
      ((deviceId ∉ d.broadcasting ∨
        env.surfaceCreate log
          { pixelFormat := frame.format.fourcc, width := frame.format.width,
            height := frame.format.height,
            allocSize := toInt64 (Int.ofNat frame.dataSize) } = none) →
        lockTrace events = []) ∧
      (∀ surface, deviceId ∈ d.broadcasting →
        env.surfaceCreate log
          { pixelFormat := frame.format.fourcc, width := frame.format.width,
            height := frame.format.height,
            allocSize := toInt64 (Int.ofNat frame.dataSize) } = some surface →
        lockTrace events =
          [Event.surfaceLock surface 0,
           Event.memcpy surface frame.data frame.dataSize,
           Event.surfaceUnlock surface 0])) ∧
    (∃ events, (IpcBridgePrivate.frameReady env2 p log2 client entries).log = log2 ++ events ∧
      bracketed none (lockTrace events) = true ∧
      (lockTrace events = [] ∨
        ∃ surface, lockTrace events =
          [Event.surfaceLock surface kIOSurfaceLockReadOnly,
           Event.surfaceUnlock surface kIOSurfaceLockReadOnly])) := by
  constructor
  · by_cases hstarted : deviceId ∈ d.broadcasting
    · cases hcreate : env.surfaceCreate log
          { pixelFormat := frame.format.fourcc, width := frame.format.width,
            height := frame.format.height,
            allocSize := toInt64 (Int.ofNat frame.dataSize) } with
      | none =>
        refine ⟨[Event.surfaceCreate
          { pixelFormat := frame.format.fourcc, width := frame.format.width,
            height := frame.format.height,
            allocSize := toInt64 (Int.ofNat frame.dataSize) } none], ?_, ?_, ?_, ?_⟩
        · simp only [write, hstarted, not_true_eq_false, if_false, hcreate, Outcome.log]
        · simp only [lockTrace, bracketed, Option.isNone_none]
        · intro _
          simp only [lockTrace]
        · intro surface _ habs
          simp at habs
      | some surface =>
        cases hconnection : d.serverMessagePort with
        | none =>
          refine ⟨[Event.surfaceCreate
              { pixelFormat := frame.format.fourcc, width := frame.format.width,
                height := frame.format.height,
                allocSize := toInt64 (Int.ofNat frame.dataSize) } (some surface),
            Event.surfaceLock surface 0,
            Event.memcpy surface frame.data frame.dataSize, Event.surfaceUnlock surface 0,
            Event.send none (XpcObject.dictionary
              [("message", .int64 (env.msg .FRAME_READY)),
               ("device", .string (c_str deviceId)), ("frame", .surface surface)])],
            ?_, ?_, ?_, ?_⟩
          · simp only [write, hstarted, not_true_eq_false, if_false, hcreate, hconnection,
              Outcome.log, List.append_assoc, List.cons_append, List.nil_append]
          · simp [lockTrace, bracketed]
          · rintro (habs | habs)
            · exact absurd hstarted habs
            · simp at habs
          · intro surface1 _ hsome
            simp only [Option.some.injEq] at hsome
            subst hsome
            simp only [lockTrace]
        | some c =>
          refine ⟨[Event.surfaceCreate
              { pixelFormat := frame.format.fourcc, width := frame.format.width,
                height := frame.format.height,
                allocSize := toInt64 (Int.ofNat frame.dataSize) } (some surface),
            Event.surfaceLock surface 0,
            Event.memcpy surface frame.data frame.dataSize, Event.surfaceUnlock surface 0,
            Event.send (some c) (XpcObject.dictionary
              [("message", .int64 (env.msg .FRAME_READY)),
               ("device", .string (c_str deviceId)), ("frame", .surface surface)]),
            Event.surfaceRelease surface], ?_, ?_, ?_, ?_⟩
          · simp only [write, hstarted, not_true_eq_false, if_false, hcreate, hconnection,
              Outcome.log, List.append_assoc, List.cons_append, List.nil_append]
          · simp [lockTrace, bracketed]
          · rintro (habs | habs)
            · exact absurd hstarted habs
            · simp at habs
          · intro surface1 _ hsome
            simp only [Option.some.injEq] at hsome
            subst hsome
            simp only [lockTrace]
    · refine ⟨[], ?_, ?_, ?_, ?_⟩
      · simp only [write, hstarted, not_false_eq_true, if_true, Outcome.log, List.append_nil]
      · simp only [lockTrace, bracketed, Option.isNone_none]
      · intro _
        simp only [lockTrace]
      · intro surface habs
        exact absurd habs hstarted
  · simp only [IpcBridgePrivate.frameReady]
    cases xpc_dictionary_get_string entries "device" with
    | none =>
      refine ⟨[], ?_, ?_, Or.inl ?_⟩
      · simp only [Dispatched.log, List.append_nil]
      · simp only [lockTrace, bracketed, Option.isNone_none]
      · simp only [lockTrace]
    | some deviceId2 =>
      simp only
      cases hlookup : env2.surfaceLookup log2 (xpc_dictionary_get_value entries "frame") with
      | none =>
        refine ⟨[Event.surfaceLookup (xpc_dictionary_get_value entries "frame") none],
          ?_, ?_, Or.inl ?_⟩
        · simp only [Dispatched.log]
        · simp only [lockTrace, bracketed, Option.isNone_none]
        · simp only [lockTrace]
      | some surface =>
        simp only
        obtain ⟨events, hlog, htrace⟩ := forBridges_log p (fun d => d.frameReadyCallback)
          (.frameReady deviceId2
            { format :=
                { fourcc := (env2.surfaceRead (log2 ++
                    [Event.surfaceLookup (xpc_dictionary_get_value entries "frame")
                       (some surface),
                     Event.surfaceLock surface kIOSurfaceLockReadOnly]) surface).pixelFormat,
                  width := toInt32 (Int.ofNat (env2.surfaceRead (log2 ++
                    [Event.surfaceLookup (xpc_dictionary_get_value entries "frame")
                       (some surface),
                     Event.surfaceLock surface kIOSurfaceLockReadOnly]) surface).width),
                  height := toInt32 (Int.ofNat (env2.surfaceRead (log2 ++
                    [Event.surfaceLookup (xpc_dictionary_get_value entries "frame")
                       (some surface),
                     Event.surfaceLock surface kIOSurfaceLockReadOnly]) surface).height),
                  frameRates := [] },
              data := (env2.surfaceRead (log2 ++
                [Event.surfaceLookup (xpc_dictionary_get_value entries "frame") (some surface),
                 Event.surfaceLock surface kIOSurfaceLockReadOnly]) surface).contents,
              dataSize := (env2.surfaceRead (log2 ++
                [Event.surfaceLookup (xpc_dictionary_get_value entries "frame") (some surface),
                 Event.surfaceLock surface kIOSurfaceLockReadOnly]) surface).allocSize })
          p.m_bridges
          (log2 ++
            [Event.surfaceLookup (xpc_dictionary_get_value entries "frame") (some surface),
             Event.surfaceLock surface kIOSurfaceLockReadOnly] ++
            [Event.surfaceUnlock surface kIOSurfaceLockReadOnly, Event.surfaceRelease surface])
        refine ⟨[Event.surfaceLookup (xpc_dictionary_get_value entries "frame") (some surface),
            Event.surfaceLock surface kIOSurfaceLockReadOnly,
            Event.surfaceUnlock surface kIOSurfaceLockReadOnly,
            Event.surfaceRelease surface] ++ events, ?_, ?_, Or.inr ⟨surface, ?_⟩⟩
        · rw [hlog]
          simp only [List.append_assoc, List.cons_append, List.nil_append]
        · rw [lockTrace_append, htrace]
          simp [lockTrace, bracketed]
        · rw [lockTrace_append, htrace]
          simp [lockTrace]

end AkVCam

namespace AkVCam

/-- C19 at sample inputs: a `write` of the sample frame to the started `cam0`,
    and the handling of the `FRAME_READY` event it causes. -/
theorem lock_brackets_witness :
    "cam0" ∈ Sample.streaming.broadcasting ∧
    lockTrace (write Sample.env Sample.streaming [] "cam0" Sample.frame).log
      = [Event.surfaceLock 7 0, Event.memcpy 7 [16, 128, 16, 128] 4,
         Event.surfaceUnlock 7 0] ∧
    lockTrace (write Sample.offline Sample.streaming [] "cam0" Sample.frame).log = [] ∧
    lockTrace (IpcBridgePrivate.frameReady Sample.env Sample.process [] 9
        [("message", .int64 16), ("device", .string "cam0"), ("frame", .surface 7)]).log
      = [Event.surfaceLock 7 1, Event.surfaceUnlock 7 1] ∧
    (∃ events, (write Sample.env Sample.streaming [] "cam0" Sample.frame).log = [] ++ events ∧
      bracketed none (lockTrace events) = true) ∧
    (∃ events, (IpcBridgePrivate.frameReady Sample.env Sample.process [] 9
        [("message", .int64 16), ("device", .string "cam0"), ("frame", .surface 7)]).log
        = [] ++ events ∧
      bracketed none (lockTrace events) = true) :=
  have h := lock_brackets Sample.env Sample.streaming [] "cam0" Sample.frame
    Sample.env Sample.process [] 9
    [("message", .int64 16), ("device", .string "cam0"), ("frame", .surface 7)]
  ⟨by decide, rfl, rfl, rfl,
   h.1.elim fun events he => ⟨events, he.1, he.2.1⟩,
   h.2.elim fun events he => ⟨events, he.1, he.2.1⟩⟩

/-! ## The started list -/

/-- A returning call other than `deviceStart` and `deviceStop` leaves the
    started list as it was. -/
theorem call_run_broadcasting (env : Env) (d d1 : IpcBridgePrivate) (log log1 : List Event)
    (c : Call) (hc : c.writesBroadcasting = false) (h : c.run env d log = .ret () d1 log1) :
    d1.broadcasting = d.broadcasting := by
  cases c with
  | registerEndPoint asClient =>
    obtain ⟨v, hv⟩ := Outcome.void_eq_ret _ _ _ h
    exact (registerEndPoint_frame _ _ _ _ _ _ _ hv).1
  | unregisterEndPoint => exact (unregisterEndPoint_frame _ _ _ _ _ h).1
  | listDevices all =>
    obtain ⟨v, hv⟩ := Outcome.void_eq_ret _ _ _ h
    rw [listDevices_frame _ _ _ _ _ _ _ hv]
  | description deviceId =>
    obtain ⟨v, hv⟩ := Outcome.void_eq_ret _ _ _ h
    rw [description_frame _ _ _ _ _ _ _ hv]
  | formats deviceId =>
    obtain ⟨v, hv⟩ := Outcome.void_eq_ret _ _ _ h
    rw [formats_frame _ _ _ _ _ _ _ hv]
  | broadcasting deviceId =>
    obtain ⟨v, hv⟩ := Outcome.void_eq_ret _ _ _ h
    rw [broadcasting_frame _ _ _ _ _ _ _ hv]
  | isHorizontalMirrored deviceId =>
    obtain ⟨v, hv⟩ := Outcome.void_eq_ret _ _ _ h
    rw [isHorizontalMirrored_frame _ _ _ _ _ _ _ hv]
  | isVerticalMirrored deviceId =>
    obtain ⟨v, hv⟩ := Outcome.void_eq_ret _ _ _ h
    rw [isVerticalMirrored_frame _ _ _ _ _ _ _ hv]
  | scalingMode deviceId =>
    obtain ⟨v, hv⟩ := Outcome.void_eq_ret _ _ _ h
    rw [scalingMode_frame _ _ _ _ _ _ _ hv]
  | aspectRatioMode deviceId =>
    obtain ⟨v, hv⟩ := Outcome.void_eq_ret _ _ _ h
    rw [aspectRatioMode_frame _ _ _ _ _ _ _ hv]
  | deviceCreate text formatList =>
    obtain ⟨v, hv⟩ := Outcome.void_eq_ret _ _ _ h
    exact deviceCreate_frame _ _ _ _ _ _ _ _ hv
  | deviceDestroy deviceId => exact deviceDestroy_frame _ _ _ _ _ _ h
  | deviceStart deviceId => simp [Call.writesBroadcasting] at hc
  | deviceStop deviceId => simp [Call.writesBroadcasting] at hc
  | write deviceId frame => rw [write_frame _ _ _ _ _ _ _ h]
  | setMirroring deviceId hm vm => rw [setMirroring_frame _ _ _ _ _ _ _ _ h]
  | setScaling deviceId scaling => rw [setScaling_frame _ _ _ _ _ _ _ h]
  | setAspectRatio deviceId aspectRatio => rw [setAspectRatio_frame _ _ _ _ _ _ _ h]
  | setFrameReadyCallback callback =>
    simp only [Call.run, AkVCam.setFrameReadyCallback, Outcome.ret.injEq, true_and] at h
    rw [← h.1]
  | setDeviceAddedCallback callback =>
    simp only [Call.run, AkVCam.setDeviceAddedCallback, Outcome.ret.injEq, true_and] at h
    rw [← h.1]
  | setDeviceRemovedCallback callback =>
    simp only [Call.run, AkVCam.setDeviceRemovedCallback, Outcome.ret.injEq, true_and] at h
    rw [← h.1]
  | setBroadcastingChangedCallback callback =>
    simp only [Call.run, AkVCam.setBroadcastingChangedCallback, Outcome.ret.injEq,
      true_and] at h
    rw [← h.1]
  | setMirrorChangedCallback callback =>
    simp only [Call.run, AkVCam.setMirrorChangedCallback, Outcome.ret.injEq, true_and] at h
    rw [← h.1]
  | setScalingChangedCallback callback =>
    simp only [Call.run, AkVCam.setScalingChangedCallback, Outcome.ret.injEq, true_and] at h
    rw [← h.1]
  | setAspectRatioChangedCallback callback =>
    simp only [Call.run, AkVCam.setAspectRatioChangedCallback, Outcome.ret.injEq,
      true_and] at h
    rw [← h.1]

/-- Handling an event that runs to its end leaves the process, so every
    private record, as it was. -/
theorem messageReceived_process (env : Env) (p p1 : Process) (log log1 : List Event)
    (client : Conn) (event : XpcObject)
    (h : IpcBridgePrivate.messageReceived env p log client event = .done p1 log1) :
    p1 = p := by
  simp only [IpcBridgePrivate.messageReceived] at h
  split at h
  · simp only [Dispatched.done.injEq] at h
    exact h.1.symm
  · split at h
    · split at h
      · rename_i handler _
        cases handler
        all_goals simp only [MessageHandler.call, IpcBridgePrivate.deviceCreated,
          IpcBridgePrivate.deviceDestroyed, IpcBridgePrivate.frameReady,
          IpcBridgePrivate.broadcastingChanged, IpcBridgePrivate.mirrorChanged,
          IpcBridgePrivate.scalingChanged, IpcBridgePrivate.aspectRatioChanged] at h
        all_goals repeat' split at h
        all_goals first
          | (simp only [reduceCtorEq] at h)
          | exact forBridges_process _ _ _ _ _ _ _ h
      · simp only [Dispatched.done.injEq] at h
        exact h.1.symm
    · simp only [Dispatched.done.injEq] at h
      exact h.1.symm

/-- C20: every returning call of a member function other than `deviceStart`
    and `deviceStop` (registration, unregistration, `deviceCreate`,
    `deviceDestroy`, `write`, the getters, the setters, the callback setters)
    leaves the started list as it was; the constructor leaves it empty; and the
    handling of any event by `messageReceived`, `DEVICE_BROADCASTING_CHANGED`
    for any device and value included, leaves every private record of the
    process, so every started list, as it was.  `deviceStart` and `deviceStop`
    of a client that holds a registry connection do write to it. -/
theorem started_list_frame (env : Env) (d : IpcBridgePrivate) (log : List Event)
    (p : Process) (client : Conn) (event : XpcObject) :
    (∀ (c : Call) d1 log1, c.writesBroadcasting = false →
      c.run env d log = .ret () d1 log1 → d1.broadcasting = d.broadcasting) ∧
    (∀ d1 log1, IpcBridgePrivate.construct env log = .ret () d1 log1 →
      d1.broadcasting = []) ∧
    (∀ p1 log1, IpcBridgePrivate.messageReceived env p log client event = .done p1 log1 →
      p1 = p ∧ ∀ b, (p1.d b).map (fun d0 => d0.broadcasting)
        = (p.d b).map (fun d0 => d0.broadcasting)) ∧
    (∀ deviceId entries c, d.serverMessagePort = some c → deviceId ∉ d.broadcasting →
      env.sendSync log (some c) (XpcObject.dictionary
        [("message", .int64 (env.msg .DEVICE_SETBROADCASTING)),
         ("device", .string (c_str deviceId)), ("broadcasting", .bool true)])
        = .dictionary entries →
      ∃ v d1 log1, deviceStart env d log deviceId = .ret v d1 log1 ∧
        d1.broadcasting = d.broadcasting ++ [deviceId]) ∧
    (∀ deviceId c, d.serverMessagePort = some c → deviceId ∈ d.broadcasting →
      ∃ d1 log1, deviceStop env d log deviceId = .ret () d1 log1 ∧
        d1.broadcasting = d.broadcasting.erase deviceId) := by
  refine ⟨?_, ?_, ?_, ?_, ?_⟩
  · intro c d1 log1 hc h
    exact call_run_broadcasting env d d1 log log1 c hc h
  · intro d1 log1 h
    simp only [IpcBridgePrivate.construct, Outcome.ret.injEq, true_and] at h
    rw [← h.1]
    rfl
  · intro p1 log1 h
    have hp := messageReceived_process env p p1 log log1 client event h
    subst hp
    exact ⟨rfl, fun _ => rfl⟩
  · intro deviceId entries c hc hmem hreply
    have hstart : deviceStart env d log deviceId
        = .ret (xpc_dictionary_get_bool entries "status")
            { d with broadcasting := d.broadcasting ++ [deviceId] }
            (log ++ [Event.sendSync (some c) (XpcObject.dictionary
              [("message", .int64 (env.msg .DEVICE_SETBROADCASTING)),
               ("device", .string (c_str deviceId)), ("broadcasting", .bool true)])]) := by
      simp only [deviceStart, hmem, if_false, hc, hreply, XpcObject.asDictionary]
    exact ⟨_, _, _, hstart, rfl⟩
  · intro deviceId c hc hmem
    have hstop : deviceStop env d log deviceId
        = .ret () { d with broadcasting := d.broadcasting.erase deviceId }
            (log ++ [Event.sendSync (some c) (XpcObject.dictionary
              [("message", .int64 (env.msg .DEVICE_SETBROADCASTING)),
               ("device", .string (c_str deviceId)), ("broadcasting", .bool false)])]) := by
      simp only [deviceStop, hmem, not_true_eq_false, if_false, hc]
    exact ⟨_, _, hstop, rfl⟩

/-- C20 at sample inputs: bridge 30 has started `cam0`; a
    `DEVICE_BROADCASTING_CHANGED` event saying that `cam0` stopped leaves its
    started list alone, and so does an unregistration. -/
theorem started_list_frame_witness :
    (∃ p1 log1, IpcBridgePrivate.messageReceived Sample.env Sample.process [] 9
        (.dictionary [("message", .int64 19), ("device", .string "cam0"),
                      ("broadcasting", .bool false)]) = .done p1 log1 ∧
      p1 = Sample.process ∧
      (p1.d 30).map (fun d0 => d0.broadcasting) = some ["cam0"]) ∧
    (Call.unregisterEndPoint.writesBroadcasting = false ∧
      ∃ d1 log1, Call.unregisterEndPoint.run Sample.env Sample.started [] = .ret () d1 log1 ∧
        d1.broadcasting = Sample.started.broadcasting) :=
  have h := started_list_frame Sample.env Sample.started [] Sample.process 9
    (.dictionary [("message", .int64 19), ("device", .string "cam0"),
                  ("broadcasting", .bool false)])
  ⟨⟨_, _, rfl, (h.2.2.1 _ _ rfl).1, rfl⟩,
   rfl, _, _, rfl, h.1 .unregisterEndPoint _ _ rfl rfl⟩

end AkVCam

namespace AkVCam

/-! ## Callback registration -/

/-- C21: each of the seven callback setters returns with its slot holding
    exactly the given callable, the other six slots, every other field and the
    log as they were; a second call on the same slot leaves only the second
    callable; and a notification pass over a bridge with that record calls the
    callable now in the slot, not a former one. -/
theorem callback_setters_replace (d : IpcBridgePrivate) (log : List Event)
    (callback callback2 : Callback) :
    (setFrameReadyCallback d log callback
        = .ret () { d with frameReadyCallback := callback } log ∧
      setDeviceAddedCallback d log callback
        = .ret () { d with deviceAddedCallback := callback } log ∧
      setDeviceRemovedCallback d log callback
        = .ret () { d with deviceRemovedCallback := callback } log ∧
      setBroadcastingChangedCallback d log callback
        = .ret () { d with broadcastingChangedCallback := callback } log ∧
      setMirrorChangedCallback d log callback
        = .ret () { d with mirrorChangedCallback := callback } log ∧
      setScalingChangedCallback d log callback
        = .ret () { d with scalingChangedCallback := callback } log ∧
      setAspectRatioChangedCallback d log callback
        = .ret () { d with aspectRatioChangedCallback := callback } log) ∧
    (setFrameReadyCallback { d with frameReadyCallback := callback } log callback2
        = setFrameReadyCallback d log callback2 ∧
      setDeviceAddedCallback { d with deviceAddedCallback := callback } log callback2
        = setDeviceAddedCallback d log callback2 ∧
      setDeviceRemovedCallback { d with deviceRemovedCallback := callback } log callback2
        = setDeviceRemovedCallback d log callback2 ∧
      setBroadcastingChangedCallback { d with broadcastingChangedCallback := callback } log
          callback2
        = setBroadcastingChangedCallback d log callback2 ∧
      setMirrorChangedCallback { d with mirrorChangedCallback := callback } log callback2
        = setMirrorChangedCallback d log callback2 ∧
      setScalingChangedCallback { d with scalingChangedCallback := callback } log callback2
        = setScalingChangedCallback d log callback2 ∧
      setAspectRatioChangedCallback { d with aspectRatioChangedCallback := callback } log
          callback2
        = setAspectRatioChangedCallback d log callback2) ∧
    (∀ (p : Process) (b : BridgePtr) (call : Notification),
      (p.d b = some { d with frameReadyCallback := callback } →
        p.invocations (fun d0 => d0.frameReadyCallback) call [b]
          = (callback.map fun handler => Event.callback b handler call).toList) ∧
      (p.d b = some { d with deviceAddedCallback := callback } →
        p.invocations (fun d0 => d0.deviceAddedCallback) call [b]
          = (callback.map fun handler => Event.callback b handler call).toList) ∧
      (p.d b = some { d with deviceRemovedCallback := callback } →
        p.invocations (fun d0 => d0.deviceRemovedCallback) call [b]
          = (callback.map fun handler => Event.callback b handler call).toList) ∧
      (p.d b = some { d with broadcastingChangedCallback := callback } →
        p.invocations (fun d0 => d0.broadcastingChangedCallback) call [b]
          = (callback.map fun handler => Event.callback b handler call).toList) ∧
      (p.d b = some { d with mirrorChangedCallback := callback } →
        p.invocations (fun d0 => d0.mirrorChangedCallback) call [b]
          = (callback.map fun handler => Event.callback b handler call).toList) ∧
      (p.d b = some { d with scalingChangedCallback := callback } →
        p.invocations (fun d0 => d0.scalingChangedCallback) call [b]
          = (callback.map fun handler => Event.callback b handler call).toList) ∧
      (p.d b = some { d with aspectRatioChangedCallback := callback } →
        p.invocations (fun d0 => d0.aspectRatioChangedCallback) call [b]
          = (callback.map fun handler => Event.callback b handler call).toList)) := by
  refine ⟨⟨rfl, rfl, rfl, rfl, rfl, rfl, rfl⟩, ⟨rfl, rfl, rfl, rfl, rfl, rfl, rfl⟩, ?_⟩
  intro p b call
  refine ⟨?_, ?_, ?_, ?_, ?_, ?_, ?_⟩
  all_goals intro hd
  all_goals cases callback
  all_goals simp [Process.invocations, hd]

/-- C21 at a sample input: bridge 10 of the sample process holds the frame
    callable 4 in a record that `setFrameReadyCallback` leaves, and a pass over
    it calls 4. -/
theorem callback_setters_replace_witness :
    setFrameReadyCallback { IpcBridgePrivate.fresh with deviceAddedCallback := some 1 } []
        (some 4)
      = .ret () { IpcBridgePrivate.fresh with
                  deviceAddedCallback := some 1, frameReadyCallback := some 4 } [] ∧
    Sample.process.d 10 = some { { IpcBridgePrivate.fresh with deviceAddedCallback := some 1 }
      with frameReadyCallback := some 4 } ∧
    Sample.process.invocations (fun d0 => d0.frameReadyCallback)
        (.frameReady "cam0" Sample.frame) [10]
      = ((some 4 : Callback).map fun handler =>
          Event.callback 10 handler (.frameReady "cam0" Sample.frame)).toList :=
  have h := callback_setters_replace
    { IpcBridgePrivate.fresh with deviceAddedCallback := some 1 } [] (some 4) none
  ⟨h.1.1, rfl, (h.2.2 Sample.process 10 (.frameReady "cam0" Sample.frame)).1 rfl⟩

/-! ## Replies that lack a field -/

/-- C23 at its failing input: a registered client whose registry answers with
    an empty dictionary.  `description` and `deviceCreate` hand the null
    result of `xpc_dictionary_get_string` to the `std::string` constructor,
    `listDevices(true)` and `formats` hand the null result of
    `xpc_dictionary_get_array` to `xpc_array_get_count`: each runs into
    undefined behaviour after sending its request, where the claim wants the
    empty string and the empty list.  The seven notification members read the
    device string of an event in the same way: an event of one of their kinds
    without a device string runs into undefined behaviour before any callback
    is called. -/
theorem missing_field_faults :
    Sample.registered.serverMessagePort = some 1 ∧
    description Sample.malformed Sample.registered [] "cam0"
      = .fault [Event.sendSync (some 1) (XpcObject.dictionary
          [("message", .int64 6), ("device", .string "cam0")])] ∧
    listDevices Sample.malformed Sample.registered [] true
      = .fault [Event.sendSync (some 1) (XpcObject.dictionary [("message", .int64 5)])] ∧
    formats Sample.malformed Sample.registered [] "cam0"
      = .fault [Event.sendSync (some 1) (XpcObject.dictionary
          [("message", .int64 7), ("device", .string "cam0")])] ∧
    deviceCreate Sample.malformed Sample.registered [] "Cam A" []
      = .fault [Event.system "launchctl list org.webcamoid.cmio.AkVCam.Assistant",
          Event.sendSync (some 1) (XpcObject.dictionary
            [("message", .int64 3), ("port", .string "port0"),
             ("description", .string "Cam A"), ("formats", .array [])])] ∧
    (∀ (env : Env) (d : IpcBridgePrivate) (log : List Event) (deviceId : String) (c : Conn)
        (entries : List (String × XpcObject)),
      d.serverMessagePort = some c →
      env.sendSync log (some c) (XpcObject.dictionary
        [("message", .int64 (env.msg .DESCRIPTION)), ("device", .string (c_str deviceId))])
        = .dictionary entries →
      xpc_dictionary_get_string entries "description" = none →
      ∀ v d1 log1, description env d log deviceId ≠ .ret v d1 log1) ∧
    (∀ (env : Env) (p : Process) (log : List Event) (client : Conn)
        (entries : List (String × XpcObject)) (handler : MessageHandler),
      (m_messageHandlers env).lookup (xpc_dictionary_get_int64 entries "message")
        = some handler →
      xpc_dictionary_get_string entries "device" = none →
      IpcBridgePrivate.messageReceived env p log client (.dictionary entries)
        = .fault log) ∧
    IpcBridgePrivate.messageReceived Sample.env Sample.process [] 9
        (.dictionary [("message", .int64 17)]) = .fault [] := by
  refine ⟨rfl, rfl, rfl, rfl, rfl, ?_, ?_, rfl⟩
  · intro env d log deviceId c entries hc hreply hnone v d1 log1
    simp only [description, hc, hreply, XpcObject.asDictionary, hnone, ne_eq, reduceCtorEq,
      not_false_eq_true]
  · intro env p log client entries handler hlookup hnone
    simp only [IpcBridgePrivate.messageReceived, XpcObject.isError, Bool.false_eq_true,
      if_false, XpcObject.asDictionary, hlookup]
    cases handler <;>
      simp only [MessageHandler.call, IpcBridgePrivate.deviceCreated,
        IpcBridgePrivate.deviceDestroyed, IpcBridgePrivate.frameReady,
        IpcBridgePrivate.broadcastingChanged, IpcBridgePrivate.mirrorChanged,
        IpcBridgePrivate.scalingChanged, IpcBridgePrivate.aspectRatioChanged, hnone]

/-! ## The started list and the registry's answer -/

/-- C24 at its failing input: a registered client with nothing started calls
    `deviceStart("cam0")` and the registry answers with a dictionary whose
    status is false.  The call returns `false` and yet `cam0` is in the started
    list afterwards; a second `deviceStart("cam0")` is then stopped by the
    guard without a request, and `write("cam0", frame)` sends a frame. -/
theorem deviceStart_false_still_recorded :
    Sample.registered.serverMessagePort = some 1 ∧
    "cam0" ∉ Sample.registered.broadcasting ∧
    deviceStart Sample.refusing Sample.registered [] "cam0"
      = .ret false { Sample.registered with broadcasting := ["cam0"] }
          [Event.sendSync (some 1) (XpcObject.dictionary
            [("message", .int64 12), ("device", .string "cam0"),
             ("broadcasting", .bool true)])] ∧
    deviceStart Sample.env { Sample.registered with broadcasting := ["cam0"] } [] "cam0"
      = .ret false { Sample.registered with broadcasting := ["cam0"] } [] ∧
    sentMessages (write Sample.env { Sample.registered with broadcasting := ["cam0"] } []
        "cam0" Sample.frame).log
      = [XpcObject.dictionary
          [("message", .int64 16), ("device", .string "cam0"), ("frame", .surface 7)]] ∧
    (∀ (env : Env) (d : IpcBridgePrivate) (log : List Event) (deviceId : String)
        (c : Conn) (entries : List (String × XpcObject)),
      d.serverMessagePort = some c →
      deviceId ∉ d.broadcasting →
      env.sendSync log (some c) (XpcObject.dictionary
        [("message", .int64 (env.msg .DEVICE_SETBROADCASTING)),
         ("device", .string (c_str deviceId)), ("broadcasting", .bool true)])
        = .dictionary entries →
      deviceStart env d log deviceId
        = .ret (xpc_dictionary_get_bool entries "status")
            { d with broadcasting := d.broadcasting ++ [deviceId] }
            (log ++ [Event.sendSync (some c) (XpcObject.dictionary
              [("message", .int64 (env.msg .DEVICE_SETBROADCASTING)),
               ("device", .string (c_str deviceId)), ("broadcasting", .bool true)])])) := by
  refine ⟨rfl, by decide, rfl, rfl, rfl, ?_⟩
  intro env d log deviceId c entries hc hmem hreply
  simp only [deviceStart, hmem, if_false, hc, hreply, XpcObject.asDictionary]

/-- C25 at its failing input: a client registers, starts `cam0` and
    unregisters, so `cam0` is in its started list and it holds no registry
    connection; `deviceStop("cam0")` then hands its request to
    `xpc_connection_send_message_with_reply_sync` with the null connection,
    which is undefined, and `cam0` is not taken out of the list.  `deviceStop`
    has no check of `serverMessagePort`, and does so on every record without a
    connection that has the id started.
    The rest of the claim holds: the started list of every reachable record,
    so of every record that a sequence of calls under any environments leaves
    of a newly constructed client, holds no id twice; on such a record that
    holds a registry connection, for an id in the list, `deviceStop` sends
    exactly one request, `DEVICE_SETBROADCASTING` with `broadcasting = false`,
    without reading the reply, and the id is not in the list afterwards; and
    for every record and an id that is not in the list `deviceStop` returns
    with the record and the log untouched. -/
theorem started_list_invariant :
    (Reachable Sample.started ∧ "cam0" ∈ Sample.started.broadcasting ∧
      Sample.started.serverMessagePort = none ∧
      deviceStop Sample.env Sample.started [] "cam0"
        = .fault [Event.sendSync none (XpcObject.dictionary
            [("message", .int64 12), ("device", .string "cam0"),
             ("broadcasting", .bool false)])]) ∧
    (∀ (env : Env) (d : IpcBridgePrivate) (log : List Event) (deviceId : String),
      deviceId ∈ d.broadcasting → d.serverMessagePort = none →
      deviceStop env d log deviceId
        = .fault (log ++ [Event.sendSync none (XpcObject.dictionary
            [("message", .int64 (env.msg .DEVICE_SETBROADCASTING)),
             ("device", .string (c_str deviceId)), ("broadcasting", .bool false)])])) ∧
    (∀ d : IpcBridgePrivate, Reachable d → d.broadcasting.Nodup) ∧
    (∀ (env : Env) (d : IpcBridgePrivate) (log : List Event) (deviceId : String) (c : Conn),
      Reachable d → deviceId ∈ d.broadcasting → d.serverMessagePort = some c →
      deviceStop env d log deviceId
        = .ret () { d with broadcasting := d.broadcasting.erase deviceId }
            (log ++ [Event.sendSync (some c) (XpcObject.dictionary
              [("message", .int64 (env.msg .DEVICE_SETBROADCASTING)),
               ("device", .string (c_str deviceId)), ("broadcasting", .bool false)])]) ∧
      deviceId ∉ d.broadcasting.erase deviceId) ∧
    (∀ (env : Env) (d : IpcBridgePrivate) (log : List Event) (deviceId : String),
      deviceId ∉ d.broadcasting → deviceStop env d log deviceId = .ret () d log) ∧
    (Reachable Sample.streaming ∧ "cam0" ∈ Sample.streaming.broadcasting ∧
      deviceStop Sample.env Sample.streaming [] "cam0"
        = .ret () Sample.registered
            [Event.sendSync (some 1) (XpcObject.dictionary
              [("message", .int64 12), ("device", .string "cam0"),
               ("broadcasting", .bool false)])]) := by
  refine ⟨⟨Sample.started_reachable, by decide, rfl, rfl⟩, ?_,
    fun d hr => hr.nodup_broadcasting, ?_, ?_,
    ⟨Sample.streaming_reachable, by decide, rfl⟩⟩
  · intro env d log deviceId hmem hnone
    simp only [deviceStop, hmem, not_true_eq_false, if_false, hnone]
  · intro env d log deviceId c hr hmem hc
    constructor
    · simp only [deviceStop, hmem, not_true_eq_false, if_false, hc]
    · intro hin
      exact ((List.Nodup.mem_erase_iff hr.nodup_broadcasting).1 hin).1 rfl
  · intro env d log deviceId hmem
    simp only [deviceStop, hmem, not_false_eq_true, if_true]

end AkVCam

namespace AkVCam

/-! ## Unregistration: the `REMOVE_PORT` message -/

/-- C26 as stated fails: a registered client that unregisters releases its
    listener connection first and sends `REMOVE_PORT` after that. -/
theorem unregisterEndPoint_releases_listener_first :
    unregisterEndPoint Sample.env Sample.registered [] = .ret () IpcBridgePrivate.fresh
      [Event.release 2,
       Event.send (some 1) (XpcObject.dictionary
         [("message", .int64 2), ("port", .string "port0")]),
       Event.release 1] ∧
    Sample.registered.messagePort = some 2 ∧ Sample.registered.serverMessagePort = some 1 :=
  ⟨rfl, rfl, rfl⟩

/-- C26 as amended: for every record, `unregisterEndPoint` first releases the
    listener connection if there is one; then, if there is a registry
    connection, it sends on it, without waiting for a reply, one `REMOVE_PORT`
    message carrying the port name (`portName.c_str()`, which is the port name
    itself when that holds no NUL character, as every name read from an XPC
    string does) when that name is not empty, and releases the registry
    connection after that.  These are all the events: a message is sent
    exactly when the record holds a registry connection and a non-empty port
    name, and then it is that single `REMOVE_PORT`. -/
theorem unregisterEndPoint_message (env : Env) (d : IpcBridgePrivate) (log : List Event) :
    (unregisterEndPoint env d log).log =
      log ++
        (match d.messagePort with
         | some m => [Event.release m]
         | none => []) ++
        (match d.serverMessagePort with
         | some c =>
           (if d.portName ≠ "" then
              [Event.send (some c) (XpcObject.dictionary
                [("message", .int64 (env.msg .REMOVE_PORT)), ("port", .string (c_str d.portName))])]
            else []) ++ [Event.release c]
         | none => []) ∧
    (∀ c, d.serverMessagePort = some c → d.portName ≠ "" →
      ∃ events, (unregisterEndPoint env d log).log = log ++ events ∧
        sentMessages events = [XpcObject.dictionary
          [("message", .int64 (env.msg .REMOVE_PORT)), ("port", .string (c_str d.portName))]]) ∧
    ((d.serverMessagePort = none ∨ d.portName = "") →
      ∃ events, (unregisterEndPoint env d log).log = log ++ events ∧
        sentMessages events = []) ∧
    ((∀ ch ∈ d.portName.data, ch ≠ Char.ofNat 0) → c_str d.portName = d.portName) := by
  have hlog : (unregisterEndPoint env d log).log =
      log ++
        (match d.messagePort with
         | some m => [Event.release m]
         | none => []) ++
        (match d.serverMessagePort with
         | some c =>
           (if d.portName ≠ "" then
              [Event.send (some c) (XpcObject.dictionary
                [("message", .int64 (env.msg .REMOVE_PORT)), ("port", .string (c_str d.portName))])]
            else []) ++ [Event.release c]
         | none => []) := by
    simp only [unregisterEndPoint, Outcome.log]
    cases d.messagePort <;> cases d.serverMessagePort <;> by_cases hp : d.portName = "" <;>
      simp [hp]
  refine ⟨hlog, ?_, ?_, c_str_of_no_nul d.portName⟩
  · intro c hc hp
    rw [hlog, hc, List.append_assoc]
    refine ⟨_, rfl, ?_⟩
    cases d.messagePort <;> simp [hp, sentMessages]
  · intro hor
    rw [hlog, List.append_assoc]
    refine ⟨_, rfl, ?_⟩
    rcases hor with hnone | hempty
    · rw [hnone]
      cases d.messagePort <;> simp [sentMessages]
    · cases d.messagePort <;> cases d.serverMessagePort <;> simp [hempty, sentMessages]

/-- C26 as amended, at sample inputs: a registered client sends one
    `REMOVE_PORT`; a freshly constructed one sends nothing. -/
theorem unregisterEndPoint_message_witness :
    (Sample.registered.serverMessagePort = some 1 ∧ Sample.registered.portName ≠ "" ∧
      ∃ events, (unregisterEndPoint Sample.env Sample.registered []).log = [] ++ events ∧
        sentMessages events = [XpcObject.dictionary
          [("message", .int64 (Sample.env.msg .REMOVE_PORT)),
           ("port", .string Sample.registered.portName)]]) ∧
    (IpcBridgePrivate.fresh.serverMessagePort = none ∧
      ∃ events, (unregisterEndPoint Sample.env IpcBridgePrivate.fresh []).log = [] ++ events ∧
        sentMessages events = []) :=
  ⟨⟨rfl, by decide,
    (unregisterEndPoint_message Sample.env Sample.registered []).2.1 1 rfl (by decide)⟩,
   rfl, (unregisterEndPoint_message Sample.env IpcBridgePrivate.fresh []).2.2.1 (Or.inl rfl)⟩

end AkVCam

namespace AkVCam

/-! ## Formats on the wire -/

theorem toUInt32_of_fits (n : Nat) (h : n < 2 ^ 32) : toUInt32 (Int.ofNat n) = n := by
  unfold toUInt32
  simp only [Int.ofNat_eq_coe]
  omega

theorem toInt32_of_range (w : Int) (h0 : -2 ^ 31 ≤ w) (h1 : w < 2 ^ 31) : toInt32 w = w := by
  unfold toInt32
  omega

/-- Decoding an encoded format whose fields fit their wire types gives the
    fourcc, width and height back, with the one frame rate that was sent. -/
theorem formats_decode_encode (env : Env) (f : VideoFormat) (hfourcc : f.fourcc < 2 ^ 32)
    (hw0 : -2 ^ 31 ≤ f.width) (hw1 : f.width < 2 ^ 31)
    (hh0 : -2 ^ 31 ≤ f.height) (hh1 : f.height < 2 ^ 31) :
    formats_decode (deviceCreate_encode env f)
      = some { fourcc := f.fourcc, width := f.width, height := f.height,
               frameRates := [env.minimumFrameRate f] } := by
  have h1 : xpc_dictionary_get_uint64
      [("fourcc", XpcObject.uint64 f.fourcc), ("width", XpcObject.int64 f.width),
       ("height", XpcObject.int64 f.height),
       ("fps", XpcObject.double (env.minimumFrameRate f))] "fourcc" = f.fourcc := by
    simp [xpc_dictionary_get_uint64, List.lookup]
  have h2 : xpc_dictionary_get_int64
      [("fourcc", XpcObject.uint64 f.fourcc), ("width", XpcObject.int64 f.width),
       ("height", XpcObject.int64 f.height),
       ("fps", XpcObject.double (env.minimumFrameRate f))] "width" = f.width := by
    simp [xpc_dictionary_get_int64, List.lookup]
  have h3 : xpc_dictionary_get_int64
      [("fourcc", XpcObject.uint64 f.fourcc), ("width", XpcObject.int64 f.width),
       ("height", XpcObject.int64 f.height),
       ("fps", XpcObject.double (env.minimumFrameRate f))] "height" = f.height := by
    simp [xpc_dictionary_get_int64, List.lookup]
  have h4 : xpc_dictionary_get_double
      [("fourcc", XpcObject.uint64 f.fourcc), ("width", XpcObject.int64 f.width),
       ("height", XpcObject.int64 f.height),
       ("fps", XpcObject.double (env.minimumFrameRate f))] "fps"
        = env.minimumFrameRate f := by
    simp [xpc_dictionary_get_double, List.lookup]
  simp only [formats_decode, deviceCreate_encode, XpcObject.asDictionary, h1, h2, h3, h4,
    toUInt32_of_fits _ hfourcc, toInt32_of_range _ hw0 hw1, toInt32_of_range _ hh0 hh1]

theorem formats_decode_encode_list (env : Env) (formatList : List VideoFormat)
    (hfit : ∀ f ∈ formatList, f.fourcc < 2 ^ 32 ∧
      (-2 ^ 31 ≤ f.width ∧ f.width < 2 ^ 31) ∧ (-2 ^ 31 ≤ f.height ∧ f.height < 2 ^ 31)) :
    (formatList.map (deviceCreate_encode env)).mapM formats_decode
      = some (formatList.map fun f =>
          { fourcc := f.fourcc, width := f.width, height := f.height,
            frameRates := [env.minimumFrameRate f] }) := by
  induction formatList with
  | nil => rfl
  | cons f rest ih =>
    have hf := hfit f (List.mem_cons_self _ _)
    have hrest := ih (fun g hg => hfit g (List.mem_cons_of_mem _ hg))
    simp only [List.map_cons, List.mapM_cons,
      formats_decode_encode env f hf.1 hf.2.1.1 hf.2.1.2 hf.2.2.1 hf.2.2.2, hrest]
    rfl

/-- C27: for every list of formats whose fourcc, width and height fit their
    wire integer types: the `formats` array of the `DEVICE_CREATE` request that
    `deviceCreate` sends has one dictionary per format, in order, with the
    fields `fourcc`, `width`, `height` and `fps`, the last being the format's
    minimum frame rate; the decoder of `formats()` maps that array to the list
    of the same formats, in order, each with the same fourcc, width and height
    and the one frame rate sent; and `formats()` returns that list when the
    reply carries the array. -/
theorem format_wire_round_trip (env : Env) (formatList : List VideoFormat)
    (hfit : ∀ f ∈ formatList, f.fourcc < 2 ^ 32 ∧
      (-2 ^ 31 ≤ f.width ∧ f.width < 2 ^ 31) ∧ (-2 ^ 31 ≤ f.height ∧ f.height < 2 ^ 31)) :
    (∀ (d : IpcBridgePrivate) (log : List Event) (text : String) (c m : Conn),
      d.serverMessagePort = some c → d.messagePort = some m →
      (startAssistant env log).1 = true →
      (deviceCreate env d log text formatList).log =
        (startAssistant env log).2 ++ [Event.sendSync (some c) (XpcObject.dictionary
          [("message", .int64 (env.msg .DEVICE_CREATE)), ("port", .string (c_str d.portName)),
           ("description", .string (c_str text)),
           ("formats", .array (formatList.map fun f =>
              XpcObject.dictionary
                [("fourcc", .uint64 f.fourcc), ("width", .int64 f.width),
                 ("height", .int64 f.height),
                 ("fps", .double (env.minimumFrameRate f))]))])]) ∧
    ((formatList.map fun f =>
        XpcObject.dictionary
          [("fourcc", .uint64 f.fourcc), ("width", .int64 f.width),
           ("height", .int64 f.height),
           ("fps", .double (env.minimumFrameRate f))]).mapM formats_decode
      = some (formatList.map fun f =>
          { fourcc := f.fourcc, width := f.width, height := f.height,
            frameRates := [env.minimumFrameRate f] })) ∧
    (∀ (env2 : Env) (d2 : IpcBridgePrivate) (log2 : List Event) (deviceId : String)
        (c2 : Conn) (entries : List (String × XpcObject)),
      d2.serverMessagePort = some c2 →
      env2.sendSync log2 (some c2) (XpcObject.dictionary
        [("message", .int64 (env2.msg .FORMATS)), ("device", .string (c_str deviceId))])
        = .dictionary entries →
      xpc_dictionary_get_array entries "formats" = some (formatList.map fun f =>
        XpcObject.dictionary
          [("fourcc", .uint64 f.fourcc), ("width", .int64 f.width),
           ("height", .int64 f.height),
           ("fps", .double (env.minimumFrameRate f))]) →
      formats env2 d2 log2 deviceId
        = .ret (formatList.map fun f =>
            { fourcc := f.fourcc, width := f.width, height := f.height,
              frameRates := [env.minimumFrameRate f] })
          d2 (log2 ++ [Event.sendSync (some c2) (XpcObject.dictionary
            [("message", .int64 (env2.msg .FORMATS)), ("device", .string (c_str deviceId))])])) := by
  have hdecode := formats_decode_encode_list env formatList hfit
  have hencode : (formatList.map fun f =>
        XpcObject.dictionary
          [("fourcc", .uint64 f.fourcc), ("width", .int64 f.width),
           ("height", .int64 f.height),
           ("fps", .double (env.minimumFrameRate f))])
      = formatList.map (deviceCreate_encode env) := rfl
  refine ⟨?_, ?_, ?_⟩
  · intro d log text c m hc hm hstart
    rw [hencode]
    simp only [deviceCreate, hstart, Bool.true_eq_false, if_false,
      registerEndPoint_of_registered env d _ false c hc, hc, hm]
    repeat' split
    all_goals rfl
  · rw [hencode]
    exact hdecode
  · intro env2 d2 log2 deviceId c2 entries hc2 hreply harray
    rw [hencode] at harray
    simp only [formats, hc2, hreply, XpcObject.asDictionary, harray, hdecode]

/-- C27 at a sample input: the format of the sample frame. -/
theorem format_wire_round_trip_witness :
    (∀ f ∈ [Sample.frame.format], f.fourcc < 2 ^ 32 ∧
      (-2 ^ 31 ≤ f.width ∧ f.width < 2 ^ 31) ∧ (-2 ^ 31 ≤ f.height ∧ f.height < 2 ^ 31)) ∧
    (deviceCreate Sample.env Sample.registered [] "Cam A" [Sample.frame.format]).log =
      [Event.system "launchctl list org.webcamoid.cmio.AkVCam.Assistant",
       Event.sendSync (some 1) (XpcObject.dictionary
         [("message", .int64 3), ("port", .string "port0"),
          ("description", .string "Cam A"),
          ("formats", .array [XpcObject.dictionary
             [("fourcc", .uint64 0x59555932), ("width", .int64 2), ("height", .int64 1),
              ("fps", .double 30)]])])] ∧
    [XpcObject.dictionary
       [("fourcc", .uint64 0x59555932), ("width", .int64 2), ("height", .int64 1),
        ("fps", .double 30)]].mapM formats_decode
      = some [{ fourcc := 0x59555932, width := 2, height := 1, frameRates := [30] }] :=
  have hfit : ∀ f ∈ [Sample.frame.format], f.fourcc < 2 ^ 32 ∧
      (-2 ^ 31 ≤ f.width ∧ f.width < 2 ^ 31) ∧ (-2 ^ 31 ≤ f.height ∧ f.height < 2 ^ 31) := by
    decide
  have h := format_wire_round_trip Sample.env [Sample.frame.format] hfit
  ⟨hfit, h.1 Sample.registered [] "Cam A" 1 2 rfl rfl rfl, h.2.1⟩

end AkVCam

namespace AkVCam

/-! ## Membership of the dispatch list -/

theorem remove_eq_erase (L : List BridgePtr) (b : BridgePtr) :
    IpcBridgePrivate.remove L b = L.erase b := by
  induction L with
  | nil => rfl
  | cons a rest ih =>
    by_cases h : a = b
    · simp [IpcBridgePrivate.remove, h]
    · simp [IpcBridgePrivate.remove, h, List.erase_cons, ih]

/-- C28: `add` appends the bridge at the end of the dispatch list; `remove`
    erases the first occurrence of the bridge, keeps all other entries in
    their order, and changes nothing when the bridge is absent, so that `add`
    followed by `remove` gives a list without the bridge back.
    In a process whose dispatch list is free of repetitions and holds exactly
    the live bridges (and is empty while the static instance is not yet
    constructed), the constructor of a bridge at an address that is not that
    of a live bridge returns, having run `startAssistant` for the new private
    record and once more when it is the first bridge of the process, with the
    bridge appended to the list once and the list again free of repetitions
    and equal to the live bridges; the destructor of a live bridge returns
    with the bridge erased from the list, the list again free of repetitions
    and equal to the live bridges, and a pass of a notification member over
    the list afterwards runs to its end without a call on the destroyed
    bridge. -/
theorem dispatch_set_membership (L : List BridgePtr) (b : BridgePtr) :
    IpcBridgePrivate.add L b = L ++ [b] ∧
    IpcBridgePrivate.remove L b = L.erase b ∧
    (∀ front back, L = front ++ b :: back → b ∉ front →
      IpcBridgePrivate.remove L b = front ++ back) ∧
    (b ∉ L → IpcBridgePrivate.remove L b = L) ∧
    (b ∉ L → IpcBridgePrivate.remove (IpcBridgePrivate.add L b) b = L) ∧
    (∀ (env : Env) (p : Process) (log : List Event),
      p.m_bridges = L →
      (p.m_bridges.Nodup ∧ (∀ x, x ∈ p.m_bridges ↔ (p.d x).isSome = true) ∧
        (p.ipcBridgePrivate_initialized = false → p.m_bridges = [])) →
      p.d b = none →
      ∃ p1,
        IpcBridge.construct env p log b
          = .done p1
              (if p.ipcBridgePrivate_initialized = true then (startAssistant env log).2
               else (startAssistant env (startAssistant env log).2).2) ∧
        p1.m_bridges = L ++ [b] ∧
        p1.m_bridges.count b = 1 ∧
        p1.d b = some IpcBridgePrivate.fresh ∧
        (∀ x, x ≠ b → p1.d x = p.d x) ∧
        p1.ipcBridgePrivate_initialized = true ∧
        (p1.m_bridges.Nodup ∧ (∀ x, x ∈ p1.m_bridges ↔ (p1.d x).isSome = true) ∧
          (p1.ipcBridgePrivate_initialized = false → p1.m_bridges = []))) ∧
    (∀ (env : Env) (p : Process) (log : List Event) (d : IpcBridgePrivate),
      p.m_bridges = L →
      (p.m_bridges.Nodup ∧ (∀ x, x ∈ p.m_bridges ↔ (p.d x).isSome = true) ∧
        (p.ipcBridgePrivate_initialized = false → p.m_bridges = [])) →
      p.d b = some d →
      ∃ p1,
        IpcBridge.destruct env p log b
          = .done p1 (unregisterEndPoint env d log).log ∧
        p1.m_bridges = L.erase b ∧
        b ∉ p1.m_bridges ∧
        p1.d b = none ∧
        (∀ x, x ≠ b → p1.d x = p.d x) ∧
        (p1.m_bridges.Nodup ∧ (∀ x, x ∈ p1.m_bridges ↔ (p1.d x).isSome = true) ∧
          (p1.ipcBridgePrivate_initialized = false → p1.m_bridges = [])) ∧
        ∀ (slot : IpcBridgePrivate → Callback) (call : Notification) (log2 : List Event),
          ∃ events,
            IpcBridgePrivate.forBridges p1 slot call p1.m_bridges log2
              = .done p1 (log2 ++ events) ∧
            callbacksOf b events = []) := by
  refine ⟨rfl, remove_eq_erase L b, ?_, ?_, ?_, ?_, ?_⟩
  · intro front back hL hfront
    rw [remove_eq_erase, hL, List.erase_append_right _ hfront, List.erase_cons_head]
  · intro hb
    rw [remove_eq_erase, List.erase_of_not_mem hb]
  · intro hb
    rw [remove_eq_erase, IpcBridgePrivate.add, List.erase_append_right _ hb,
      List.erase_cons_head, List.append_nil]
  · intro env p log hL hinv hfresh
    obtain ⟨hnodup, hlive, hboot⟩ := hinv
    have hnot : b ∉ p.m_bridges := by
      intro hmem
      have hsome := (hlive b).1 hmem
      rw [hfresh] at hsome
      exact absurd hsome (by decide)
    have hlist : (if p.ipcBridgePrivate_initialized = true then p.m_bridges else [])
        = p.m_bridges := by
      cases hinit : p.ipcBridgePrivate_initialized
      · simp only [Bool.false_eq_true, if_false]
        exact (hboot hinit).symm
      · simp only [if_true]
    have hnodup1 : (p.m_bridges ++ [b]).Nodup := by
      refine List.Nodup.append hnodup (List.nodup_singleton b) ?_
      intro x hx hxb
      rw [List.mem_singleton] at hxb
      exact hnot (hxb ▸ hx)
    have hlive1 : ∀ x, x ∈ p.m_bridges ++ [b] ↔
        (if x = b then some IpcBridgePrivate.fresh else p.d x).isSome = true := by
      intro x
      by_cases hx : x = b
      · simp [hx]
      · simp only [List.mem_append, List.mem_singleton, hx, or_false, if_false]
        exact hlive x
    have hcount : (p.m_bridges ++ [b]).count b = 1 := by
      rw [List.count_append, List.count_eq_zero_of_not_mem hnot]
      simp
    refine ⟨{ m_bridges := p.m_bridges ++ [b],
              d := fun x => if x = b then some IpcBridgePrivate.fresh else p.d x,
              ipcBridgePrivate_initialized := true }, ?_, ?_, hcount, ?_, ?_, rfl,
            hnodup1, hlive1, ?_⟩
    · cases hinit : p.ipcBridgePrivate_initialized
      · have hempty := hboot hinit
        simp only [IpcBridge.construct, IpcBridgePrivate.construct, ipcBridgePrivate,
          Process.setD, hinit, Bool.false_eq_true, if_false, IpcBridgePrivate.add, hempty,
          List.nil_append]
      · simp only [IpcBridge.construct, IpcBridgePrivate.construct, ipcBridgePrivate,
          Process.setD, hinit, if_true, IpcBridgePrivate.add]
    · rw [hL]
    · simp only [if_true]
    · intro x hx
      simp only [hx, if_false]
    · intro habs
      simp only [reduceCtorEq] at habs
  · intro env p log d hL hinv hd
    obtain ⟨hnodup, hlive, hboot⟩ := hinv
    have hmem : b ∈ p.m_bridges := (hlive b).2 (by rw [hd]; rfl)
    have hinit : p.ipcBridgePrivate_initialized = true := by
      cases hcase : p.ipcBridgePrivate_initialized
      · have hempty := hboot hcase
        rw [hempty] at hmem
        exact absurd hmem (List.not_mem_nil b)
      · rfl
    have hnot : b ∉ p.m_bridges.erase b := fun hin =>
      ((List.Nodup.mem_erase_iff hnodup).1 hin).1 rfl
    have hlive1 : ∀ x, x ∈ p.m_bridges.erase b ↔
        (if x = b then (none : Option IpcBridgePrivate) else p.d x).isSome = true := by
      intro x
      by_cases hx : x = b
      · subst hx
        simp only [if_true, Option.isSome_none, Bool.false_eq_true, iff_false]
        exact hnot
      · simp only [hx, if_false, List.Nodup.mem_erase_iff hnodup, ne_eq, not_false_eq_true,
          true_and]
        exact hlive x
    have hrun : IpcBridge.destruct env p log b
        = .done { m_bridges := p.m_bridges.erase b,
                  d := fun x => if x = b then none else p.d x,
                  ipcBridgePrivate_initialized := true }
            (unregisterEndPoint env d log).log := by
      simp only [IpcBridge.destruct, hd, unregisterEndPoint, ipcBridgePrivate, Process.setD,
        hinit, if_true, remove_eq_erase, Outcome.log, Dispatched.done.injEq, and_true,
        Process.mk.injEq, true_and]
      funext x
      by_cases hx : x = b
      · simp only [hx, if_true]
      · simp only [hx, if_false]
    refine ⟨_, hrun, ?_, hnot, ?_, ?_, ⟨List.Nodup.erase b hnodup, hlive1, ?_⟩, ?_⟩
    · rw [hL]
    · simp only [if_true]
    · intro x hx
      simp only [hx, if_false]
    · intro habs
      simp only [reduceCtorEq] at habs
    · intro slot call log2
      refine ⟨_, forBridges_live _ slot call _ log2 (fun x hx => (hlive1 x).1 hx), ?_⟩
      rw [callbacksOf_invocations _ slot call _ (List.Nodup.erase b hnodup) b]
      simp only [hnot, if_false]

/-- C28 at sample inputs: in a process without bridges the bridges 20, 10
    and 30 are constructed, in that order, and then bridge 10 is destroyed;
    and bridge 10 of the three sample bridges is destroyed. -/
theorem dispatch_set_membership_witness :
    IpcBridgePrivate.remove [20, 10, 30, 10] 10 = [20, 30, 10] ∧
    (Sample.boot.m_bridges.Nodup ∧
      (∀ x, x ∈ Sample.boot.m_bridges ↔ (Sample.boot.d x).isSome = true) ∧
      (Sample.boot.ipcBridgePrivate_initialized = false → Sample.boot.m_bridges = [])) ∧
    (∃ p1 log1, IpcBridge.construct Sample.env Sample.boot [] 20 = .done p1 log1 ∧
      p1.m_bridges = [20] ∧
      log1 = [Event.system "launchctl list org.webcamoid.cmio.AkVCam.Assistant",
              Event.system "launchctl list org.webcamoid.cmio.AkVCam.Assistant"] ∧
      ∃ p2 log2, IpcBridge.construct Sample.env p1 log1 10 = .done p2 log2 ∧
        p2.m_bridges = [20, 10] ∧
        ∃ p3 log3, IpcBridge.construct Sample.env p2 log2 30 = .done p3 log3 ∧
          p3.m_bridges = [20, 10, 30] ∧
          ∃ p4 log4, IpcBridge.destruct Sample.env p3 log3 10 = .done p4 log4 ∧
            p4.m_bridges = [20, 30] ∧ p4.d 10 = none) ∧
    (∃ p1,
      IpcBridge.construct Sample.env Sample.boot [] 20
        = .done p1
            (if Sample.boot.ipcBridgePrivate_initialized = true then
               (startAssistant Sample.env []).2
             else (startAssistant Sample.env (startAssistant Sample.env []).2).2) ∧
      p1.m_bridges = [] ++ [20] ∧
      p1.m_bridges.count 20 = 1 ∧
      p1.d 20 = some IpcBridgePrivate.fresh ∧
      (∀ x, x ≠ 20 → p1.d x = Sample.boot.d x) ∧
      p1.ipcBridgePrivate_initialized = true ∧
      (p1.m_bridges.Nodup ∧ (∀ x, x ∈ p1.m_bridges ↔ (p1.d x).isSome = true) ∧
        (p1.ipcBridgePrivate_initialized = false → p1.m_bridges = []))) ∧
    (Sample.process.m_bridges.Nodup ∧
      (∀ x, x ∈ Sample.process.m_bridges ↔ (Sample.process.d x).isSome = true) ∧
      (Sample.process.ipcBridgePrivate_initialized = false → Sample.process.m_bridges = [])) ∧
    (∃ p1,
      IpcBridge.destruct Sample.env Sample.process [] 10
        = .done p1
            (unregisterEndPoint Sample.env
              { IpcBridgePrivate.fresh with
                deviceAddedCallback := some 1, frameReadyCallback := some 4 } []).log ∧
      p1.m_bridges = [20, 10, 30].erase 10 ∧
      10 ∉ p1.m_bridges ∧
      p1.d 10 = none ∧
      (∀ x, x ≠ 10 → p1.d x = Sample.process.d x) ∧
      (p1.m_bridges.Nodup ∧ (∀ x, x ∈ p1.m_bridges ↔ (p1.d x).isSome = true) ∧
        (p1.ipcBridgePrivate_initialized = false → p1.m_bridges = [])) ∧
      ∀ (slot : IpcBridgePrivate → Callback) (call : Notification) (log2 : List Event),
        ∃ events,
          IpcBridgePrivate.forBridges p1 slot call p1.m_bridges log2
            = .done p1 (log2 ++ events) ∧
          callbacksOf 10 events = []) :=
  have hboot : Sample.boot.m_bridges.Nodup ∧
      (∀ x, x ∈ Sample.boot.m_bridges ↔ (Sample.boot.d x).isSome = true) ∧
      (Sample.boot.ipcBridgePrivate_initialized = false → Sample.boot.m_bridges = []) :=
    ⟨List.nodup_nil, fun x => by simp [Sample.boot], fun _ => rfl⟩
  have hprocess : Sample.process.m_bridges.Nodup ∧
      (∀ x, x ∈ Sample.process.m_bridges ↔ (Sample.process.d x).isSome = true) ∧
      (Sample.process.ipcBridgePrivate_initialized = false →
        Sample.process.m_bridges = []) := by
    refine ⟨by decide, ?_, fun habs => absurd habs (by decide)⟩
    intro x
    simp only [Sample.process, List.mem_cons, List.mem_singleton]
    by_cases h10 : x = 10
    · simp [h10]
    · by_cases h20 : x = 20
      · simp [h20]
      · by_cases h30 : x = 30
        · simp [h30]
        · simp [h10, h20, h30]
  ⟨rfl, hboot,
   ⟨_, _, rfl, rfl, rfl, _, _, rfl, rfl, _, _, rfl, rfl, _, _, rfl, rfl, rfl⟩,
   (dispatch_set_membership [] 20).2.2.2.2.2.1 Sample.env Sample.boot [] rfl hboot rfl,
   hprocess,
   (dispatch_set_membership [20, 10, 30] 10).2.2.2.2.2.2 Sample.env Sample.process [] _
     rfl hprocess rfl⟩

end AkVCam

namespace MediaTools

/-! ## The state of the virtual camera element in the shell -/

/-- C29, as stated: with the virtual camera switched off, the source playing
    the virtual camera's own stream and the element present,
    `setVirtualCameraState(Playing)` sets the element to Playing. -/
theorem setVirtualCameraState_plays_when_disabled :
    selfBlocking sampleDisabled ∧
    sampleDisabled.m_enableVirtualCamera = false ∧
    (setVirtualCameraState sampleDisabled .ElementStatePlaying).2
      = some .ElementStatePlaying ∧
    (setVirtualCameraState sampleDisabled .ElementStatePlaying).1.m_virtualCamera
      = some { media := "/dev/video9", state := .ElementStatePlaying } :=
  ⟨⟨_, rfl, rfl, rfl⟩, rfl, rfl, rfl⟩

/-- C29, amended: when the element exists, the source is playing the stream
    that is the virtual camera's own media and the virtual camera is switched
    on, `setVirtualCameraState(s)` never sets the element to Playing, a
    requested Playing being replaced by Paused and any other state being set
    as requested, and `updateVCamState()` sets Paused; in the same situation
    with the virtual camera switched off, `updateVCamState()` sets Null and
    `setVirtualCameraState(s)` sets the requested state. Outside that
    situation, or with the virtual camera switched off,
    `setVirtualCameraState(s)` sets exactly the requested state on an existing
    element; without an element neither function sets a state. -/
theorem self_blocking_prevention (d : MediaToolsPrivate) (s : ElementState) :
    (selfBlocking d → d.m_enableVirtualCamera = true →
      (setVirtualCameraState d s).2 ≠ some .ElementStatePlaying ∧
      (setVirtualCameraState d .ElementStatePlaying).2 = some .ElementStatePaused ∧
      (s ≠ .ElementStatePlaying → (setVirtualCameraState d s).2 = some s) ∧
      (updateVCamState d).2 = some .ElementStatePaused) ∧
    (selfBlocking d → d.m_enableVirtualCamera = false →
      (updateVCamState d).2 = some .ElementStateNull ∧
      (setVirtualCameraState d s).2 = some s) ∧
    (selfBlocking d → (updateVCamState d).2 ≠ some .ElementStatePlaying) ∧
    (∀ vcam, d.m_virtualCamera = some vcam →
      (¬ selfBlocking d ∨ d.m_enableVirtualCamera = false ∨ s ≠ .ElementStatePlaying) →
      setVirtualCameraState d s = (setState d vcam s, some s)) ∧
    (∀ vcam, d.m_virtualCamera = some vcam → selfBlocking d →
      d.m_enableVirtualCamera = true →
      setVirtualCameraState d .ElementStatePlaying
        = (setState d vcam .ElementStatePaused, some .ElementStatePaused)) ∧
    (d.m_virtualCamera = none →
      setVirtualCameraState d s = (d, none) ∧ updateVCamState d = (d, none)) := by
  refine ⟨?_, ?_, ?_, ?_, ?_, ?_⟩
  · rintro ⟨vcam, hv, hstate, hstream⟩ hflag
    refine ⟨?_, ?_, ?_, ?_⟩
    · simp only [setVirtualCameraState, hv, hflag, hstate, hstream, true_and, and_true]
      by_cases hs : s = .ElementStatePlaying
      · simp [hs]
      · simp [hs]
    · simp only [setVirtualCameraState, hv, hflag, hstate, hstream, and_self, if_true]
    · intro hs
      simp only [setVirtualCameraState, hv, hflag, hstate, hstream, hs, false_and, and_false,
        if_false]
    · simp only [updateVCamState, hv, hflag, hstate, hstream, if_true]
  · rintro ⟨vcam, hv, hstate, hstream⟩ hflag
    refine ⟨?_, ?_⟩
    · simp only [updateVCamState, hv, hflag, Bool.false_eq_true, if_false]
    · simp only [setVirtualCameraState, hv, hflag, Bool.false_eq_true, false_and, if_false]
  · rintro ⟨vcam, hv, hstate, hstream⟩
    cases hflag : d.m_enableVirtualCamera
    · simp [updateVCamState, hv, hflag]
    · simp [updateVCamState, hv, hflag, hstate, hstream]
  · intro vcam hv hcase
    have hcond : ¬ (d.m_enableVirtualCamera = true
        ∧ s = .ElementStatePlaying
        ∧ d.m_mediaSource.state = .ElementStatePlaying
        ∧ d.m_mediaSource.stream = vcam.media) := by
      rintro ⟨hflag, hs, hstate, hstream⟩
      rcases hcase with h | h | h
      · exact h ⟨vcam, hv, hstate, hstream⟩
      · rw [hflag] at h
        exact absurd h (by decide)
      · exact h hs
    simp only [setVirtualCameraState, hv, hcond, if_false]
  · rintro vcam hv ⟨vcam1, hv1, hstate, hstream⟩ hflag
    have hsame : vcam1 = vcam := by
      rw [hv] at hv1
      exact (Option.some.inj hv1).symm
    subst hsame
    simp only [setVirtualCameraState, hv, hflag, hstate, hstream, and_self, if_true]
  · intro hv
    simp only [setVirtualCameraState, updateVCamState, hv, and_self]

/-- C29 amended, at a sample input: the source plays the virtual camera's
    own stream and the virtual camera is switched on. -/
theorem self_blocking_prevention_witness :
    selfBlocking sampleEnabled ∧ sampleEnabled.m_enableVirtualCamera = true ∧
    (setVirtualCameraState sampleEnabled .ElementStatePlaying).2
      ≠ some .ElementStatePlaying ∧
    (setVirtualCameraState sampleEnabled .ElementStatePlaying).2
      = some .ElementStatePaused ∧
    (ElementState.ElementStatePlaying ≠ .ElementStatePlaying →
      (setVirtualCameraState sampleEnabled .ElementStatePlaying).2
        = some .ElementStatePlaying) ∧
    (updateVCamState sampleEnabled).2 = some .ElementStatePaused :=
  have hblock : selfBlocking sampleEnabled := ⟨_, rfl, rfl, rfl⟩
  ⟨hblock, rfl, (self_blocking_prevention sampleEnabled .ElementStatePlaying).1 hblock rfl⟩

end MediaTools
